import Mathlib

/-!
# OCP NVMe plugin (`plugins/ocp/ocp-nvme.c`): shallow embedding

Conventions of the embedding.

* A C byte buffer is a `List Nat`; a `__u8` read of cell `i` is `u8 buf i`
  (cell value reduced modulo 256, cells past the end read as 0).
* C `int` values are `Int`; conversions to and from `__u32` / `__u64` are
  explicit (`to_u32`, `to_u64`, `to_int`).  C `/` and `%` on `int` are
  `Int.tdiv` and `Int.tmod` (truncation towards zero).
* The host is little-endian, so a native read of a `__le16` field and
  `le16_to_cpu` coincide.
* Calls into the kernel or into the NVMe library are recorded, in program
  order, in a trace of `Event`s together with the value each call returned.
  The values returned by the outside world come from an `Env`.
* `printf` / `fprintf` progress and diagnostic messages are not modelled; of the
  progress message of `extract_dump_get_log` only the arithmetic is.
-/

namespace OcpNvme

/-! ## Machine integers and byte buffers -/

/-- Conversion of a C integer to `__u32`. -/
def to_u32 (x : Int) : Nat := (x % 2 ^ 32).toNat

/-- Conversion of a C integer to `__u64`. -/
def to_u64 (x : Int) : Nat := (x % 2 ^ 64).toNat

/-- Conversion of an unsigned value to (32-bit, two's complement) `int`. -/
def to_int (x : Nat) : Int :=
  if x % 2 ^ 32 < 2 ^ 31 then ((x % 2 ^ 32 : Nat) : Int) else ((x % 2 ^ 32 : Nat) : Int) - 2 ^ 32

/-- Read of cell `i` of a byte buffer as `__u8`. -/
def u8 (buf : List Nat) (i : Nat) : Nat := buf.getD i 0 % 256

/-- Little-endian unsigned value of the `n` bytes starting at `off`. -/
def le_bytes (buf : List Nat) (off : Nat) : Nat → Nat
  | 0 => 0
  | n + 1 => u8 buf off + 256 * le_bytes buf (off + 1) n

/-- `le16_to_cpu(*(uint16_t *)&buf[off])` -/
def le16_to_cpu (buf : List Nat) (off : Nat) : Nat := le_bytes buf off 2

/-- `le32_to_cpu(*(uint32_t *)&buf[off])` -/
def le32_to_cpu (buf : List Nat) (off : Nat) : Nat := le_bytes buf off 4

/-- `le64_to_cpu(*(uint64_t *)&buf[off])` -/
def le64_to_cpu (buf : List Nat) (off : Nat) : Nat := le_bytes buf off 8

/-- Buffer of `size` zeroed bytes (`memset`/`calloc`) overwritten from its
start by the bytes `d` that a device read delivered. -/
def fillBuf (size : Nat) (d : List Nat) : List Nat :=
  (d ++ List.replicate size 0).take size

/-! ## The outside world -/

/-- One call into the kernel or the NVMe library, with the value it returned. -/
inductive Event where
  /-- `get_telemetry_header`: the admin pass-through get-log-page command. -/
  | admin_get_log (nsid cdw10 cdw11 data_len : Nat) (ret : Int)
  /-- `nvme_get_log14(fd, nsid, log_id, lsp, offset, 0, rae, 0, len, data)` -/
  | nvme_get_log14 (nsid log_id lsp offset : Nat) (rae : Bool) (len : Int) (ret : Int)
  /-- `open(path, O_WRONLY | O_CREAT | O_TRUNC, 0666)` -/
  | open_trunc (path : String) (ret : Int)
  /-- `write(fd, buf, count)` -/
  | write (fd : Int) (buf : List Nat) (count : Int) (ret : Int)
  /-- `close(fd)` -/
  | close (fd : Int)
  /-- `fstat(fd, &nvme_stat)` -/
  | fstat (ret : Int)
  /-- `nvme_get_nsid(fd)` -/
  | nvme_get_nsid (ret : Int)
  /-- `nvme_identify_ctrl(fd, &ctrl)` -/
  | nvme_identify_ctrl (ret : Int)
  /-- `nvme_sec_send(fd, 0, 0, spsp, secp, tl, tl, payload, &result)` -/
  | nvme_sec_send (spsp secp tl : Nat) (payload : List Nat) (ret : Int)
  /-- `nvme_sec_recv(fd, 0, 0, spsp, secp, al, al, payload, &result)` -/
  | nvme_sec_recv (spsp secp al : Nat) (ret : Int)
  deriving DecidableEq

/-- What the outside world answers during one telemetry extraction. -/
structure Env where
  /-- status and bytes delivered by the header fetch -/
  header : Int × List Nat
  /-- status and bytes delivered by the chunk read of loop iteration `i` -/
  getLog : Nat → Int × List Nat
  /-- value returned by `open` -/
  openRes : Int
  /-- value returned by the `write` of loop iteration `i` -/
  writeRes : Nat → Int

/-! ## Telemetry log: `extract_dump_get_log` -/

def TELEMETRY_HEADER_SIZE : Nat := 512
def TELEMETRY_BYTE_PER_BLOCK : Nat := 512
def TELEMETRY_TRANSFER_SIZE : Nat := 1024

/-- `total_loop_cnt` after lines 1082-1088. -/
def total_loop_cnt (dumpsize transfersize : Int) : Int :=
  if Int.tmod dumpsize transfersize ≠ 0 then Int.tdiv dumpsize transfersize + 1
  else Int.tdiv dumpsize transfersize

/-- `last_xfer_size` after lines 1082-1088. -/
def last_xfer_size (dumpsize transfersize : Int) : Int :=
  if Int.tmod dumpsize transfersize ≠ 0 then Int.tmod dumpsize transfersize
  else transfersize

/-- The `write` of one loop iteration and what follows it: on a negative
result `err = -10; goto close_output`, otherwise the rest of the loop `rest`. -/
def dump_write (wres : Int) (pre : List Event) (output : Int) (rest : Int × List Event) :
    Int × List Event :=
  if wres < 0 then (-10, pre ++ [Event.close output]) else (rest.1, pre ++ rest.2)

/-- The `for` loop of `extract_dump_get_log` (lines 1092-1123) followed by the
labels `close_output` and `end`.  The first argument is the number of
iterations still to run, `i` the loop counter, `offset` and `output` the
current values of these variables.  The result is `err` and the trace. -/
def dump_loop (env : Env) (filepath : String) (transfersize last_xfer cnt : Int)
    (nsid log_id lsp : Nat) (rae : Bool) : Nat → Nat → Nat → Int → Int × List Event
  | 0, _, _, output => (0, [Event.close output])
  | n + 1, i, offset, output =>
    let r := env.getLog i
    let data := fillBuf transfersize.toNat r.2
    let rd := Event.nvme_get_log14 nsid log_id lsp offset rae transfersize r.1
    let offset1 := to_u64 ((offset : Int) + transfersize)
    if r.1 ≠ 0 then
      if 0 < i then (r.1, [rd, Event.close output]) else (r.1, [rd])
    else if (i : Int) ≠ cnt - 1 then
      if i = 0 then
        let fd := env.openRes
        if fd < 0 then (-13, [rd, Event.open_trunc filepath fd])
        else
          dump_write (env.writeRes i)
            [rd, Event.open_trunc filepath fd, Event.write fd data transfersize (env.writeRes i)]
            fd (dump_loop env filepath transfersize last_xfer cnt nsid log_id lsp rae
              n (i + 1) offset1 fd)
      else
        dump_write (env.writeRes i)
          [rd, Event.write output data transfersize (env.writeRes i)]
          output (dump_loop env filepath transfersize last_xfer cnt nsid log_id lsp rae
            n (i + 1) offset1 output)
    else
      dump_write (env.writeRes i)
        [rd, Event.write output data last_xfer (env.writeRes i)]
        output (dump_loop env filepath transfersize last_xfer cnt nsid log_id lsp rae
          n (i + 1) offset1 output)

/-- `extract_dump_get_log` (lines 1073-1132).  `filename` is unused by the
source.  The loop runs while `i < total_loop_cnt`, that is
`total_loop_cnt.toNat` times unless it is left early; `output` starts as 0. -/
def extract_dump_get_log (env : Env) (featurename filename sn : String)
    (dumpsize transfersize : Int) (nsid log_id lsp offset : Nat) (rae : Bool) :
    Int × List Event :=
  let filepath := "/" ++ featurename ++ "_" ++ sn ++ ".bin"
  let _unused := filename
  dump_loop env filepath transfersize (last_xfer_size dumpsize transfersize)
    (total_loop_cnt dumpsize transfersize) nsid log_id lsp rae
    (total_loop_cnt dumpsize transfersize).toNat 0 offset 0

/-- The product `(i + 1) * 100` of the progress message of line 1122, in exact
arithmetic. -/
def progress_product (i : Int) : Int := (i + 1) * 100

/-- The percentage `(i + 1) * 100 / total_loop_cnt` printed after the chunk of
loop iteration `i` (line 1122).  The product is an `int`: it is taken modulo
`2 ^ 32` into the signed range. -/
def progress_percent (i total_loop_cnt : Int) : Int :=
  Int.tdiv (to_int (to_u32 (progress_product i))) total_loop_cnt

/-! ## Telemetry log: `get_telemetry_dump` -/

def TELEMETRY_TYPE_NONE : Nat := 0
def TELEMETRY_TYPE_HOST : Nat := 7
def TELEMETRY_TYPE_CONTROLLER : Nat := 8
def TELEMETRY_TYPE_HOST_0 : Nat := 9
def TELEMETRY_TYPE_HOST_1 : Nat := 10

/-- `logheader->DataArea1LastBlock` read through `le16_to_cpu`
(`struct telemetry_initiated_log`, byte offset 1 + 4 + 3 = 8). -/
def DataArea1LastBlock (data : List Nat) : Nat := le16_to_cpu data 8

/-- `logheader->DataArea2LastBlock` read through `le16_to_cpu` (byte offset 10). -/
def DataArea2LastBlock (data : List Nat) : Nat := le16_to_cpu data 10

/-- `logheader->DataArea3LastBlock` read through `le16_to_cpu` (byte offset 12). -/
def DataArea3LastBlock (data : List Nat) : Nat := le16_to_cpu data 12

/-- `get_telemetry_header` (lines 1015-1038): one admin get-log-page command;
returns the status of the pass-through call.  `tele_type`, `nLSP` and `nRAE`
are `__u8` parameters. -/
def get_telemetry_header (env : Env) (ns tele_type data_len nLSP nRAE : Nat) :
    Int × List Event :=
  let numd := to_u32 (((data_len >>> 2 : Nat) : Int) - 1)
  let numdu := (numd >>> 16) % 2 ^ 16
  let numdl := (numd &&& 0xffff) % 2 ^ 16
  let cdw10 := (tele_type ||| ((nLSP &&& 0x0F) <<< 8) ||| ((nRAE &&& 0x01) <<< 15)
    ||| ((numdl &&& 0xFFFF) <<< 16)) % 2 ^ 32
  let cdw11 := numdu
  (env.header.1, [Event.admin_get_log ns cdw10 cdw11 data_len env.header.1])

/-- The variable `offset` (a `__u64`) after the `switch (data_area)` of
`get_telemetry_dump` (lines 1173-1197); the right-hand sides are `int`
expressions. -/
def area_offset (data : List Nat) (data_area : Int) : Nat :=
  if data_area = 1 then TELEMETRY_HEADER_SIZE
  else if data_area = 2 then
    to_u64 ((TELEMETRY_HEADER_SIZE : Int)
      + (DataArea1LastBlock data : Int) * (TELEMETRY_BYTE_PER_BLOCK : Int))
  else if data_area = 3 then
    to_u64 ((TELEMETRY_HEADER_SIZE : Int)
      + (DataArea2LastBlock data : Int) * (TELEMETRY_BYTE_PER_BLOCK : Int))
  else 0

/-- The variable `size` (a `__u64`, counted in blocks) after the
`switch (data_area)` of `get_telemetry_dump`; the differences are `int`
expressions converted to `__u64`. -/
def area_size (data : List Nat) (data_area : Int) : Nat :=
  if data_area = 1 then DataArea1LastBlock data
  else if data_area = 2 then
    to_u64 ((DataArea2LastBlock data : Int) - (DataArea1LastBlock data : Int))
  else if data_area = 3 then
    to_u64 ((DataArea3LastBlock data : Int) - (DataArea2LastBlock data : Int))
  else 0

/-- The argument `size * TELEMETRY_BYTE_PER_BLOCK` of line 1209: a `__u64`
product received by the `int dumpsize` parameter. -/
def dump_size (data : List Nat) (data_area : Int) : Int :=
  to_int (area_size data data_area * TELEMETRY_BYTE_PER_BLOCK % 2 ^ 64)

/-- The buffer `char data[TELEMETRY_TRANSFER_SIZE] = {0,}` of
`get_telemetry_dump` after the header fetch stored `TELEMETRY_HEADER_SIZE`
bytes in it. -/
def header_buf (env : Env) : List Nat :=
  fillBuf TELEMETRY_TRANSFER_SIZE (env.header.2.take TELEMETRY_HEADER_SIZE)

/-- `featurename` after the `if` chain of lines 1143-1157. -/
def variant_featurename (tele_type : Nat) : String :=
  if tele_type = TELEMETRY_TYPE_HOST_0 then "Host(0)"
  else if tele_type = TELEMETRY_TYPE_HOST_1 then "Host(1)" else "Controller"

/-- `lsp` after the `if` chain of lines 1143-1157. -/
def variant_lsp (tele_type : Nat) : Nat :=
  if tele_type = TELEMETRY_TYPE_HOST_0 then 0
  else if tele_type = TELEMETRY_TYPE_HOST_1 then 1 else 0

/-- `rae` after the `if` chain of lines 1143-1157. -/
def variant_rae (tele_type : Nat) : Nat :=
  if tele_type = TELEMETRY_TYPE_HOST_0 then 0
  else if tele_type = TELEMETRY_TYPE_HOST_1 then 0 else 1

/-- `tele_type` after the `if` chain of lines 1143-1157 (both host variants
become `TELEMETRY_TYPE_HOST`, any other value is kept). -/
def variant_log_id (tele_type : Nat) : Nat :=
  if tele_type = TELEMETRY_TYPE_HOST_0 then TELEMETRY_TYPE_HOST
  else if tele_type = TELEMETRY_TYPE_HOST_1 then TELEMETRY_TYPE_HOST else tele_type

/-- `get_telemetry_dump` (lines 1134-1217).  `err` is a `__u32` there and the
function returns `int`, hence the conversions; `nsid` is 0; the `lsp` argument
of `extract_dump_get_log` is the literal 0 of line 1211.  `header_print` only
selects whether the header is printed. -/
def get_telemetry_dump (env : Env) (filename sn : String) (tele_type : Nat)
    (data_area : Int) (header_print : Bool) : Int × List Event :=
  let _printed := header_print
  let h := get_telemetry_header env 0 (variant_log_id tele_type % 256) TELEMETRY_HEADER_SIZE
    (variant_lsp tele_type) (variant_rae tele_type)
  if to_u32 h.1 ≠ 0 then (to_int (to_u32 h.1), h.2)
  else
    let data := header_buf env
    if area_size data data_area = 0 then (to_int (to_u32 h.1), h.2)
    else
      let dumpname :=
        "Telemetry_" ++ variant_featurename tele_type ++ "_Area_" ++ toString data_area
      let r := extract_dump_get_log env dumpname filename sn (dump_size data data_area)
        TELEMETRY_TRANSFER_SIZE 0 (variant_log_id tele_type % 256) 0
        (area_offset data data_area) (decide (variant_rae tele_type ≠ 0))
      (to_int (to_u32 r.1), h.2 ++ r.2)

/-! ## Telemetry log: `get_serial_number` and `ocp_telemetry_log` -/

/-- The C string held by a `char` buffer: the characters before the first NUL. -/
def c_string (buf : List Nat) : String :=
  String.mk ((buf.takeWhile (fun c => c % 256 ≠ 0)).map (fun c => Char.ofNat (c % 256)))

/-- The loop of `get_serial_number` (lines 1003-1007): the first argument is
the number of iterations left, `i` the loop counter, `sn` the output buffer.
The space character is 32. -/
def get_serial_number_loop (ctrl_sn : List Nat) : Nat → Nat → List Nat → List Nat
  | 0, _, sn => sn
  | n + 1, i, sn =>
    if u8 ctrl_sn i = 32 then sn
    else get_serial_number_loop ctrl_sn n (i + 1) (sn.set i (u8 ctrl_sn i))

/-- `get_serial_number` (lines 999-1008): the buffer `sn` after the call;
`sizeof(ctrl->sn)` is 20. -/
def get_serial_number (ctrl_sn : List Nat) (sn : List Nat) : List Nat :=
  get_serial_number_loop ctrl_sn 20 0 sn

/-- The options of `ocp_telemetry_log` after argument parsing (`struct config`,
lines 1241-1255): `type` and `file` are `NULL` (`none`) unless given, `area`
is 0 unless given. -/
structure TelemetryConfig where
  type : Option String
  area : Int
  file : Option String

/-- What the outside world answers during one run of `ocp_telemetry_log`. -/
structure TelemetryWorld where
  /-- value returned by `fstat` -/
  fstatRes : Int
  /-- `S_ISBLK(nvme_stat.st_mode)` -/
  isBlk : Bool
  /-- value returned by `nvme_get_nsid` -/
  nsidRes : Int
  /-- value returned by `nvme_identify_ctrl` -/
  identifyRes : Int
  /-- `ctrl.sn`, 20 bytes -/
  ctrl_sn : List Nat
  /-- `ctrl.lpa`, one byte -/
  ctrl_lpa : Nat
  /-- the outside world of the extraction of one telemetry type and data area -/
  dumpEnv : Nat → Int → Env

/-- `tele_type` after the `strcmp` chain of lines 1295-1300; it keeps its
initial value 0 when no name matches. -/
def parse_tele_type (type : String) : Nat :=
  if type = "host0" then TELEMETRY_TYPE_HOST_0
  else if type = "host1" then TELEMETRY_TYPE_HOST_1
  else if type = "controller" then TELEMETRY_TYPE_CONTROLLER
  else 0

/-- The call `get_telemetry_dump(fd, cfg.file, sn, tele_type, data_area, header_print)`
of `ocp_telemetry_log`. -/
def telemetry_dump_call (w : TelemetryWorld) (cfg : TelemetryConfig) (sn : String)
    (tele_type : Nat) (data_area : Int) (header_print : Bool) : Int × List Event :=
  get_telemetry_dump (w.dumpEnv tele_type data_area) (cfg.file.getD "") sn tele_type data_area
    header_print

/-- Lines 1319-1383 of `ocp_telemetry_log`: the extractions made for
`tele_type` and `tele_area`; `err` is the value of `err` on entry. -/
def telemetry_extractions (w : TelemetryWorld) (cfg : TelemetryConfig) (sn : String)
    (is_support_telemetry_controller : Bool) (tele_type : Nat) (tele_area : Int) (err : Int) :
    Int × List Event :=
  if tele_type = TELEMETRY_TYPE_NONE then
    let r1 := telemetry_dump_call w cfg sn TELEMETRY_TYPE_HOST_0 1 true
    let r2 := telemetry_dump_call w cfg sn TELEMETRY_TYPE_HOST_0 3 false
    let r3 := telemetry_dump_call w cfg sn TELEMETRY_TYPE_HOST_1 1 true
    let r4 := telemetry_dump_call w cfg sn TELEMETRY_TYPE_HOST_1 3 false
    if is_support_telemetry_controller = true then
      let r5 := telemetry_dump_call w cfg sn TELEMETRY_TYPE_CONTROLLER 3 true
      (r5.1, r1.2 ++ r2.2 ++ r3.2 ++ r4.2 ++ r5.2)
    else (r4.1, r1.2 ++ r2.2 ++ r3.2 ++ r4.2)
  else if tele_type = TELEMETRY_TYPE_CONTROLLER then
    if is_support_telemetry_controller = true then
      telemetry_dump_call w cfg sn tele_type tele_area true
    else (err, [])
  else telemetry_dump_call w cfg sn tele_type tele_area true

/-- `ocp_telemetry_log` (lines 1219-1390).  `fd` is the value returned by
`parse_and_open`; the result is the return value and the trace. -/
def ocp_telemetry_log (w : TelemetryWorld) (fd : Int) (cfg : TelemetryConfig) :
    Int × List Event :=
  if fd < 0 then (fd, [])
  else if w.fstatRes < 0 then (w.fstatRes, [Event.fstat w.fstatRes, Event.close fd])
  else if w.isBlk = true ∧ to_int (to_u32 w.nsidRes) < 0 then
    (to_int (to_u32 w.nsidRes),
      [Event.fstat w.fstatRes, Event.nvme_get_nsid w.nsidRes, Event.close fd])
  else
    let pre := [Event.fstat w.fstatRes]
      ++ (if w.isBlk = true then [Event.nvme_get_nsid w.nsidRes] else [])
      ++ [Event.nvme_identify_ctrl w.identifyRes]
    let err := w.identifyRes
    if err ≠ 0 then (err, pre ++ [Event.close fd])
    else
      let sn := c_string (get_serial_number w.ctrl_sn (List.replicate 21 0))
      let is_support_telemetry_controller : Bool :=
        decide ((((w.ctrl_lpa % 256) &&& 0x8) >>> 3) ≠ 0)
      if cfg.type = none ∧ cfg.area = 0 then
        let r := telemetry_extractions w cfg sn is_support_telemetry_controller
          TELEMETRY_TYPE_NONE 0 err
        (r.1, pre ++ r.2 ++ [Event.close fd])
      else
        match cfg.type with
        | some type =>
          if cfg.area ≠ 0 then
            let tele_type := parse_tele_type type
            let tele_area := cfg.area
            if ¬ (((tele_type = TELEMETRY_TYPE_HOST_0 ∨ tele_type = TELEMETRY_TYPE_HOST_1)
                  ∧ (tele_area = 1 ∨ tele_area = 3))
                ∨ (tele_type = TELEMETRY_TYPE_CONTROLLER ∧ tele_area = 3)) then
              (err, pre ++ [Event.close fd])
            else
              let r := telemetry_extractions w cfg sn is_support_telemetry_controller
                tele_type tele_area err
              (r.1, pre ++ r.2 ++ [Event.close fd])
          else (err, pre ++ [Event.close fd])
        | none => (err, pre ++ [Event.close fd])

/-! ## SMART cloud attributes log (C0) -/

def C0_SMART_CLOUD_ATTR_LEN : Nat := 0x200
def C0_GUID_LENGTH : Nat := 16

/-- The GUID constant of the C0 log page (lines 45-46). -/
def scao_guid : List Nat :=
  [0xC5, 0xAF, 0x10, 0x28, 0xEA, 0xBF, 0xF2, 0xA4, 0x9C, 0x4F, 0x6F, 0x7C, 0xC9, 0x14, 0xD5, 0xAF]

def SCAO_PMUW : Nat := 0
def SCAO_PMUR : Nat := 16
def SCAO_BUNBR : Nat := 32
def SCAO_BUNBN : Nat := 38
def SCAO_BSNBR : Nat := 40
def SCAO_BSNBN : Nat := 46
def SCAO_XRC : Nat := 48
def SCAO_UREC : Nat := 56
def SCAO_SEEC : Nat := 64
def SCAO_EECE : Nat := 72
def SCAO_EEDC : Nat := 76
def SCAO_SDPU : Nat := 80
def SCAO_RFSC : Nat := 81
def SCAO_MXUDEC : Nat := 88
def SCAO_MNUDEC : Nat := 92
def SCAO_NTTE : Nat := 96
def SCAO_CTS : Nat := 97
def SCAO_EVF : Nat := 98
def SCAO_PVF : Nat := 99
def SCAO_MIVF : Nat := 101
def SCAO_MAVF : Nat := 103
def SCAO_PCEC : Nat := 104
def SCAO_ICS : Nat := 112
def SCAO_PFB : Nat := 120
def SCAO_CPH : Nat := 128
def SCAO_NEV : Nat := 130
def SCAO_UIO : Nat := 136
def SCAO_SVN : Nat := 144
def SCAO_NUSE : Nat := 152
def SCAO_PSC : Nat := 160
def SCAO_EEST : Nat := 176
def SCAO_PLRC : Nat := 192
def SCAO_LPV : Nat := 494
def SCAO_LPG : Nat := 496

/-- Number of low-order bits of `x` that do not fit a 64-bit significand: the
least `s` with `x / 2 ^ s < 2 ^ 64`.  The first argument bounds `s`. -/
def excess_bits : Nat → Nat → Nat
  | 0, _ => 0
  | fuel + 1, x => if x < 2 ^ 64 then 0 else 1 + excess_bits fuel (x / 2)

/-- The `long double` nearest to the non-negative integer `x`: the x87 extended
format of x86 Linux, with a 64-bit significand, rounding to nearest, ties to
even.  `q` is the significand, `s` the number of bits dropped, `r` what they
held.  The bound 128 on `s` covers every `x` below `2 ^ 192`, and the exponent
range of the format is far from reached. -/
def round_long_double (x : Nat) : Nat :=
  let s := excess_bits 128 x
  let q := x / 2 ^ s
  let r := x % 2 ^ s
  if 2 * r < 2 ^ s then q * 2 ^ s
  else if 2 * r = 2 ^ s ∧ q % 2 = 0 then q * 2 ^ s
  else (q + 1) * 2 ^ s

/-- `int128_to_double` (lines 85-95).  The accumulator `result` is a
`long double`; its values here are non-negative integers.  `result *= 256` is
exact (a scaling by a power of two) and `result += data[15 - i]` rounds the
exact sum to the nearest `long double`. -/
def int128_to_double (data : List Nat) : Nat :=
  (List.range 16).foldl
    (fun result i => round_long_double (result * 256 + u8 data (15 - i))) 0

/-- `ocp_print_C0_log_normal` (lines 97-178): the printed lines in order, each
as its label and the numbers printed on it (the title line and the layout of
the numbers are left out).  `&data[off]` is `data.drop off`; `%.0Lf` prints the
integer value of the `long double`. -/
def ocp_print_C0_log_normal (log_data : List Nat) : List (String × List Nat) :=
  let smart_log_ver := le16_to_cpu log_data SCAO_LPV
  [ ("Physical media units written -",
      [le64_to_cpu log_data (SCAO_PMUW + 8) &&& 0xFFFFFFFFFFFFFFFF,
       le64_to_cpu log_data SCAO_PMUW &&& 0xFFFFFFFFFFFFFFFF]),
    ("Physical media units read    -",
      [le64_to_cpu log_data (SCAO_PMUR + 8) &&& 0xFFFFFFFFFFFFFFFF,
       le64_to_cpu log_data SCAO_PMUR &&& 0xFFFFFFFFFFFFFFFF]),
    ("Bad user nand blocks - Raw", [le64_to_cpu log_data SCAO_BUNBR &&& 0x0000FFFFFFFFFFFF]),
    ("Bad user nand blocks - Normalized", [le16_to_cpu log_data SCAO_BUNBN]),
    ("Bad system nand blocks - Raw", [le64_to_cpu log_data SCAO_BSNBR &&& 0x0000FFFFFFFFFFFF]),
    ("Bad system nand blocks - Normalized", [le16_to_cpu log_data SCAO_BSNBN]),
    ("XOR recovery count", [le64_to_cpu log_data SCAO_XRC]),
    ("Uncorrectable read error count", [le64_to_cpu log_data SCAO_UREC]),
    ("Soft ecc error count", [le64_to_cpu log_data SCAO_SEEC]),
    ("End to end corrected errors", [le32_to_cpu log_data SCAO_EECE]),
    ("End to end detected errors", [le32_to_cpu log_data SCAO_EEDC]),
    ("System data percent used", [u8 log_data SCAO_SDPU]),
    ("Refresh counts", [le64_to_cpu log_data SCAO_RFSC &&& 0x00FFFFFFFFFFFFFF]),
    ("Max User data erase counts", [le32_to_cpu log_data SCAO_MXUDEC]),
    ("Min User data erase counts", [le32_to_cpu log_data SCAO_MNUDEC]),
    ("Number of Thermal throttling events", [u8 log_data SCAO_NTTE]),
    ("Current throttling status", [u8 log_data SCAO_CTS]),
    ("PCIe correctable error count", [le64_to_cpu log_data SCAO_PCEC]),
    ("Incomplete shutdowns", [le32_to_cpu log_data SCAO_ICS]),
    ("Percent free blocks", [u8 log_data SCAO_PFB]),
    ("Capacitor health", [le16_to_cpu log_data SCAO_CPH]),
    ("Unaligned I/O", [le64_to_cpu log_data SCAO_UIO]),
    ("Security Version Number", [le64_to_cpu log_data SCAO_SVN]),
    ("NUSE - Namespace utilization", [le64_to_cpu log_data SCAO_NUSE]),
    ("PLP start count", [int128_to_double (log_data.drop SCAO_PSC)]),
    ("Endurance estimate", [int128_to_double (log_data.drop SCAO_EEST)]),
    ("Log page version", [smart_log_ver]),
    ("Log page GUID", [le64_to_cpu log_data (SCAO_LPG + 8), le64_to_cpu log_data SCAO_LPG]) ]
  ++
  (if smart_log_ver > 2 then
    [ ("Errata Version Field", [u8 log_data SCAO_EVF]),
      ("Point Version Field", [u8 log_data SCAO_PVF]),
      ("Minor Version Field", [u8 log_data SCAO_MIVF]),
      ("Major Version Field", [u8 log_data SCAO_MAVF]),
      ("NVMe Errata Version", [u8 log_data SCAO_NEV]),
      ("PCIe Link Retraining Count", [le64_to_cpu log_data SCAO_PLRC]) ]
  else [])

/-- A value stored in the JSON root object: an unsigned number, a string, or
an object of unsigned numbers. -/
inductive JsonValue where
  | uint (v : Nat)
  | str (s : String)
  | obj (fields : List (String × Nat))
  deriving DecidableEq

/-- Lower-case hexadecimal digits of `n` without padding (`%x`). -/
def hex (n : Nat) : String := String.mk (Nat.toDigits 16 n)

/-- `ocp_print_C0_log_json` (lines 180-274): the entries added to `root`, in
order.  For the two 128-bit counters the entry holds the `long double` that
`int128_to_double` returns; `json_object_add_value_uint` is declared outside
this file and what it makes of a value of `2 ^ 64` or more is not modelled. -/
def ocp_print_C0_log_json (log_data : List Nat) : List (String × JsonValue) :=
  let smart_log_ver := le16_to_cpu log_data SCAO_LPV
  [ ("Physical media units written", JsonValue.obj
      [("hi", le64_to_cpu log_data (SCAO_PMUW + 8) &&& 0xFFFFFFFFFFFFFFFF),
       ("lo", le64_to_cpu log_data SCAO_PMUW &&& 0xFFFFFFFFFFFFFFFF)]),
    ("Physical media units read", JsonValue.obj
      [("hi", le64_to_cpu log_data (SCAO_PMUR + 8) &&& 0xFFFFFFFFFFFFFFFF),
       ("lo", le64_to_cpu log_data SCAO_PMUR &&& 0xFFFFFFFFFFFFFFFF)]),
    ("Bad user nand blocks - Raw",
      JsonValue.uint (le64_to_cpu log_data SCAO_BUNBR &&& 0x0000FFFFFFFFFFFF)),
    ("Bad user nand blocks - Normalized", JsonValue.uint (le16_to_cpu log_data SCAO_BUNBN)),
    ("Bad system nand blocks - Raw",
      JsonValue.uint (le64_to_cpu log_data SCAO_BSNBR &&& 0x0000FFFFFFFFFFFF)),
    ("Bad system nand blocks - Normalized", JsonValue.uint (le16_to_cpu log_data SCAO_BSNBN)),
    ("XOR recovery count", JsonValue.uint (le64_to_cpu log_data SCAO_XRC)),
    ("Uncorrectable read error count", JsonValue.uint (le64_to_cpu log_data SCAO_UREC)),
    ("Soft ecc error count", JsonValue.uint (le64_to_cpu log_data SCAO_SEEC)),
    ("End to end corrected errors", JsonValue.uint (le32_to_cpu log_data SCAO_EECE)),
    ("End to end detected errors", JsonValue.uint (le32_to_cpu log_data SCAO_EEDC)),
    ("System data percent used", JsonValue.uint (u8 log_data SCAO_SDPU)),
    ("Refresh counts", JsonValue.uint (le64_to_cpu log_data SCAO_RFSC &&& 0x00FFFFFFFFFFFFFF)),
    ("Max User data erase counts", JsonValue.uint (le32_to_cpu log_data SCAO_MXUDEC)),
    ("Min User data erase counts", JsonValue.uint (le32_to_cpu log_data SCAO_MNUDEC)),
    ("Number of Thermal throttling events", JsonValue.uint (u8 log_data SCAO_NTTE)),
    ("Current throttling status", JsonValue.uint (u8 log_data SCAO_CTS)),
    ("PCIe correctable error count", JsonValue.uint (le64_to_cpu log_data SCAO_PCEC)),
    ("Incomplete shutdowns", JsonValue.uint (le32_to_cpu log_data SCAO_ICS)),
    ("Percent free blocks", JsonValue.uint (u8 log_data SCAO_PFB)),
    ("Capacitor health", JsonValue.uint (le16_to_cpu log_data SCAO_CPH)),
    ("Unaligned I/O", JsonValue.uint (le64_to_cpu log_data SCAO_UIO)),
    ("Security Version Number", JsonValue.uint (le64_to_cpu log_data SCAO_SVN)),
    ("NUSE - Namespace utilization", JsonValue.uint (le64_to_cpu log_data SCAO_NUSE)),
    ("PLP start count", JsonValue.uint (int128_to_double (log_data.drop SCAO_PSC))),
    ("Endurance estimate", JsonValue.uint (int128_to_double (log_data.drop SCAO_EEST))),
    ("Log page version", JsonValue.uint smart_log_ver),
    ("Log page GUID", JsonValue.str ("0x" ++ hex (le64_to_cpu log_data (SCAO_LPG + 8))
      ++ hex (le64_to_cpu log_data SCAO_LPG))) ]
  ++
  (if smart_log_ver > 2 then
    [ ("Errata Version Field", JsonValue.uint (u8 log_data SCAO_EVF)),
      ("Point Version Field", JsonValue.uint (u8 log_data SCAO_PVF)),
      ("Minor Version Field", JsonValue.uint (u8 log_data SCAO_MIVF)),
      ("Major Version Field", JsonValue.uint (u8 log_data SCAO_MAVF)),
      ("NVMe Errata Version", JsonValue.uint (u8 log_data SCAO_NEV)),
      ("PCIe Link Retraining Count", JsonValue.uint (le64_to_cpu log_data SCAO_PLRC)) ]
  else [])

/-- A call of one of the print functions on a log buffer. -/
inductive PrintCall where
  | C0_log_normal (data : List Nat)
  | C0_log_json (data : List Nat)
  | C3_log_normal (data : List Nat)
  | C3_log_json (data : List Nat)
  deriving DecidableEq

/-- The GUID loop of `get_c0_log_page` / `get_c3_log_page`: whether some
`i < 16` has `guid[i] != data[off + i]`. -/
def guid_differs (guid data : List Nat) (off : Nat) : Bool :=
  (List.range 16).any (fun i => guid.getD i 0 != u8 data (off + i))

/-- `get_c0_log_page` (lines 276-341).  `NORMAL` and `JSON` are the values of
these `enum nvme_print_flags` constants and `fmt` is the value returned by
`validate_output_format(format)`, both declared outside this source file;
`malloc_ok` tells whether the allocation succeeded and `fetch` is the status
and the bytes delivered by `nvme_get_log14`.  The result is the return value
and the print calls made. -/
def get_c0_log_page (NORMAL JSON fmt : Int) (malloc_ok : Bool) (fetch : Int × List Nat) :
    Int × List PrintCall :=
  if fmt < 0 then (fmt, [])
  else if !malloc_ok then (-1, [])
  else
    let data := fillBuf C0_SMART_CLOUD_ATTR_LEN fetch.2
    let ret := fetch.1
    if ret = 0 then
      if guid_differs scao_guid data SCAO_LPG then (-1, [])
      else if fmt = NORMAL then (ret, [PrintCall.C0_log_normal data])
      else if fmt = JSON then (ret, [PrintCall.C0_log_json data])
      else (ret, [])
    else (ret, [])

/-! ## Latency monitor log (C3) -/

def C3_LATENCY_MON_LOG_BUF_LEN : Nat := 0x200
def C3_LATENCY_MON_VERSION : Nat := 0x0001

/-- The GUID constant of the C3 log page (lines 386-387). -/
def lat_mon_guid : List Nat :=
  [0x92, 0x7a, 0xc0, 0x8c, 0xd0, 0x84, 0x6c, 0x9c, 0x70, 0x43, 0xe6, 0xd4, 0x58, 0x5e, 0xd4, 0x85]

/-- Byte offset of `log_page_version` in `struct ssd_latency_monitor_log`. -/
def C3_log_page_version_offset : Nat := 0x1EE

/-- Byte offset of `log_page_guid` in `struct ssd_latency_monitor_log`. -/
def C3_log_page_guid_offset : Nat := 0x1F0

/-- `get_c3_log_page` (lines 732-810), with the parameters of
`get_c0_log_page`.  The `__le16` version field is read natively. -/
def get_c3_log_page (NORMAL JSON fmt : Int) (malloc_ok : Bool) (fetch : Int × List Nat) :
    Int × List PrintCall :=
  if fmt < 0 then (fmt, [])
  else if !malloc_ok then (-1, [])
  else
    let data := fillBuf C3_LATENCY_MON_LOG_BUF_LEN fetch.2
    let ret := fetch.1
    if ret = 0 then
      if le16_to_cpu data C3_log_page_version_offset ≠ C3_LATENCY_MON_VERSION then (-1, [])
      else if guid_differs lat_mon_guid data C3_log_page_guid_offset then (-1, [])
      else if fmt = NORMAL then (ret, [PrintCall.C3_log_normal data])
      else if fmt = JSON then (ret, [PrintCall.C3_log_json data])
      else (ret, [])
    else (ret, [])

/-! ## Latency monitor log (C3): `convert_ts` and the print functions -/

def C0_ACTIVE_BUCKET_TIMER_INCREMENT : Nat := 5
def C0_ACTIVE_THRESHOLD_INCREMENT : Nat := 5
def C0_MINIMUM_WINDOW_INCREMENT : Nat := 100
def C3_GUID_LENGTH : Nat := 16
def READ : Nat := 3
def WRITE : Nat := 2
def TRIM : Nat := 1
def RESERVED : Nat := 0

/-- Conversion of a `__u64` to `time_t`, which is a signed 64-bit integer
(`long`) on 64-bit Linux. -/
def to_time_t (x : Nat) : Int :=
  if x % 2 ^ 64 < 2 ^ 63 then ((x % 2 ^ 64 : Nat) : Int) else ((x % 2 ^ 64 : Nat) : Int) - 2 ^ 64

/-- `time_Human = time/1000` of `convert_ts` (line 451). -/
def convert_ts_time_Human (time : Int) : Int := Int.tdiv time 1000

/-- `time_ms = time % 1000` of `convert_ts` (line 452). -/
def convert_ts_time_ms (time : Int) : Int := Int.tmod time 1000

/-- The conversion `%03ld` of `sprintf`: decimal, zero-padded to width 3, the
sign counting in the width. -/
def fmt_03ld (v : Int) : String :=
  if v < 0 then
    String.mk ('-' :: (List.replicate (2 - (Nat.toDigits 10 v.natAbs).length) '0'
      ++ Nat.toDigits 10 v.natAbs))
  else
    String.mk (List.replicate (3 - (Nat.toDigits 10 v.natAbs).length) '0'
      ++ Nat.toDigits 10 v.natAbs)

/-- `convert_ts` (lines 445-460): the text left in `ts_buf`.  `strftime_gmt`
stands for `gmtime_r` followed by `strftime(.., "%Y-%m-%d %H:%M:%S", ..)` of
the C library, applied to `time_Human`. -/
def convert_ts (strftime_gmt : Int → String) (time : Int) : String :=
  strftime_gmt (convert_ts_time_Human time) ++ "." ++ fmt_03ld (convert_ts_time_ms time)
    ++ " GMT"

namespace ssd_latency_monitor_log

/-! Fields of `struct ssd_latency_monitor_log` (packed, lines 394-429), read
from the 512-byte buffer at their byte offsets. -/

def feature_status (d : List Nat) : Nat := u8 d 0x00
def active_bucket_timer (d : List Nat) : Nat := le16_to_cpu d 0x02
def active_bucket_timer_threshold (d : List Nat) : Nat := le16_to_cpu d 0x04
def active_threshold_a (d : List Nat) : Nat := u8 d 0x06
def active_threshold_b (d : List Nat) : Nat := u8 d 0x07
def active_threshold_c (d : List Nat) : Nat := u8 d 0x08
def active_threshold_d (d : List Nat) : Nat := u8 d 0x09
def active_latency_config (d : List Nat) : Nat := le16_to_cpu d 0x0A
def active_latency_min_window (d : List Nat) : Nat := u8 d 0x0C
def active_bucket_counter (d : List Nat) (i j : Nat) : Nat :=
  le32_to_cpu d (0x20 + (4 * i + j) * 4)
def active_latency_timestamp (d : List Nat) (i j : Nat) : Nat :=
  le64_to_cpu d (0x60 + (3 * i + j) * 8)
def active_measured_latency (d : List Nat) (i j : Nat) : Nat :=
  le16_to_cpu d (0xC0 + (3 * i + j) * 2)
def active_latency_stamp_units (d : List Nat) : Nat := le16_to_cpu d 0xD8
def static_bucket_counter (d : List Nat) (i j : Nat) : Nat :=
  le32_to_cpu d (0xF0 + (4 * i + j) * 4)
def static_latency_timestamp (d : List Nat) (i j : Nat) : Nat :=
  le64_to_cpu d (0x130 + (3 * i + j) * 8)
def static_measured_latency (d : List Nat) (i j : Nat) : Nat :=
  le16_to_cpu d (0x190 + (3 * i + j) * 2)
def static_latency_stamp_units (d : List Nat) : Nat := le16_to_cpu d 0x1A8
def debug_log_trigger_enable (d : List Nat) : Nat := le16_to_cpu d 0x1C0
def debug_log_measured_latency (d : List Nat) : Nat := le16_to_cpu d 0x1C2
def debug_log_latency_stamp (d : List Nat) : Nat := le64_to_cpu d 0x1C4
def debug_log_ptr (d : List Nat) : Nat := le16_to_cpu d 0x1CC
def debug_log_counter_trigger (d : List Nat) : Nat := le16_to_cpu d 0x1CE
def debug_log_stamp_units (d : List Nat) : Nat := u8 d 0x1D0
def log_page_version (d : List Nat) : Nat := le16_to_cpu d 0x1EE
def log_page_guid (d : List Nat) (i : Nat) : Nat := u8 d (0x1F0 + i)

end ssd_latency_monitor_log

/-- The values of `j` for which the body of `for (j = 2; j <= 0; j--)` runs,
starting from the given `j`: the condition is tested before every iteration.
The first argument bounds the number of iterations. -/
def j_loop : Nat → Int → List Int
  | 0, _ => []
  | fuel + 1, j => if j ≤ 0 then j :: j_loop fuel (j - 1) else []

/-- `char *operation[3] = {"Trim", "Write", "Read"}` (line 593). -/
def operation : List String := ["Trim", "Write", "Read"]

/-- The conversion `%02X` of a byte: two upper-case hexadecimal digits. -/
def fmt_02X (b : Nat) : String :=
  String.mk [(Nat.digitChar (b / 16 % 16)).toUpper, (Nat.digitChar (b % 16)).toUpper]

/-- The string `guid` built by the loop `for (i = C3_GUID_LENGTH - 1; i >= 0; i--)`
(lines 516-520 and 720-724). -/
def C3_guid_string (d : List Nat) : String :=
  String.join ((List.range C3_GUID_LENGTH).reverse.map
    (fun i => fmt_02X (ssd_latency_monitor_log.log_page_guid d i)))

/-- What is printed in one column of a line of the normal report: a number
(`%d`, `%x`), a string literal or `guid`, or the content of `ts_buf` after
a call of `convert_ts`. -/
inductive Cell where
  | num (v : Int)
  | text (s : String)
  | ts_buf (s : String)
  deriving DecidableEq

/-- One timestamp column of the normal report (lines 541-546 and 568-573). -/
def C3_timestamp_cell (strftime_gmt : Int → String) (raw : Nat) : Cell :=
  if raw = to_u64 (-1) then Cell.text "N/A"
  else Cell.ts_buf (convert_ts strftime_gmt (to_time_t raw))

/-- `ocp_print_C3_log_normal` (lines 462-585): the printed lines in order, each
as its label and its columns (the two title lines, the `Controller` line and
the column header are left out).  `pos` is the local variable of line 467. -/
def ocp_print_C3_log_normal (strftime_gmt : Int → String) (log_data : List Nat) :
    List (String × List Cell) :=
  let pos : Nat := 0
  [ ("Feature Status", [Cell.num (ssd_latency_monitor_log.feature_status log_data)]),
    ("Active Bucket Timer", [Cell.num (Int.ofNat (C0_ACTIVE_BUCKET_TIMER_INCREMENT *
      ssd_latency_monitor_log.active_bucket_timer log_data))]),
    ("Active Bucket Timer Threshold", [Cell.num (Int.ofNat (C0_ACTIVE_BUCKET_TIMER_INCREMENT *
      ssd_latency_monitor_log.active_bucket_timer_threshold log_data))]),
    ("Active Threshold A", [Cell.num (Int.ofNat (C0_ACTIVE_THRESHOLD_INCREMENT *
      ((ssd_latency_monitor_log.active_threshold_a log_data + 1) % 2 ^ 16)))]),
    ("Active Threshold B", [Cell.num (Int.ofNat (C0_ACTIVE_THRESHOLD_INCREMENT *
      ((ssd_latency_monitor_log.active_threshold_b log_data + 1) % 2 ^ 16)))]),
    ("Active Threshold C", [Cell.num (Int.ofNat (C0_ACTIVE_THRESHOLD_INCREMENT *
      ((ssd_latency_monitor_log.active_threshold_c log_data + 1) % 2 ^ 16)))]),
    ("Active Threshold D", [Cell.num (Int.ofNat (C0_ACTIVE_THRESHOLD_INCREMENT *
      ((ssd_latency_monitor_log.active_threshold_d log_data + 1) % 2 ^ 16)))]),
    ("Active Latency Minimum Window", [Cell.num (Int.ofNat (C0_MINIMUM_WINDOW_INCREMENT *
      ssd_latency_monitor_log.active_latency_min_window log_data))]),
    ("Active Latency Stamp Units",
      [Cell.num (ssd_latency_monitor_log.active_latency_stamp_units log_data)]),
    ("Static Latency Stamp Units",
      [Cell.num (ssd_latency_monitor_log.static_latency_stamp_units log_data)]),
    ("Debug Log Trigger Enable",
      [Cell.num (ssd_latency_monitor_log.debug_log_trigger_enable log_data)]),
    ("Debug Log Measured Latency",
      [Cell.num (ssd_latency_monitor_log.debug_log_measured_latency log_data)]) ]
  ++ (if ssd_latency_monitor_log.debug_log_latency_stamp log_data = to_u64 (-1) then
        [("Debug Log Latency Time Stamp", [Cell.text "N/A"])]
      else
        [("Debug Log Latency Time Stamp", [Cell.ts_buf (convert_ts strftime_gmt
          (to_time_t (ssd_latency_monitor_log.debug_log_latency_stamp log_data)))])])
  ++ [ ("Debug Log Pointer", [Cell.num (ssd_latency_monitor_log.debug_log_ptr log_data)]),
       ("Debug Counter Trigger Source",
         [Cell.num (ssd_latency_monitor_log.debug_log_counter_trigger log_data)]),
       ("Debug Log Stamp Units",
         [Cell.num (ssd_latency_monitor_log.debug_log_stamp_units log_data)]),
       ("Log Page Version", [Cell.num (ssd_latency_monitor_log.log_page_version log_data)]),
       ("Log Page GUID", [Cell.text (C3_guid_string log_data)]) ]
  ++ (List.range 4).map (fun i =>
       ("Active Latency Mode: Bucket " ++ toString i,
        [Cell.num (Int.ofNat
           (ssd_latency_monitor_log.active_latency_config log_data &&& (1 <<< pos))),
         Cell.num (Int.ofNat
           (ssd_latency_monitor_log.active_latency_config log_data &&& (1 <<< pos))),
         Cell.num (Int.ofNat
           (ssd_latency_monitor_log.active_latency_config log_data &&& (1 <<< pos)))]))
  ++ (List.range 4).map (fun i =>
       ("Active Bucket Counter: Bucket " ++ toString i,
        [Cell.num (to_int (ssd_latency_monitor_log.active_bucket_counter log_data i READ)),
         Cell.num (to_int (ssd_latency_monitor_log.active_bucket_counter log_data i WRITE)),
         Cell.num (to_int (ssd_latency_monitor_log.active_bucket_counter log_data i TRIM))]))
  ++ (List.range 4).map (fun i =>
       ("Active Latency Time Stamp: Bucket " ++ toString i,
        (j_loop 3 2).map (fun j => C3_timestamp_cell strftime_gmt
          (ssd_latency_monitor_log.active_latency_timestamp log_data i j.toNat))))
  ++ (List.range 4).map (fun i =>
       ("Active Measured Latency: Bucket " ++ toString i,
        [Cell.num (ssd_latency_monitor_log.active_measured_latency log_data i (READ - 1)),
         Cell.num (ssd_latency_monitor_log.active_measured_latency log_data i (WRITE - 1)),
         Cell.num (ssd_latency_monitor_log.active_measured_latency log_data i (TRIM - 1))]))
  ++ (List.range 4).map (fun i =>
       ("Static Bucket Counter: Bucket " ++ toString i,
        [Cell.num (to_int (ssd_latency_monitor_log.static_bucket_counter log_data i READ)),
         Cell.num (to_int (ssd_latency_monitor_log.static_bucket_counter log_data i WRITE)),
         Cell.num (to_int (ssd_latency_monitor_log.static_bucket_counter log_data i TRIM))]))
  ++ (List.range 4).map (fun i =>
       ("Static Latency Time Stamp: Bucket " ++ toString i,
        (j_loop 3 2).map (fun j => C3_timestamp_cell strftime_gmt
          (ssd_latency_monitor_log.static_latency_timestamp log_data i j.toNat))))
  ++ (List.range 4).map (fun i =>
       ("Static Measured Latency: Bucket " ++ toString i,
        [Cell.num (ssd_latency_monitor_log.static_measured_latency log_data i (READ - 1)),
         Cell.num (ssd_latency_monitor_log.static_measured_latency log_data i (WRITE - 1)),
         Cell.num (ssd_latency_monitor_log.static_measured_latency log_data i (TRIM - 1))]))

/-- A value added to a JSON object of the latency report: an unsigned number,
a string literal or `guid`, or the content of `ts_buf` after a call of
`convert_ts`. -/
inductive JsonScalar where
  | uint (v : Nat)
  | str (s : String)
  | ts_buf (s : String)
  deriving DecidableEq

/-- An entry of the JSON root object of the latency report: a value or a
nested `bucket` object. -/
inductive JsonNode where
  | value (v : JsonScalar)
  | object (members : List (String × JsonScalar))
  deriving DecidableEq

/-- One timestamp member of the JSON report (lines 645-650 and 681-686). -/
def C3_timestamp_json (strftime_gmt : Int → String) (raw : Nat) : JsonScalar :=
  if raw = to_u64 (-1) then JsonScalar.str "NA"
  else JsonScalar.ts_buf (convert_ts strftime_gmt (to_time_t raw))

/-- `ocp_print_C3_log_json` (lines 587-731): the entries added to `root`, in
order.  Every `bucket` object receives the members added by its inner loop
`for (j = 2; j <= 0; j--)`; `pos` is the local variable of line 590. -/
def ocp_print_C3_log_json (strftime_gmt : Int → String) (log_data : List Nat) :
    List (String × JsonNode) :=
  let pos : Nat := 0
  [ ("Feature Status",
      JsonNode.value (JsonScalar.uint (ssd_latency_monitor_log.feature_status log_data))),
    ("Active Bucket Timer", JsonNode.value (JsonScalar.uint (C0_ACTIVE_BUCKET_TIMER_INCREMENT *
      ssd_latency_monitor_log.active_bucket_timer log_data))),
    ("Active Bucket Timer Threshold",
      JsonNode.value (JsonScalar.uint (C0_ACTIVE_BUCKET_TIMER_INCREMENT *
        ssd_latency_monitor_log.active_bucket_timer_threshold log_data))),
    ("Active Threshold A", JsonNode.value (JsonScalar.uint (C0_ACTIVE_THRESHOLD_INCREMENT *
      ((ssd_latency_monitor_log.active_threshold_a log_data + 1) % 2 ^ 16)))),
    ("Active Threshold B", JsonNode.value (JsonScalar.uint (C0_ACTIVE_THRESHOLD_INCREMENT *
      ((ssd_latency_monitor_log.active_threshold_b log_data + 1) % 2 ^ 16)))),
    ("Active Threshold C", JsonNode.value (JsonScalar.uint (C0_ACTIVE_THRESHOLD_INCREMENT *
      ((ssd_latency_monitor_log.active_threshold_c log_data + 1) % 2 ^ 16)))),
    ("Active Threshold D", JsonNode.value (JsonScalar.uint (C0_ACTIVE_THRESHOLD_INCREMENT *
      ((ssd_latency_monitor_log.active_threshold_d log_data + 1) % 2 ^ 16)))) ]
  ++ (List.range 4).map (fun i =>
       ("Active Latency Mode: Bucket " ++ toString i,
        JsonNode.object ((j_loop 3 2).map (fun j =>
          (operation.getD j.toNat "", JsonScalar.uint
            (ssd_latency_monitor_log.active_latency_config log_data &&& (1 <<< pos)))))))
  ++ [ ("Active Latency Minimum Window",
         JsonNode.value (JsonScalar.uint (C0_MINIMUM_WINDOW_INCREMENT *
           ssd_latency_monitor_log.active_latency_min_window log_data))) ]
  ++ (List.range 4).map (fun i =>
       ("Active Bucket Counter: Bucket " ++ toString i,
        JsonNode.object ((j_loop 3 2).map (fun j =>
          (operation.getD j.toNat "", JsonScalar.uint
            (ssd_latency_monitor_log.active_bucket_counter log_data i (j.toNat + 1)))))))
  ++ (List.range 4).map (fun i =>
       ("Active Latency Time Stamp: Bucket " ++ toString i,
        JsonNode.object ((j_loop 3 2).map (fun j =>
          (operation.getD j.toNat "", C3_timestamp_json strftime_gmt
            (ssd_latency_monitor_log.active_latency_timestamp log_data i j.toNat))))))
  ++ (List.range 4).map (fun i =>
       ("Active Measured Latency: Bucket " ++ toString i,
        JsonNode.object ((j_loop 3 2).map (fun j =>
          (operation.getD j.toNat "", JsonScalar.uint
            (ssd_latency_monitor_log.active_measured_latency log_data i j.toNat))))))
  ++ [ ("Active Latency Stamp Units", JsonNode.value (JsonScalar.uint
         (ssd_latency_monitor_log.active_latency_stamp_units log_data))) ]
  ++ (List.range 4).map (fun i =>
       ("Static Bucket Counter: Bucket " ++ toString i,
        JsonNode.object ((j_loop 3 2).map (fun j =>
          (operation.getD j.toNat "", JsonScalar.uint
            (ssd_latency_monitor_log.static_bucket_counter log_data i (j.toNat + 1)))))))
  ++ (List.range 4).map (fun i =>
       ("Static Latency Time Stamp: Bucket " ++ toString i,
        JsonNode.object ((j_loop 3 2).map (fun j =>
          (operation.getD j.toNat "", C3_timestamp_json strftime_gmt
            (ssd_latency_monitor_log.static_latency_timestamp log_data i j.toNat))))))
  ++ (List.range 4).map (fun i =>
       ("Static Measured Latency: Bucket " ++ toString i,
        JsonNode.object ((j_loop 3 2).map (fun j =>
          (operation.getD j.toNat "", JsonScalar.uint
            (ssd_latency_monitor_log.static_measured_latency log_data i j.toNat))))))
  ++ [ ("Static Latency Stamp Units", JsonNode.value (JsonScalar.uint
         (ssd_latency_monitor_log.static_latency_stamp_units log_data))),
       ("Debug Log Trigger Enable", JsonNode.value (JsonScalar.uint
         (ssd_latency_monitor_log.debug_log_trigger_enable log_data))),
       ("Debug Log Measured Latency", JsonNode.value (JsonScalar.uint
         (ssd_latency_monitor_log.debug_log_measured_latency log_data))) ]
  ++ (if ssd_latency_monitor_log.debug_log_latency_stamp log_data = to_u64 (-1) then
        [("Debug Log Latency Time Stamp", JsonNode.value (JsonScalar.str "NA"))]
      else
        [("Debug Log Latency Time Stamp", JsonNode.value (JsonScalar.ts_buf
          (convert_ts strftime_gmt
            (to_time_t (ssd_latency_monitor_log.debug_log_latency_stamp log_data)))))])
  ++ [ ("Debug Log Pointer", JsonNode.value (JsonScalar.uint
         (ssd_latency_monitor_log.debug_log_ptr log_data))),
       ("Debug Counter Trigger Source", JsonNode.value (JsonScalar.uint
         (ssd_latency_monitor_log.debug_log_counter_trigger log_data))),
       ("Debug Log Stamp Units", JsonNode.value (JsonScalar.uint
         (ssd_latency_monitor_log.debug_log_stamp_units log_data))),
       ("Log Page Version", JsonNode.value (JsonScalar.uint
         (ssd_latency_monitor_log.log_page_version log_data))),
       ("Log Page GUID", JsonNode.value (JsonScalar.str (C3_guid_string log_data))) ]

/-! ## Firmware activation history -/

def INPUT_FILE_SIZE : Nat := 2048
def UNIT_DATA_SIZE_5KB : Nat := 5 * 1024

/-- What the outside world answers during one run of
`get_and_save_fw_activation_history`. -/
structure SecurityWorld where
  /-- status of `nvme_identify_ctrl` and the bytes of `ctrl.sn` -/
  identify : Int × List Nat
  /-- value returned by `open` -/
  openRes : Int
  /-- value returned by the `nvme_sec_send` of `SecurityCMDReset` -/
  resetRes : Int
  /-- value returned by the second `nvme_sec_send` -/
  armRes : Int
  /-- status of `nvme_sec_recv` and the bytes it delivered -/
  recv : Int × List Nat
  /-- value returned by `write` -/
  writeRes : Int

/-- `strlen`: the number of characters before the first NUL (meaningful for a
buffer that holds a NUL). -/
def strlen (buf : List Nat) : Nat := (buf.takeWhile (fun c => c % 256 ≠ 0)).length

/-- `SecurityCMDReset` (lines 1415-1439): both error branches and the
fall-through reach `END` and return `err`. -/
def SecurityCMDReset (w : SecurityWorld) : Int × List Event :=
  let SendBuffer := List.replicate 4 0
  let err := w.resetRes
  let ev := Event.nvme_sec_send 0x1003 0xFC 4 SendBuffer err
  if err < 0 then (err, [ev])
  else if err > 0 then (err, [ev])
  else (err, [ev])

/-- `get_fw_activation_history_data` (lines 1441-1492): the return value, the
trace, and the content of `data.Buf` afterwards.  The value returned by
`SecurityCMDReset(fd)` is not used (line 1445). -/
def get_fw_activation_history_data (w : SecurityWorld) (Buf : List Nat) (BufSize : Nat) :
    Int × List Event × List Nat :=
  let reset := SecurityCMDReset w
  let SendBuffer := (List.replicate 16 0).set 4 0xD
  let err := w.armRes
  let arm := Event.nvme_sec_send 0x1012 0xFC 16 SendBuffer err
  if err < 0 then (err, reset.2 ++ [arm], Buf)
  else if err > 0 then (err, reset.2 ++ [arm], Buf)
  else
    let err1 := w.recv.1
    let rcv := Event.nvme_sec_recv 0x1012 0xFC BufSize err1
    let Buf1 := (w.recv.2.take BufSize) ++ Buf.drop (w.recv.2.take BufSize).length
    if err1 < 0 then (err1, reset.2 ++ [arm, rcv], Buf1)
    else if err1 > 0 then (err1, reset.2 ++ [arm, rcv], Buf1)
    else (err1, reset.2 ++ [arm, rcv], Buf1)

/-- The loop `while (i && ctrl.sn[i] == ' ')` of lines 1509-1513: the first
argument bounds the number of iterations, `i` is the loop variable, `sn` the
array `ctrl.sn`. -/
def strip_sn_loop : Nat → Nat → List Nat → List Nat
  | 0, _, sn => sn
  | n + 1, i, sn =>
    if i ≠ 0 ∧ u8 sn i = 32 then strip_sn_loop n (i - 1) (sn.set i 0) else sn

/-- `get_and_save_fw_activation_history_path` (lines 1494-1523): the return
value, the trace, and the string left in `filePath` (empty when it is not
written); `filename` is `none` for a `NULL` pointer.  `%-.*s` with precision
`sizeof(ctrl.sn)` = 20 prints the characters of `ctrl.sn` before the first NUL,
at most 20.  The bound `INPUT_FILE_SIZE` of `snprintf` is not modelled. -/
def get_and_save_fw_activation_history_path (w : SecurityWorld) (featureName : String)
    (filename : Option String) : Int × List Event × String :=
  match filename with
  | none =>
    let err := w.identify.1
    let ev := Event.nvme_identify_ctrl err
    if err ≠ 0 then (err, [ev], "")
    else
      let sn := strip_sn_loop 20 (20 - 1) (fillBuf 20 w.identify.2)
      (err, [ev], featureName ++ "_" ++ c_string (sn.take 20) ++ "_FWActivationHistory.json")
  | some name => (0, [], name ++ "_s_FWActivationHistory.json")

/-- `get_and_save_fw_activation_history` (lines 1525-1564). -/
def get_and_save_fw_activation_history (w : SecurityWorld) (featureName : String)
    (fileName : Option String) : Int × List Event :=
  let p := get_and_save_fw_activation_history_path w featureName fileName
  if p.1 ≠ 0 then (p.1, p.2.1)
  else
    let output := w.openRes
    let opened := p.2.1 ++ [Event.open_trunc p.2.2 output]
    if output < 0 then (-13, opened)
    else
      let UnitDataBuffer := List.replicate UNIT_DATA_SIZE_5KB 0
      let d := get_fw_activation_history_data w UnitDataBuffer UNIT_DATA_SIZE_5KB
      if d.1 ≠ 0 then (d.1, opened ++ d.2.1)
      else
        let nBufSize := strlen d.2.2
        let wr := Event.write output d.2.2 nBufSize w.writeRes
        if w.writeRes < 0 then (-10, opened ++ d.2.1 ++ [wr])
        else (d.1, opened ++ d.2.1 ++ [wr, Event.close output])

/-! ## Observations on a trace -/

/-- State of the file at one path: its content (`none` when it does not
exist) and the descriptor open on it, if any. -/
structure FileState where
  content : Option (List Nat)
  fd : Option Int
  deriving DecidableEq

/-- Effect of one call on the file at `path`. -/
def fileStep (path : String) (s : FileState) : Event → FileState
  | Event.open_trunc p ret =>
    if p = path ∧ 0 ≤ ret then { content := some [], fd := some ret } else s
  | Event.write fd buf count ret =>
    if s.fd = some fd ∧ 0 ≤ ret then
      { content := s.content.map (fun c => c ++ buf.take (min ret count).toNat), fd := s.fd }
    else s
  | Event.close fd => if s.fd = some fd then { content := s.content, fd := none } else s
  | _ => s

/-- State of the file at `path` after a trace, starting from content `prior`. -/
def fileAfter (path : String) (prior : Option (List Nat)) (tr : List Event) : FileState :=
  tr.foldl (fileStep path) { content := prior, fd := none }

/-- Whether the call is an `open`. -/
def Event.isOpen : Event → Bool
  | Event.open_trunc _ _ => true
  | _ => false

/-- Whether the call is a chunk read. -/
def Event.isChunkRead : Event → Bool
  | Event.nvme_get_log14 _ _ _ _ _ _ _ => true
  | _ => false

/-- Byte counts requested by the `write` calls of a trace, in order. -/
def writeCounts (tr : List Event) : List Int :=
  tr.filterMap (fun e => match e with
    | Event.write _ _ count _ => some count
    | _ => none)

/-- An outside world in which every chunk read delivers `bytes i` with status 0,
`open` returns `fd` and every `write` reports the full count `count i`. -/
def okEnv (bytes : Nat → List Nat) (fd : Int) (count : Nat → Int) : Env :=
  { header := (0, []), getLog := fun i => (0, bytes i), openRes := fd, writeRes := count }

/-- The `write` results of a run that writes 2500 bytes in chunks of 1024:
every `write` reports the count it was asked for. -/
def fullWrites_2500 (i : Nat) : Int := if i = 2 then 452 else 1024

/-- An outside world in which the chunk read of iteration `k` fails with status
`e`, every other read delivers the bytes 1, 2, 3 with status 0, `open` returns
descriptor 3 and every `write` reports 1024 bytes written. -/
def failAt (k : Nat) (e : Int) : Env :=
  { header := (0, []), getLog := fun i => if i = k then (e, []) else (0, [1, 2, 3]),
    openRes := 3, writeRes := fun _ => 1024 }

/-- An outside world whose header fetch delivers `hdr` with status 0 and in
which every later call succeeds (chunk reads deliver no bytes, `open` returns
descriptor 3, every `write` reports 1024 bytes). -/
def headerEnv (hdr : List Nat) : Env :=
  { header := (0, hdr), getLog := fun _ => (0, []), openRes := 3, writeRes := fun _ => 1024 }

/-- An outside world whose header fetch fails with status `e`. -/
def headerFailEnv (e : Int) : Env :=
  { header := (e, []), getLog := fun _ => (0, []), openRes := 3, writeRes := fun _ => 1024 }

/-- Names of the six extended fields of the capacity report. -/
def c0_extended_labels : List String :=
  ["Errata Version Field", "Point Version Field", "Minor Version Field",
   "Major Version Field", "NVMe Errata Version", "PCIe Link Retraining Count"]

/-- Whether a report entry is a base field other than the log page version:
its name is neither an extended field nor "Log page version". -/
def is_base_entry (name : String) : Bool :=
  !(c0_extended_labels.contains name) && name != "Log page version"

/-- A telemetry header buffer with DataArea1LastBlock = 2, DataArea2LastBlock = 5
and DataArea3LastBlock = 5. -/
def header_2_5_5 : List Nat := List.replicate 8 0 ++ [2, 0, 5, 0, 5, 0]

/-- An outside world whose header fetch delivers `header_2_5_5` with status 0
and in which every chunk read fails with status `e`. -/
def firstChunkFailEnv (e : Int) : Env :=
  { header := (0, header_2_5_5), getLog := fun _ => (e, []), openRes := 3,
    writeRes := fun _ => 1024 }

/-- Concatenation of the buffers filled by the chunk reads of iterations
`i, i+1, ..., i+m-1`, each of `size` bytes. -/
def chunks_from (env : Env) (size : Nat) : Nat → Nat → List Nat
  | _, 0 => []
  | i, m + 1 => fillBuf size (env.getLog i).2 ++ chunks_from env size (i + 1) m

/-- A 512-byte capacity page: zeroes, version 3, and the C0 GUID at bytes 496..511. -/
def c0_page_v3 : List Nat := List.replicate 494 0 ++ [3, 0] ++ scao_guid

/-- A 512-byte latency page: zeroes, the version bytes `v0 v1` at 0x1EE and the
C3 GUID at bytes 0x1F0..0x1FF. -/
def c3_page (v0 v1 : Nat) : List Nat := List.replicate 0x1EE 0 ++ [v0, v1] ++ lat_mon_guid

/-- The latency page `c3_page 1 0` with the low byte of
`active_latency_config` (offset 0x0A) set to `c`. -/
def c3_page_config (c : Nat) : List Nat := (c3_page 1 0).set 0x0A c

/-- Whether a column holds the content of `ts_buf`. -/
def Cell.is_ts_buf : Cell → Bool
  | Cell.ts_buf _ => true
  | _ => false

/-- Whether a JSON entry holds the content of `ts_buf`, directly or as a
member of a `bucket` object. -/
def JsonNode.has_ts_buf : JsonNode → Bool
  | JsonNode.value (JsonScalar.ts_buf _) => true
  | JsonNode.value _ => false
  | JsonNode.object members => members.any (fun m => match m.2 with
      | JsonScalar.ts_buf _ => true
      | _ => false)

/-- Whether a JSON entry is a `bucket` object without any member. -/
def JsonNode.is_empty_object : JsonNode → Bool
  | JsonNode.object members => members.isEmpty
  | _ => false

/-- Whether a JSON entry is a `bucket` object. -/
def JsonNode.is_object : JsonNode → Bool
  | JsonNode.object _ => true
  | _ => false

/-- Whether the call is the telemetry header fetch. -/
def Event.isHeaderFetch : Event → Bool
  | Event.admin_get_log _ _ _ _ _ => true
  | _ => false

/-- The log-specific field (bits 8..11) of `cdw10`. -/
def cdw10_lsp (cdw10 : Nat) : Nat := (cdw10 >>> 8) &&& 0x0F

/-- The retain-asynchronous-event bit (bit 15) of `cdw10`. -/
def cdw10_rae (cdw10 : Nat) : Nat := (cdw10 >>> 15) &&& 0x01

/-- The log-specific parameter and the retain flag a log-page read was issued
with (`none` for any other call). -/
def Event.lsp_rae : Event → Option (Nat × Bool)
  | Event.admin_get_log _ cdw10 _ _ _ => some (cdw10_lsp cdw10, decide (cdw10_rae cdw10 ≠ 0))
  | Event.nvme_get_log14 _ _ lsp _ rae _ _ => some (lsp, rae)
  | _ => none

/-- A serial number of 20 bytes: the text padded with spaces. -/
def sn_bytes (text : String) : List Nat :=
  (text.toList.map Char.toNat ++ List.replicate 20 32).take 20

/-- An outside world of `ocp_telemetry_log` with a character device, every
preliminary call succeeding, serial number "SN123", capability byte `lpa`,
and every extraction seeing the header `header_2_5_5` and successful reads. -/
def telemetryWorld (lpa : Nat) : TelemetryWorld :=
  { fstatRes := 0, isBlk := false, nsidRes := 1, identifyRes := 0,
    ctrl_sn := sn_bytes "SN123", ctrl_lpa := lpa,
    dumpEnv := fun _ _ => headerEnv header_2_5_5 }

/-- The calls `ocp_telemetry_log` makes before it looks at its options, when
all of them succeed. -/
def telemetry_prelude (w : TelemetryWorld) : List Event :=
  [Event.fstat w.fstatRes]
    ++ (if w.isBlk = true then [Event.nvme_get_nsid w.nsidRes] else [])
    ++ [Event.nvme_identify_ctrl w.identifyRes]

/-- The serial number string `ocp_telemetry_log` hands to the extractions. -/
def telemetry_sn (w : TelemetryWorld) : String :=
  c_string (get_serial_number w.ctrl_sn (List.replicate 21 0))

/-- An outside world of the firmware activation history in which the serial
number is "SN123", `open` returns descriptor 3, the three security commands
return `reset`, `arm` and `recv` delivering the text bytes "ab" followed by a
NUL and the byte 99, and `write` reports 2 bytes written. -/
def securityWorld (reset arm recv : Int) : SecurityWorld :=
  { identify := (0, sn_bytes "SN123"), openRes := 3, resetRes := reset, armRes := arm,
    recv := (recv, [97, 98, 0, 99]), writeRes := 2 }

/-- Whether the call is a security send or a security receive. -/
def Event.isSecurity : Event → Bool
  | Event.nvme_sec_send _ _ _ _ _ => true
  | Event.nvme_sec_recv _ _ _ _ => true
  | _ => false

/-- Store of the `width` low-order bytes of `v`, least significant byte first,
at offset `off` of `buf`: the inverse of a little-endian read of that width. -/
def put_le (buf : List Nat) (off : Nat) : Nat → Nat → List Nat
  | 0, _ => buf
  | w + 1, v => put_le (buf.set off (v % 256)) (off + 1) w (v / 256)

/-- The fields that `ocp_print_C0_log_normal` prints for every version, as
(byte offset, width in bytes), in the order in which their values are printed
(lines 104-162).  The offsets are those of `SMART_CLOUD_ATTRIBUTE_OFFSETS`; the
width is that of the read, the masks of lines 111, 115 and 131 keeping 6, 6 and
7 bytes, and `int128_to_double` reading 16 bytes. -/
def c0_fields_base : List (Nat × Nat) :=
  [(SCAO_PMUW + 8, 8), (SCAO_PMUW, 8), (SCAO_PMUR + 8, 8), (SCAO_PMUR, 8), (SCAO_BUNBR, 6),
   (SCAO_BUNBN, 2), (SCAO_BSNBR, 6), (SCAO_BSNBN, 2), (SCAO_XRC, 8), (SCAO_UREC, 8),
   (SCAO_SEEC, 8), (SCAO_EECE, 4), (SCAO_EEDC, 4), (SCAO_SDPU, 1), (SCAO_RFSC, 7),
   (SCAO_MXUDEC, 4), (SCAO_MNUDEC, 4), (SCAO_NTTE, 1), (SCAO_CTS, 1), (SCAO_PCEC, 8),
   (SCAO_ICS, 4), (SCAO_PFB, 1), (SCAO_CPH, 2), ( SCAO_UIO, 8), (SCAO_SVN, 8), (SCAO_NUSE, 8),
   (SCAO_PSC, 16), (SCAO_EEST, 16), (SCAO_LPV, 2), (SCAO_LPG + 8, 8), (SCAO_LPG, 8)]

/-- The fields printed only for a version above 2 (lines 163-176), in print
order.  In `SMART_CLOUD_ATTRIBUTE_OFFSETS` the Point Version Field starts at
99, the Minor Version Field at 101 and the Major Version Field at 103, and the
first two are printed as `uint16_t`: they are two bytes wide. -/
def c0_fields_extended : List (Nat × Nat) :=
  [(SCAO_EVF, 1), (SCAO_PVF, 2), (SCAO_MIVF, 2), (SCAO_MAVF, 1), (SCAO_NEV, 1), (SCAO_PLRC, 8)]

/-- The fields of the capacity page printed for the buffer `data`. -/
def c0_fields (data : List Nat) : List (Nat × Nat) :=
  c0_fields_base ++ (if le16_to_cpu data SCAO_LPV > 2 then c0_fields_extended else [])

/-- The numbers printed by `ocp_print_C0_log_normal`, in order. -/
def c0_decoded (data : List Nat) : List Nat :=
  (ocp_print_C0_log_normal data).flatMap Prod.snd

/-- Each value written back into `buf` at the offset and width of its field. -/
def reencode (fields : List (Nat × Nat)) (values : List Nat) (buf : List Nat) : List Nat :=
  (fields.zip values).foldl (fun b fv => put_le b fv.1.1 fv.1.2 fv.2) buf

/-- The decoded values of the capacity page `data` written back, each at the
offset and width of its field, into a zeroed buffer of 512 bytes. -/
def c0_reencode (data : List Nat) : List Nat :=
  reencode (c0_fields data) (c0_decoded data) (List.replicate C0_SMART_CLOUD_ATTR_LEN 0)

/-- Whether byte position `i` belongs to a field printed for `data`. -/
def c0_covered (data : List Nat) (i : Nat) : Bool :=
  (c0_fields data).any (fun f => decide (f.1 ≤ i ∧ i < f.1 + f.2))

/-- The capacity page `c0_page_v3` (version 3, C0 GUID) with the bytes 99, 100
of the Point Version Field set to 0, 1 and the bytes 101, 102 of the Minor
Version Field set to 5, 2. -/
def c0_page_pvf : List Nat := ((c0_page_v3.set 100 1).set 101 5).set 102 2

/-- A 512-byte capacity page with the C0 GUID whose bytes 32..37 (bad user NAND
blocks, raw) are 0xFF and whose bytes 38, 39 (normalized) are `n0`, `n1`. -/
def c0_page_bad_blocks (n0 n1 : Nat) : List Nat :=
  List.replicate 32 0 ++ List.replicate 6 0xFF ++ [n0, n1] ++ List.replicate 454 0 ++ [0, 0]
    ++ scao_guid

/-- The latency page `c3_page 1 0` with the raw timer (offset 2) 0xFFFF, the raw
threshold A (offset 6) 255 and the raw minimum window (offset 0x0C) 255. -/
def c3_page_units : List Nat :=
  ((((c3_page 1 0).set 0x02 0xFF).set 0x03 0xFF).set 0x06 255).set 0x0C 255

/-- A telemetry header buffer with DataArea1LastBlock = 0, DataArea2LastBlock = 0
and DataArea3LastBlock = 65535. -/
def header_max : List Nat := List.replicate 12 0 ++ [0xFF, 0xFF]

/-- The world `w` with the outside worlds of the extractions replaced by `e`. -/
def TelemetryWorld.withDumpEnv (w : TelemetryWorld) (e : Nat → Int → Env) : TelemetryWorld :=
  { fstatRes := w.fstatRes, isBlk := w.isBlk, nsidRes := w.nsidRes,
    identifyRes := w.identifyRes, ctrl_sn := w.ctrl_sn, ctrl_lpa := w.ctrl_lpa, dumpEnv := e }

/-- The world `telemetryWorld lpa` in which the header fetch of the extraction
of type `t` and area `a` fails with status `e`. -/
def telemetryWorldFailing (lpa t : Nat) (a e : Int) : TelemetryWorld :=
  (telemetryWorld lpa).withDumpEnv
    (fun t' a' => if t' = t ∧ a' = a then headerFailEnv e else headerEnv header_2_5_5)

/-- The accumulator `R` of `int128_to_double` against the exact value `V` once
`V` no longer fits 64 bits: `R` is a 64-bit significand `k` scaled by `2 ^ s`,
`V` is at least `2 ^ (63 + s)`, and the two differ by less than `2 ^ s`. -/
def Rounded (R V : Nat) : Prop :=
  ∃ k s, 1 ≤ s ∧ 2 ^ 63 ≤ k ∧ k ≤ 2 ^ 64 ∧ R = k * 2 ^ s ∧ 2 ^ 63 * 2 ^ s ≤ V ∧
    R + 1 ≤ V + 2 ^ s ∧ V + 1 ≤ R + 2 ^ s

/-- The start block of data area `n` as the plan of the specification gives
it: 0, DataArea1LastBlock, DataArea2LastBlock for areas 1, 2, 3. -/
def spec_start_blocks (data : List Nat) (n : Int) : Nat :=
  if n = 1 then 0 else if n = 2 then DataArea1LastBlock data else DataArea2LastBlock data

/-- The end block of data area `n` as the plan of the specification gives it:
DataArea1LastBlock, DataArea2LastBlock, DataArea3LastBlock for areas 1, 2, 3. -/
def spec_end_blocks (data : List Nat) (n : Int) : Nat :=
  if n = 1 then DataArea1LastBlock data
  else if n = 2 then DataArea2LastBlock data else DataArea3LastBlock data

/-- A 512-byte latency page with version 1 and the C3 GUID whose debug-log
latency timestamp (the eight bytes at 0x1C4) holds `raw`, little-endian. -/
def c3_page_stamp (raw : Nat) : List Nat :=
  List.replicate 0x1C4 0 ++ (List.range 8).map (fun k => raw / 256 ^ k % 256)
    ++ List.replicate 34 0 ++ [1, 0] ++ lat_mon_guid

/-! ## Lemmas on the helpers -/

theorem fillBuf_length (size : Nat) (d : List Nat) : (fillBuf size d).length = size := by
  simp [fillBuf]

theorem chunks_from_length (env : Env) (size : Nat) (m : Nat) :
    ∀ i, (chunks_from env size i m).length = m * size := by
  induction m with
  | zero => intro i; simp [chunks_from]
  | succ m ih =>
    intro i
    simp [chunks_from, fillBuf_length, ih]
    ring

theorem plan_arith (T S : Int) (hT : 0 < T) (hS : 0 < S) :
    1 ≤ total_loop_cnt T S ∧ 0 < last_xfer_size T S ∧ last_xfer_size T S ≤ S ∧
    (total_loop_cnt T S - 1) * S + last_xfer_size T S = T ∧
    last_xfer_size T S = (if T % S = 0 then S else T % S) := by
  have hd : Int.tdiv T S = T / S := Int.tdiv_eq_ediv hT.le hS.le
  have hm : Int.tmod T S = T % S := Int.tmod_eq_emod hT.le hS.le
  have h1 : S * (T / S) + T % S = T := Int.ediv_add_emod T S
  have h2 : 0 ≤ T % S := Int.emod_nonneg T hS.ne'
  have h3 : T % S < S := Int.emod_lt_of_pos T hS
  have h4 : 0 ≤ T / S := Int.ediv_nonneg hT.le hS.le
  unfold total_loop_cnt last_xfer_size
  rw [hd, hm]
  by_cases h0 : T % S = 0
  · simp only [h0, ne_eq, not_true_eq_false, if_false, if_true]
    rw [h0] at h1
    have h5 : 0 < T / S := by
      rcases h4.lt_or_eq with h | h
      · exact h
      · rw [← h] at h1; simp at h1; omega
    refine ⟨by omega, hS, le_refl _, ?_, trivial⟩
    have : (T / S - 1) * S + S = S * (T / S) := by ring
    omega
  · simp only [h0, ne_eq, not_false_eq_true, if_true, if_false]
    refine ⟨by omega, by omega, by omega, ?_, trivial⟩
    have : (T / S + 1 - 1) * S = S * (T / S) := by ring
    omega

theorem writeCounts_append (a b : List Event) :
    writeCounts (a ++ b) = writeCounts a ++ writeCounts b := by
  simp [writeCounts, List.filterMap_append]

theorem countP_isChunkRead_append (a b : List Event) :
    (a ++ b).countP Event.isChunkRead
      = a.countP Event.isChunkRead + b.countP Event.isChunkRead := by
  simp [List.countP_append]

/-- A run of the loop in which every read, the `open` and every `write`
succeed: the loop runs to its end. -/
theorem dump_loop_ok (env : Env) (fp : String) (S last cnt : Int) (nsid log_id lsp : Nat)
    (rae : Bool) (hr : ∀ j, (env.getLog j).1 = 0) (ho : 0 ≤ env.openRes)
    (hw : ∀ j, 0 ≤ env.writeRes j) (n : Nat) :
    ∀ (i off : Nat) (out : Int), (i : Int) + n + 1 = cnt →
      (dump_loop env fp S last cnt nsid log_id lsp rae (n + 1) i off out).1 = 0 ∧
      writeCounts (dump_loop env fp S last cnt nsid log_id lsp rae (n + 1) i off out).2
        = List.replicate n S ++ [last] ∧
      (dump_loop env fp S last cnt nsid log_id lsp rae (n + 1) i off out).2.countP
        Event.isChunkRead = n + 1 := by
  induction n with
  | zero =>
    intro i off out h
    have hi : (i : Int) = cnt - 1 := by omega
    have hwi : ¬ env.writeRes i < 0 := not_lt.mpr (hw i)
    simp [dump_loop, dump_write, hr, hi, hwi, writeCounts, Event.isChunkRead]
  | succ n ih =>
    intro i off out h
    have hi : (i : Int) ≠ cnt - 1 := by omega
    have hwi : ¬ env.writeRes i < 0 := not_lt.mpr (hw i)
    have ho1 : ¬ env.openRes < 0 := not_lt.mpr ho
    have h1 : ((i + 1 : Nat) : Int) + n + 1 = cnt := by push_cast; omega
    by_cases h0 : i = 0
    · subst h0
      have hi0 : ¬ ((0 : Nat) : Int) = cnt - 1 := hi
      obtain ⟨a, b, c⟩ := ih (0 + 1) (to_u64 ((off : Int) + S)) env.openRes h1
      rw [dump_loop]
      simp only [hr, ne_eq, not_true_eq_false, if_false, hi0, not_false_eq_true, if_true,
        ho1, dump_write, hwi]
      refine ⟨a, ?_, ?_⟩
      · rw [writeCounts_append, b]
        simp [writeCounts, List.replicate_succ]
      · rw [countP_isChunkRead_append, c]
        simp [Event.isChunkRead, List.countP_cons]
        omega
    · obtain ⟨a, b, c⟩ := ih (i + 1) (to_u64 ((off : Int) + S)) out h1
      rw [dump_loop]
      simp only [hr, ne_eq, not_true_eq_false, if_false, hi, not_false_eq_true, if_true, h0,
        dump_write, hwi]
      refine ⟨a, ?_, ?_⟩
      · rw [writeCounts_append, b]
        simp [writeCounts, List.replicate_succ]
      · rw [countP_isChunkRead_append, c]
        simp [Event.isChunkRead, List.countP_cons]
        omega

theorem fileStep_foldl_append (path : String) (s : FileState) (a b : List Event) :
    (a ++ b).foldl (fileStep path) s = b.foldl (fileStep path) (a.foldl (fileStep path) s) := by
  simp [List.foldl_append]

/-- A run of the loop from iteration `i ≥ 1`, with the output file open on
`fd`, in which the reads of iterations `i .. i+m-1` succeed together with
their (full) writes and the read of iteration `i+m` fails. -/
theorem dump_loop_fail (env : Env) (fp : String) (S last cnt : Int) (nsid log_id lsp : Nat)
    (rae : Bool) (hS : 0 < S) (k : Nat) (e : Int) (hk : (k : Int) < cnt)
    (hr : ∀ j, j < k → (env.getLog j).1 = 0) (he : (env.getLog k).1 = e) (hne : e ≠ 0)
    (hw : ∀ j, j < k → env.writeRes j = S) (m : Nat) :
    ∀ (n i off : Nat) (fd : Int) (c : List Nat), 0 < i → i + m = k →
      (i : Int) + n + 1 = cnt →
      (dump_loop env fp S last cnt nsid log_id lsp rae (n + 1) i off fd).1 = e ∧
      (dump_loop env fp S last cnt nsid log_id lsp rae (n + 1) i off fd).2.countP
        Event.isChunkRead = m + 1 ∧
      (dump_loop env fp S last cnt nsid log_id lsp rae (n + 1) i off fd).2.foldl (fileStep fp)
        { content := some c, fd := some fd }
        = { content := some (c ++ chunks_from env S.toNat i m), fd := none } := by
  induction m with
  | zero =>
    intro n i off fd c hi him hin
    have hik : i = k := by omega
    subst hik
    rw [dump_loop]
    simp [he, hne, hi, Event.isChunkRead, fileStep, chunks_from]
  | succ m ih =>
    intro n i off fd c hi him hin
    have hik : i < k := by omega
    have hi1 : (i : Int) ≠ cnt - 1 := by omega
    have hi0 : i ≠ 0 := by omega
    have hwi : ¬ env.writeRes i < 0 := by rw [hw i hik]; omega
    obtain ⟨n', rfl⟩ : ∃ n', n = n' + 1 := ⟨n - 1, by omega⟩
    obtain ⟨a, b, d⟩ := ih n' (i + 1) (to_u64 ((off : Int) + S)) fd
      (c ++ fillBuf S.toNat (env.getLog i).2) (by omega) (by omega) (by push_cast; omega)
    rw [dump_loop]
    simp only [hr i hik, ne_eq, not_true_eq_false, if_false, hi1, not_false_eq_true, if_true,
      hi0, dump_write, hwi]
    refine ⟨a, ?_, ?_⟩
    · rw [countP_isChunkRead_append, b]
      simp [Event.isChunkRead, List.countP_cons]
      omega
    · rw [fileStep_foldl_append]
      have hpre : List.foldl (fileStep fp) { content := some c, fd := some fd }
          [Event.nvme_get_log14 nsid log_id lsp off rae S 0,
            Event.write fd (fillBuf S.toNat (env.getLog i).2) S (env.writeRes i)]
          = { content := some (c ++ fillBuf S.toNat (env.getLog i).2), fd := some fd } := by
        have hlen : (fillBuf S.toNat (env.getLog i).2).length ≤ S.toNat := by
          rw [fillBuf_length]
        simp [fileStep, hw i hik, hS.le, List.take_of_length_le hlen]
      rw [hpre, d]
      simp [chunks_from, List.append_assoc]

theorem to_int_to_u32 (e : Int) (h1 : -2 ^ 31 ≤ e) (h2 : e < 2 ^ 31) : to_int (to_u32 e) = e := by
  unfold to_int to_u32
  split <;> omega

theorem le16_to_cpu_lt (buf : List Nat) (off : Nat) : le16_to_cpu buf off < 65536 := by
  unfold le16_to_cpu le_bytes le_bytes le_bytes u8
  omega

theorem to_u32_ne_zero (e : Int) (hne : e ≠ 0) (h1 : -2 ^ 31 ≤ e) (h2 : e < 2 ^ 31) :
    to_u32 e ≠ 0 := by
  unfold to_u32
  omega

/-- The first chunk read failing: nothing but that read is issued. -/
theorem extract_dump_first_read_fails (env : Env) (featurename filename sn : String)
    (T S : Int) (nsid log_id lsp offset : Nat) (rae : Bool) (e : Int) (hT : 0 < T) (hS : 0 < S)
    (he : (env.getLog 0).1 = e) (hne : e ≠ 0) :
    extract_dump_get_log env featurename filename sn T S nsid log_id lsp offset rae
      = (e, [Event.nvme_get_log14 nsid log_id lsp offset rae S e]) := by
  obtain ⟨h1, _⟩ := plan_arith T S hT hS
  obtain ⟨n, hn⟩ : ∃ n : Nat, (total_loop_cnt T S).toNat = n + 1 :=
    ⟨(total_loop_cnt T S).toNat - 1, by omega⟩
  unfold extract_dump_get_log
  simp only [hn]
  rw [dump_loop]
  simp [he, hne]


theorem fillBuf_of_length (size : Nat) (l : List Nat) (h : l.length = size) :
    fillBuf size l = l := by
  unfold fillBuf
  rw [List.take_append_of_le_length (by omega), List.take_of_length_le (by omega)]

theorem u8_set_same (l : List Nat) (k b : Nat) (h : k < l.length) :
    u8 (l.set k b) k = b % 256 := by
  simp [u8, List.getD_eq_getElem?_getD, List.getElem?_set, h]

theorem guid_differs_eq_false (guid data : List Nat) (off : Nat) :
    guid_differs guid data off = false ↔ ∀ i, i < 16 → u8 data (off + i) = guid.getD i 0 := by
  unfold guid_differs
  rw [Bool.eq_false_iff, Ne, List.any_eq_true]
  constructor
  · intro h i hi
    by_contra hne
    refine h ⟨i, List.mem_range.mpr hi, ?_⟩
    rw [bne_iff_ne]
    exact fun h' => hne h'.symm
  · rintro h ⟨i, hi, hne⟩
    rw [bne_iff_ne] at hne
    exact hne (h i (List.mem_range.mp hi)).symm

theorem u8_drop (l : List Nat) (n i : Nat) : u8 (l.drop n) i = u8 l (n + i) := by
  simp [u8, List.getD_eq_getElem?_getD, List.getElem?_drop]

theorem le_bytes_agree (d d' : List Nat) (n : Nat) :
    ∀ off, (∀ j, j < n → u8 d (off + j) = u8 d' (off + j)) →
      le_bytes d off n = le_bytes d' off n := by
  induction n with
  | zero => intro off _; rfl
  | succ n ih =>
    intro off h
    simp only [le_bytes]
    rw [ih (off + 1) (fun j hj => by
      have := h (j + 1) (by omega)
      rwa [show off + (j + 1) = off + 1 + j by omega] at this)]
    have := h 0 (by omega)
    rw [Nat.add_zero] at this
    rw [this]

theorem int128_to_double_agree (d d' : List Nat) (off : Nat)
    (h : ∀ j, j < 16 → u8 d (off + j) = u8 d' (off + j)) :
    int128_to_double (d.drop off) = int128_to_double (d'.drop off) := by
  have hr : List.range 16 = [0, 1, 2, 3, 4, 5, 6, 7, 8, 9, 10, 11, 12, 13, 14, 15] := by decide
  have h0 : u8 d off = u8 d' off := by simpa using h 0 (by norm_num)
  simp only [int128_to_double, hr, List.foldl, u8_drop]
  simp [h, h0]

/-! ## Claims -/

set_option maxRecDepth 100000 in
/-- C1 (the single-chunk case, evaluated): with total size 512 and transfer size
1024, every read succeeding, `extract_dump_get_log` never calls `open`; its one
`write` and its `close` are issued on descriptor 0, the initial value of
`output`, and the file at the output path is left as it was.  The same
happens through `get_telemetry_dump` for area 1 of a header with
DataArea1LastBlock = 2 (1024 bytes, one chunk): it returns 0, its trace holds
no `open`, and its only `write` asks for the 1024 bytes. -/
theorem extract_dump_single_chunk_never_opens (bytes : Nat → List Nat) (fd : Int)
    (w : Nat → Int) (prior : Option (List Nat)) :
    extract_dump_get_log (okEnv bytes fd w) "Telemetry_Host(0)_Area_1" "" "SN" 512 1024
        0 7 0 512 false
      = (if w 0 < 0 then -10 else 0,
          [Event.nvme_get_log14 0 7 0 512 false 1024 0,
           Event.write 0 (fillBuf 1024 (bytes 0)) 512 (w 0), Event.close 0]) ∧
    fileAfter "/Telemetry_Host(0)_Area_1_SN.bin" prior
        (extract_dump_get_log (okEnv bytes fd w) "Telemetry_Host(0)_Area_1" "" "SN" 512 1024
          0 7 0 512 false).2
      = { content := prior, fd := none } ∧
    (get_telemetry_dump (headerEnv header_2_5_5) "" "SN" TELEMETRY_TYPE_HOST_0 1 true).1 = 0 ∧
    (get_telemetry_dump (headerEnv header_2_5_5) "" "SN" TELEMETRY_TYPE_HOST_0 1 true).2.any
      Event.isOpen = false ∧
    writeCounts (get_telemetry_dump (headerEnv header_2_5_5) "" "SN" TELEMETRY_TYPE_HOST_0 1
      true).2 = [1024] := by
  have h : extract_dump_get_log (okEnv bytes fd w) "Telemetry_Host(0)_Area_1" "" "SN" 512 1024
        0 7 0 512 false
      = (if w 0 < 0 then -10 else 0,
          [Event.nvme_get_log14 0 7 0 512 false 1024 0,
           Event.write 0 (fillBuf 1024 (bytes 0)) 512 (w 0), Event.close 0]) := by
    have hc : total_loop_cnt 512 1024 = 1 := by decide
    have hl : last_xfer_size 512 1024 = 512 := by decide
    unfold extract_dump_get_log
    simp only [hc, hl]
    show dump_loop _ _ _ _ _ _ _ _ _ (0 + 1) 0 512 0 = _
    rw [dump_loop]
    by_cases hw : w 0 < 0 <;> simp [okEnv, dump_write, dump_loop, hw]
  refine ⟨h, ?_, by decide, by decide, by decide⟩
  rw [h]
  simp [fileAfter, fileStep]

/-- C3: for total size `T > 0` and transfer size `S > 0` the loop count is
`ceil(T / S)`; when every read, the `open` and every `write` succeed, exactly
that many chunk reads are issued, every `write` but the last asks for `S`
bytes, the last for `T mod S` bytes (for `S` when `T mod S = 0`), and the
requested sizes sum to `T`. -/
theorem extract_dump_chunk_plan (env : Env) (featurename filename sn : String) (T S : Int)
    (nsid log_id lsp offset : Nat) (rae : Bool) (hT : 0 < T) (hS : 0 < S)
    (hr : ∀ j, (env.getLog j).1 = 0) (ho : 0 ≤ env.openRes) (hw : ∀ j, 0 ≤ env.writeRes j) :
    total_loop_cnt T S = ⌈(T : ℚ) / (S : ℚ)⌉ ∧
    (((extract_dump_get_log env featurename filename sn T S nsid log_id lsp offset rae).2.countP
        Event.isChunkRead : Nat) : Int) = total_loop_cnt T S ∧
    writeCounts (extract_dump_get_log env featurename filename sn T S nsid log_id lsp offset rae).2
      = List.replicate ((total_loop_cnt T S).toNat - 1) S
          ++ [if T % S = 0 then S else T % S] ∧
    (writeCounts
      (extract_dump_get_log env featurename filename sn T S nsid log_id lsp offset rae).2).sum
      = T := by
  obtain ⟨h1, h2, h3, h4, h5⟩ := plan_arith T S hT hS
  obtain ⟨n, hn⟩ : ∃ n : Nat, total_loop_cnt T S = (n : Int) + 1 :=
    ⟨(total_loop_cnt T S - 1).toNat, by omega⟩
  have hn' : (total_loop_cnt T S).toNat = n + 1 := by omega
  obtain ⟨_, b, c⟩ := dump_loop_ok env ("/" ++ featurename ++ "_" ++ sn ++ ".bin") S
    (last_xfer_size T S) (total_loop_cnt T S) nsid log_id lsp rae hr ho hw n 0 offset 0
    (by rw [hn]; push_cast; ring)
  have hq : (0 : ℚ) < (S : ℚ) := by exact_mod_cast hS
  refine ⟨?_, ?_, ?_, ?_⟩
  · symm
    rw [Int.ceil_eq_iff, lt_div_iff₀ hq, div_le_iff₀ hq]
    constructor
    · have : (total_loop_cnt T S - 1) * S < T := by omega
      exact_mod_cast this
    · have : T ≤ total_loop_cnt T S * S := by
        have : total_loop_cnt T S * S = (total_loop_cnt T S - 1) * S + S := by ring
        omega
      exact_mod_cast this
  · unfold extract_dump_get_log
    simp only [hn']
    rw [c, hn]
    push_cast
    ring
  · unfold extract_dump_get_log
    simp only [hn']
    rw [b, h5]
    simp
  · unfold extract_dump_get_log
    simp only [hn']
    rw [b]
    simp only [List.sum_append, List.sum_replicate, List.sum_cons, List.sum_nil, smul_eq_mul,
      nsmul_eq_mul, add_zero]
    have : (n : Int) = total_loop_cnt T S - 1 := by omega
    rw [this]
    exact h4

/-- C3 witness: total size 2500 and transfer size 1024 give three chunks of
1024, 1024 and 452 bytes. -/
theorem extract_dump_chunk_plan_witness :
    (0 : Int) < 2500 ∧ (0 : Int) < 1024 ∧
    total_loop_cnt 2500 1024 = 3 ∧
    writeCounts (extract_dump_get_log (okEnv (fun _ => []) 3 fullWrites_2500) "F" "" "SN"
      2500 1024 0 7 0 512 false).2 = [1024, 1024, 452] ∧
    (writeCounts (extract_dump_get_log (okEnv (fun _ => []) 3 fullWrites_2500) "F" "" "SN"
      2500 1024 0 7 0 512 false).2).sum = 2500 :=
  ⟨by decide, by decide, by decide,
    (extract_dump_chunk_plan (okEnv (fun _ => []) 3 fullWrites_2500) "F" "" "SN" 2500 1024
      0 7 0 512 false (by decide) (by decide) (fun _ => rfl) (by decide)
      (fun j => by
        show (0 : Int) ≤ fullWrites_2500 j
        unfold fullWrites_2500
        split <;> decide)).2.2.1,
    (extract_dump_chunk_plan (okEnv (fun _ => []) 3 fullWrites_2500) "F" "" "SN" 2500 1024
      0 7 0 512 false (by decide) (by decide) (fun _ => rfl) (by decide)
      (fun j => by
        show (0 : Int) ≤ fullWrites_2500 j
        unfold fullWrites_2500
        split <;> decide)).2.2.2⟩

/-- C4: when the reads of the first `k ≥ 1` chunks succeed (with the `open` and
their full-size writes) and the read of chunk `k + 1` returns the non-zero
status `e`, `extract_dump_get_log` returns `e`, has issued exactly `k + 1`
chunk reads, and leaves the output file closed and holding exactly the `k`
buffers received, `k * S` bytes. -/
theorem extract_dump_later_chunk_fails (env : Env) (featurename filename sn : String)
    (T S : Int) (nsid log_id lsp offset : Nat) (rae : Bool) (prior : Option (List Nat))
    (k : Nat) (e : Int) (hS : 0 < S) (hk1 : 1 ≤ k) (hk : (k : Int) < total_loop_cnt T S)
    (hr : ∀ j, j < k → (env.getLog j).1 = 0) (he : (env.getLog k).1 = e) (hne : e ≠ 0)
    (ho : 0 ≤ env.openRes) (hw : ∀ j, j < k → env.writeRes j = S) :
    (extract_dump_get_log env featurename filename sn T S nsid log_id lsp offset rae).1 = e ∧
    (extract_dump_get_log env featurename filename sn T S nsid log_id lsp offset rae).2.countP
      Event.isChunkRead = k + 1 ∧
    fileAfter ("/" ++ featurename ++ "_" ++ sn ++ ".bin") prior
      (extract_dump_get_log env featurename filename sn T S nsid log_id lsp offset rae).2
      = { content := some (chunks_from env S.toNat 0 k), fd := none } ∧
    (chunks_from env S.toNat 0 k).length = k * S.toNat := by
  obtain ⟨n, hn⟩ : ∃ n : Nat, total_loop_cnt T S = (n : Int) + 2 :=
    ⟨(total_loop_cnt T S - 2).toNat, by omega⟩
  have hn' : (total_loop_cnt T S).toNat = (n + 1) + 1 := by omega
  obtain ⟨m, rfl⟩ : ∃ m, k = m + 1 := ⟨k - 1, by omega⟩
  have h0 : ¬ ((0 : Nat) : Int) = total_loop_cnt T S - 1 := by omega
  have ho1 : ¬ env.openRes < 0 := not_lt.mpr ho
  have hw0 : ¬ env.writeRes 0 < 0 := by rw [hw 0 (by omega)]; omega
  obtain ⟨a, b, d⟩ := dump_loop_fail env ("/" ++ featurename ++ "_" ++ sn ++ ".bin") S
    (last_xfer_size T S) (total_loop_cnt T S) nsid log_id lsp rae hS (m + 1) e hk hr he hne hw
    m n 1 (to_u64 ((offset : Int) + S)) env.openRes (fillBuf S.toNat (env.getLog 0).2)
    (by omega) (by omega) (by rw [hn]; push_cast; ring)
  have hlen : (fillBuf S.toNat (env.getLog 0).2).length ≤ S.toNat := by rw [fillBuf_length]
  refine ⟨?_, ?_, ?_, chunks_from_length env S.toNat (m + 1) 0⟩
  · unfold extract_dump_get_log
    simp only [hn']
    rw [dump_loop]
    simp only [hr 0 (by omega), ne_eq, not_true_eq_false, if_false, h0, not_false_eq_true,
      if_true, ho1, dump_write, hw0]
    exact a
  · unfold extract_dump_get_log
    simp only [hn']
    rw [dump_loop]
    simp only [hr 0 (by omega), ne_eq, not_true_eq_false, if_false, h0, not_false_eq_true,
      if_true, ho1, dump_write, hw0]
    rw [countP_isChunkRead_append, b]
    simp [Event.isChunkRead, List.countP_cons]
    omega
  · unfold extract_dump_get_log fileAfter
    simp only [hn']
    rw [dump_loop]
    simp only [hr 0 (by omega), ne_eq, not_true_eq_false, if_false, h0, not_false_eq_true,
      if_true, ho1, dump_write, hw0]
    rw [fileStep_foldl_append]
    have hpre : List.foldl (fileStep ("/" ++ featurename ++ "_" ++ sn ++ ".bin"))
        { content := prior, fd := none }
        [Event.nvme_get_log14 nsid log_id lsp offset rae S 0,
          Event.open_trunc ("/" ++ featurename ++ "_" ++ sn ++ ".bin") env.openRes,
          Event.write env.openRes (fillBuf S.toNat (env.getLog 0).2) S (env.writeRes 0)]
        = { content := some (fillBuf S.toNat (env.getLog 0).2), fd := some env.openRes } := by
      simp [fileStep, hw 0 (by omega), hS.le, ho, List.take_of_length_le hlen]
    rw [hpre, d]
    simp [chunks_from]

/-- C4 witness: total size 2500, transfer size 1024 (three chunks), the read
of chunk 2 failing with status 5: the function returns 5 after two reads and
the file holds the 1024 bytes of the first buffer. -/
theorem extract_dump_later_chunk_fails_witness :
    (1 : Int) < total_loop_cnt 2500 1024 ∧ (failAt 1 5).getLog 1 = (5, []) ∧
    (extract_dump_get_log (failAt 1 5) "F" "" "SN" 2500 1024 0 7 0 512 false).1 = 5 ∧
    (extract_dump_get_log (failAt 1 5) "F" "" "SN" 2500 1024 0 7 0 512 false).2.countP
      Event.isChunkRead = 2 ∧
    fileAfter "/F_SN.bin" (some [9, 9]) (extract_dump_get_log (failAt 1 5) "F" "" "SN" 2500 1024
      0 7 0 512 false).2
      = { content := some (chunks_from (failAt 1 5) 1024 0 1), fd := none } ∧
    (chunks_from (failAt 1 5) 1024 0 1).length = 1024 :=
  ⟨by decide, by decide,
    extract_dump_later_chunk_fails (failAt 1 5) "F" "" "SN" 2500 1024 0 7 0 512 false
      (some [9, 9]) 1 5 (by decide) (by decide) (by decide)
      (fun j hj => by
        have : j = 0 := by omega
        subst this; rfl)
      rfl (by decide) (by decide)
      (fun j _ => rfl)⟩

/-- Every run of the loop body starts with the chunk read at the current
offset. -/
theorem dump_loop_first_read (env : Env) (fp : String) (S last cnt : Int)
    (nsid log_id lsp : Nat) (rae : Bool) (n i off : Nat) (out : Int) :
    ∃ rest, (dump_loop env fp S last cnt nsid log_id lsp rae (n + 1) i off out).2
      = Event.nvme_get_log14 nsid log_id lsp off rae S (env.getLog i).1 :: rest := by
  rw [dump_loop]
  simp only [dump_write]
  split_ifs <;> exact ⟨_, rfl⟩

theorem extract_dump_first_read (env : Env) (featurename filename sn : String) (T S : Int)
    (nsid log_id lsp offset : Nat) (rae : Bool) (hT : 0 < T) (hS : 0 < S) :
    ((extract_dump_get_log env featurename filename sn T S nsid log_id lsp offset rae).2.filter
        Event.isChunkRead).head?
      = some (Event.nvme_get_log14 nsid log_id lsp offset rae S (env.getLog 0).1) := by
  obtain ⟨h1, _⟩ := plan_arith T S hT hS
  obtain ⟨n, hn⟩ : ∃ n : Nat, (total_loop_cnt T S).toNat = n + 1 :=
    ⟨(total_loop_cnt T S).toNat - 1, by omega⟩
  unfold extract_dump_get_log
  simp only [hn]
  obtain ⟨rest, hrest⟩ := dump_loop_first_read env ("/" ++ featurename ++ "_" ++ sn ++ ".bin") S
    (last_xfer_size T S) (total_loop_cnt T S) nsid log_id lsp rae n 0 offset 0
  rw [hrest]
  simp [List.filter_cons, Event.isChunkRead]

theorem extract_dump_write_total (env : Env) (featurename filename sn : String) (T S : Int)
    (nsid log_id lsp offset : Nat) (rae : Bool) (hT : 0 < T) (hS : 0 < S)
    (hr : ∀ j, (env.getLog j).1 = 0) (ho : 0 ≤ env.openRes) (hw : ∀ j, 0 ≤ env.writeRes j) :
    (writeCounts
      (extract_dump_get_log env featurename filename sn T S nsid log_id lsp offset rae).2).sum
      = T := by
  obtain ⟨h1, h2, h3, h4, h5⟩ := plan_arith T S hT hS
  obtain ⟨n, hn⟩ : ∃ n : Nat, total_loop_cnt T S = (n : Int) + 1 :=
    ⟨(total_loop_cnt T S - 1).toNat, by omega⟩
  have hn2 : (total_loop_cnt T S).toNat = n + 1 := by omega
  obtain ⟨_, b, _⟩ := dump_loop_ok env ("/" ++ featurename ++ "_" ++ sn ++ ".bin") S
    (last_xfer_size T S) (total_loop_cnt T S) nsid log_id lsp rae hr ho hw n 0 offset 0
    (by rw [hn]; push_cast; ring)
  unfold extract_dump_get_log
  simp only [hn2]
  rw [b]
  simp only [List.sum_append, List.sum_replicate, List.sum_cons, List.sum_nil, smul_eq_mul,
    nsmul_eq_mul, add_zero]
  have : (n : Int) = total_loop_cnt T S - 1 := by omega
  rw [this]
  exact h4

theorem plan_values (data : List Nat) (n : Int)
    (h12 : DataArea1LastBlock data ≤ DataArea2LastBlock data)
    (h23 : DataArea2LastBlock data ≤ DataArea3LastBlock data) (hn : n = 1 ∨ n = 2 ∨ n = 3) :
    area_offset data n = 512 + spec_start_blocks data n * 512 ∧
    area_size data n = spec_end_blocks data n - spec_start_blocks data n ∧
    dump_size data n
      = (((spec_end_blocks data n - spec_start_blocks data n) * 512 : Nat) : Int) := by
  have b1 : DataArea1LastBlock data < 65536 := le16_to_cpu_lt data 8
  have b2 : DataArea2LastBlock data < 65536 := le16_to_cpu_lt data 10
  have b3 : DataArea3LastBlock data < 65536 := le16_to_cpu_lt data 12
  have hsz : area_size data n = spec_end_blocks data n - spec_start_blocks data n := by
    rcases hn with h | h | h <;> subst h <;>
      simp only [area_size, spec_start_blocks, spec_end_blocks, to_u64] <;> norm_num <;> omega
  have hoff : area_offset data n = 512 + spec_start_blocks data n * 512 := by
    rcases hn with h | h | h <;> subst h <;>
      simp only [area_offset, spec_start_blocks, to_u64, TELEMETRY_HEADER_SIZE,
        TELEMETRY_BYTE_PER_BLOCK] <;> norm_num <;> omega
  have hle : spec_end_blocks data n - spec_start_blocks data n ≤ 65535 := by
    rcases hn with h | h | h <;> subst h <;>
      simp only [spec_start_blocks, spec_end_blocks] <;> norm_num <;> omega
  refine ⟨hoff, hsz, ?_⟩
  unfold dump_size to_int TELEMETRY_BYTE_PER_BLOCK
  rw [hsz]
  generalize spec_end_blocks data n - spec_start_blocks data n = s at hle
  split <;> omega

/-- C2: for a header with DataArea1LastBlock ≤ DataArea2LastBlock ≤
DataArea3LastBlock, fetched with status 0, and a requested area `n` in 1..3
with `(start_blocks, end_blocks)` equal to `(0, DA1)`, `(DA1, DA2)`, `(DA2, DA3)`:
`get_telemetry_dump` computes the start offset `512 + start_blocks * 512` and the
byte size `(end_blocks - start_blocks) * 512`.  For an empty area it returns 0
after the header fetch alone.  Otherwise it is the header fetch followed by
`extract_dump_get_log` called with that size, transfer size 1024 and that start
offset; the first chunk read of its trace is issued at that offset, and when
every read, the `open` and every `write` succeed the sizes of its `write`
calls sum to that byte size. -/
theorem telemetry_plan_arithmetic (env : Env) (filename sn : String) (t : Nat) (n : Int)
    (header_print : Bool) (hh : env.header.1 = 0)
    (h12 : DataArea1LastBlock (header_buf env) ≤ DataArea2LastBlock (header_buf env))
    (h23 : DataArea2LastBlock (header_buf env) ≤ DataArea3LastBlock (header_buf env))
    (hn : n = 1 ∨ n = 2 ∨ n = 3) :
    area_offset (header_buf env) n = 512 + spec_start_blocks (header_buf env) n * 512 ∧
    dump_size (header_buf env) n
      = (((spec_end_blocks (header_buf env) n - spec_start_blocks (header_buf env) n) * 512
          : Nat) : Int) ∧
    (spec_end_blocks (header_buf env) n = spec_start_blocks (header_buf env) n →
      get_telemetry_dump env filename sn t n header_print
        = (0, (get_telemetry_header env 0 (variant_log_id t % 256) TELEMETRY_HEADER_SIZE
                (variant_lsp t) (variant_rae t)).2)) ∧
    (spec_end_blocks (header_buf env) n ≠ spec_start_blocks (header_buf env) n →
      (get_telemetry_dump env filename sn t n header_print
        = (to_int (to_u32 (extract_dump_get_log env
              ("Telemetry_" ++ variant_featurename t ++ "_Area_" ++ toString n) filename sn
              (((spec_end_blocks (header_buf env) n - spec_start_blocks (header_buf env) n)
                * 512 : Nat) : Int)
              1024 0 (variant_log_id t % 256) 0
              (512 + spec_start_blocks (header_buf env) n * 512)
              (decide (variant_rae t ≠ 0))).1),
            (get_telemetry_header env 0 (variant_log_id t % 256) TELEMETRY_HEADER_SIZE
                (variant_lsp t) (variant_rae t)).2
              ++ (extract_dump_get_log env
                  ("Telemetry_" ++ variant_featurename t ++ "_Area_" ++ toString n) filename sn
                  (((spec_end_blocks (header_buf env) n
                      - spec_start_blocks (header_buf env) n) * 512 : Nat) : Int)
                  1024 0 (variant_log_id t % 256) 0
                  (512 + spec_start_blocks (header_buf env) n * 512)
                  (decide (variant_rae t ≠ 0))).2) ∧
        ((get_telemetry_dump env filename sn t n header_print).2.filter
            Event.isChunkRead).head?
          = some (Event.nvme_get_log14 0 (variant_log_id t % 256) 0
              (512 + spec_start_blocks (header_buf env) n * 512)
              (decide (variant_rae t ≠ 0)) 1024 (env.getLog 0).1) ∧
        ((∀ j, (env.getLog j).1 = 0) → 0 ≤ env.openRes → (∀ j, 0 ≤ env.writeRes j) →
          (writeCounts (get_telemetry_dump env filename sn t n header_print).2).sum
            = (((spec_end_blocks (header_buf env) n
                  - spec_start_blocks (header_buf env) n) * 512 : Nat) : Int)))) := by
  obtain ⟨hoff, hsz, hds⟩ := plan_values (header_buf env) n h12 h23 hn
  have hle : spec_start_blocks (header_buf env) n ≤ spec_end_blocks (header_buf env) n := by
    rcases hn with h | h | h <;> subst h <;>
      simp only [spec_start_blocks, spec_end_blocks] <;> norm_num <;> omega
  have hu : to_u32 env.header.1 = 0 := by rw [hh]; rfl
  have hhdr : (get_telemetry_header env 0 (variant_log_id t % 256) TELEMETRY_HEADER_SIZE
      (variant_lsp t) (variant_rae t)).1 = env.header.1 := rfl
  have hfilt : (get_telemetry_header env 0 (variant_log_id t % 256) TELEMETRY_HEADER_SIZE
      (variant_lsp t) (variant_rae t)).2.filter Event.isChunkRead = [] := rfl
  have hwc : writeCounts (get_telemetry_header env 0 (variant_log_id t % 256)
      TELEMETRY_HEADER_SIZE (variant_lsp t) (variant_rae t)).2 = [] := rfl
  refine ⟨hoff, hds, ?_, ?_⟩
  · intro he
    have h0 : area_size (header_buf env) n = 0 := by rw [hsz, he]; omega
    unfold get_telemetry_dump
    simp only [hhdr, hu, ne_eq, not_true_eq_false, if_false, h0, if_true]
    rfl
  · intro hne
    have h0 : ¬ area_size (header_buf env) n = 0 := by rw [hsz]; omega
    have hT : (0 : Int) < (((spec_end_blocks (header_buf env) n
        - spec_start_blocks (header_buf env) n) * 512 : Nat) : Int) := by
      have : 0 < (spec_end_blocks (header_buf env) n
          - spec_start_blocks (header_buf env) n) * 512 := by omega
      exact_mod_cast this
    have hdump : get_telemetry_dump env filename sn t n header_print
        = (to_int (to_u32 (extract_dump_get_log env
              ("Telemetry_" ++ variant_featurename t ++ "_Area_" ++ toString n) filename sn
              (((spec_end_blocks (header_buf env) n - spec_start_blocks (header_buf env) n)
                * 512 : Nat) : Int)
              1024 0 (variant_log_id t % 256) 0
              (512 + spec_start_blocks (header_buf env) n * 512)
              (decide (variant_rae t ≠ 0))).1),
            (get_telemetry_header env 0 (variant_log_id t % 256) TELEMETRY_HEADER_SIZE
                (variant_lsp t) (variant_rae t)).2
              ++ (extract_dump_get_log env
                  ("Telemetry_" ++ variant_featurename t ++ "_Area_" ++ toString n) filename sn
                  (((spec_end_blocks (header_buf env) n
                      - spec_start_blocks (header_buf env) n) * 512 : Nat) : Int)
                  1024 0 (variant_log_id t % 256) 0
                  (512 + spec_start_blocks (header_buf env) n * 512)
                  (decide (variant_rae t ≠ 0))).2) := by
      unfold get_telemetry_dump
      simp only [hhdr, hu, ne_eq, not_true_eq_false, if_false, h0, hds, hoff]
      rfl
    refine ⟨hdump, ?_, ?_⟩
    · rw [hdump]
      simp only [List.filter_append, hfilt, List.nil_append]
      exact extract_dump_first_read _ _ _ _ _ _ _ _ _ _ _ hT (by norm_num)
    · intro hr ho hw
      rw [hdump]
      simp only [writeCounts_append, hwc, List.nil_append]
      exact extract_dump_write_total _ _ _ _ _ _ _ _ _ _ _ hT (by norm_num) hr ho hw

set_option maxRecDepth 100000 in
/-- C2 witness: the header with DataArea1LastBlock = 2, DataArea2LastBlock = 5,
DataArea3LastBlock = 5, host sub-index 0: area 1 is read from offset 512 and
1024 bytes are written; area 2 is read from offset 1536 with byte size 1536;
area 3 has size 0 and the run is the header fetch alone, returning 0. -/
theorem telemetry_plan_arithmetic_witness :
    DataArea1LastBlock (header_buf (headerEnv header_2_5_5)) = 2 ∧
    DataArea2LastBlock (header_buf (headerEnv header_2_5_5)) = 5 ∧
    DataArea3LastBlock (header_buf (headerEnv header_2_5_5)) = 5 ∧
    (area_offset (header_buf (headerEnv header_2_5_5)) 1 = 512 ∧
      dump_size (header_buf (headerEnv header_2_5_5)) 1 = 1024) ∧
    (area_offset (header_buf (headerEnv header_2_5_5)) 2 = 1536 ∧
      dump_size (header_buf (headerEnv header_2_5_5)) 2 = 1536) ∧
    ((get_telemetry_dump (headerEnv header_2_5_5) "" "SN" TELEMETRY_TYPE_HOST_0 1 true).2.filter
        Event.isChunkRead).head?
      = some (Event.nvme_get_log14 0 7 0 512 false 1024 0) ∧
    (writeCounts
      (get_telemetry_dump (headerEnv header_2_5_5) "" "SN" TELEMETRY_TYPE_HOST_0 1 true).2).sum
      = 1024 ∧
    ((get_telemetry_dump (headerEnv header_2_5_5) "" "SN" TELEMETRY_TYPE_HOST_0 2 true).2.filter
        Event.isChunkRead).head?
      = some (Event.nvme_get_log14 0 7 0 1536 false 1024 0) ∧
    (writeCounts
      (get_telemetry_dump (headerEnv header_2_5_5) "" "SN" TELEMETRY_TYPE_HOST_0 2 true).2).sum
      = 1536 ∧
    (dump_size (header_buf (headerEnv header_2_5_5)) 3 = 0 ∧
      get_telemetry_dump (headerEnv header_2_5_5) "" "SN" TELEMETRY_TYPE_HOST_0 3 true
        = (0, [Event.admin_get_log 0 8323079 0 512 0])) :=
  ⟨by decide, by decide, by decide,
    ⟨(telemetry_plan_arithmetic (headerEnv header_2_5_5) "" "SN" TELEMETRY_TYPE_HOST_0 1 true
        rfl (by decide) (by decide) (Or.inl rfl)).1,
      (telemetry_plan_arithmetic (headerEnv header_2_5_5) "" "SN" TELEMETRY_TYPE_HOST_0 1 true
        rfl (by decide) (by decide) (Or.inl rfl)).2.1⟩,
    ⟨(telemetry_plan_arithmetic (headerEnv header_2_5_5) "" "SN" TELEMETRY_TYPE_HOST_0 2 true
        rfl (by decide) (by decide) (Or.inr (Or.inl rfl))).1,
      (telemetry_plan_arithmetic (headerEnv header_2_5_5) "" "SN" TELEMETRY_TYPE_HOST_0 2 true
        rfl (by decide) (by decide) (Or.inr (Or.inl rfl))).2.1⟩,
    ((telemetry_plan_arithmetic (headerEnv header_2_5_5) "" "SN" TELEMETRY_TYPE_HOST_0 1 true
        rfl (by decide) (by decide) (Or.inl rfl)).2.2.2 (by decide)).2.1,
    ((telemetry_plan_arithmetic (headerEnv header_2_5_5) "" "SN" TELEMETRY_TYPE_HOST_0 1 true
        rfl (by decide) (by decide) (Or.inl rfl)).2.2.2 (by decide)).2.2
      (fun _ => rfl) (by decide) (fun _ => by show (0 : Int) ≤ 1024; decide),
    ((telemetry_plan_arithmetic (headerEnv header_2_5_5) "" "SN" TELEMETRY_TYPE_HOST_0 2 true
        rfl (by decide) (by decide) (Or.inr (Or.inl rfl))).2.2.2 (by decide)).2.1,
    ((telemetry_plan_arithmetic (headerEnv header_2_5_5) "" "SN" TELEMETRY_TYPE_HOST_0 2 true
        rfl (by decide) (by decide) (Or.inr (Or.inl rfl))).2.2.2 (by decide)).2.2
      (fun _ => rfl) (by decide) (fun _ => by show (0 : Int) ≤ 1024; decide),
    ⟨(telemetry_plan_arithmetic (headerEnv header_2_5_5) "" "SN" TELEMETRY_TYPE_HOST_0 3 true
        rfl (by decide) (by decide) (Or.inr (Or.inr rfl))).2.1,
      (telemetry_plan_arithmetic (headerEnv header_2_5_5) "" "SN" TELEMETRY_TYPE_HOST_0 3 true
        rfl (by decide) (by decide) (Or.inr (Or.inr rfl))).2.2.1 (by decide)⟩⟩

/-- C5: when the header fetch returns the non-zero status `e`, or the header
fetch succeeds, the area has a positive byte size and the first chunk read
returns the non-zero status `e`, `get_telemetry_dump` returns `e`, no call in
its trace is an `open`, and the file at any path is left as it was. -/
theorem telemetry_dump_early_failure (env : Env) (filename sn : String) (tele_type : Nat)
    (data_area : Int) (header_print : Bool) (e : Int) (path : String)
    (prior : Option (List Nat)) (hne : e ≠ 0) (h1 : -2 ^ 31 ≤ e) (h2 : e < 2 ^ 31)
    (hcase : env.header.1 = e ∨
      (env.header.1 = 0 ∧ 0 < dump_size (header_buf env) data_area ∧ (env.getLog 0).1 = e)) :
    (get_telemetry_dump env filename sn tele_type data_area header_print).1 = e ∧
    (∀ ev ∈ (get_telemetry_dump env filename sn tele_type data_area header_print).2,
      ev.isOpen = false) ∧
    fileAfter path prior (get_telemetry_dump env filename sn tele_type data_area header_print).2
      = { content := prior, fd := none } := by
  have hu : to_u32 e ≠ 0 := to_u32_ne_zero e hne h1 h2
  have hi : to_int (to_u32 e) = e := to_int_to_u32 e h1 h2
  rcases hcase with hh | ⟨hh, hsz, hg⟩
  · simp [get_telemetry_dump, get_telemetry_header, hh, hu, hi, Event.isOpen, fileAfter,
      fileStep]
  · have hz : to_u32 0 = 0 := by decide
    have hsize : area_size (header_buf env) data_area ≠ 0 := by
      intro h0
      rw [dump_size, h0] at hsz
      exact absurd hsz (by decide)
    have hx := extract_dump_first_read_fails env
      ("Telemetry_" ++ variant_featurename tele_type ++ "_Area_" ++ toString data_area)
      filename sn (dump_size (header_buf env) data_area) TELEMETRY_TRANSFER_SIZE 0
      (variant_log_id tele_type % 256) 0 (area_offset (header_buf env) data_area)
      (decide (variant_rae tele_type ≠ 0)) e hsz (by decide) hg hne
    simp only [get_telemetry_dump, get_telemetry_header, hh, hz, ne_eq, not_true_eq_false,
      if_false, hsize, hx, hi]
    simp [Event.isOpen, fileAfter, fileStep]

set_option maxRecDepth 20000 in
/-- C5 witness: a failing header fetch (status 2), and a successful header
fetch of a 1024-byte area whose first chunk read fails (status 4). -/
theorem telemetry_dump_early_failure_witness :
    (2 : Int) ≠ 0 ∧ (0 : Int) < dump_size (header_buf (firstChunkFailEnv 4)) 1 ∧
    ((get_telemetry_dump (headerFailEnv 2) "" "SN" TELEMETRY_TYPE_HOST_0 1 true).1 = 2 ∧
      (∀ ev ∈ (get_telemetry_dump (headerFailEnv 2) "" "SN" TELEMETRY_TYPE_HOST_0 1 true).2,
        ev.isOpen = false) ∧
      fileAfter "/Telemetry_Host(0)_Area_1_SN.bin" (some [7])
        (get_telemetry_dump (headerFailEnv 2) "" "SN" TELEMETRY_TYPE_HOST_0 1 true).2
        = { content := some [7], fd := none }) ∧
    ((get_telemetry_dump (firstChunkFailEnv 4) "" "SN" TELEMETRY_TYPE_HOST_0 1 true).1 = 4 ∧
      (∀ ev ∈ (get_telemetry_dump (firstChunkFailEnv 4) "" "SN" TELEMETRY_TYPE_HOST_0 1 true).2,
        ev.isOpen = false) ∧
      fileAfter "/Telemetry_Host(0)_Area_1_SN.bin" none
        (get_telemetry_dump (firstChunkFailEnv 4) "" "SN" TELEMETRY_TYPE_HOST_0 1 true).2
        = { content := none, fd := none }) :=
  ⟨by decide, by decide,
    telemetry_dump_early_failure (headerFailEnv 2) "" "SN" TELEMETRY_TYPE_HOST_0 1 true 2
      "/Telemetry_Host(0)_Area_1_SN.bin" (some [7]) (by decide) (by decide) (by decide)
      (Or.inl rfl),
    telemetry_dump_early_failure (firstChunkFailEnv 4) "" "SN" TELEMETRY_TYPE_HOST_0 1 true 4
      "/Telemetry_Host(0)_Area_1_SN.bin" none (by decide) (by decide) (by decide)
      (Or.inr ⟨rfl, by decide, rfl⟩)⟩

/-- C6: when the header fetch succeeds and the requested area ends at the block
where it starts, `get_telemetry_dump` returns 0, issues no chunk read, calls no
`open`, and leaves the file at any path as it was. -/
theorem telemetry_dump_empty_area (env : Env) (filename sn : String) (tele_type : Nat)
    (data_area : Int) (header_print : Bool) (path : String) (prior : Option (List Nat))
    (h0 : env.header.1 = 0)
    (hempty : (data_area = 1 ∧ DataArea1LastBlock (header_buf env) = 0) ∨
      (data_area = 2 ∧
        DataArea2LastBlock (header_buf env) = DataArea1LastBlock (header_buf env)) ∨
      (data_area = 3 ∧
        DataArea3LastBlock (header_buf env) = DataArea2LastBlock (header_buf env))) :
    (get_telemetry_dump env filename sn tele_type data_area header_print).1 = 0 ∧
    (get_telemetry_dump env filename sn tele_type data_area header_print).2.countP
      Event.isChunkRead = 0 ∧
    (∀ ev ∈ (get_telemetry_dump env filename sn tele_type data_area header_print).2,
      ev.isOpen = false) ∧
    fileAfter path prior (get_telemetry_dump env filename sn tele_type data_area header_print).2
      = { content := prior, fd := none } := by
  have hz : to_u32 0 = 0 := by decide
  have hi : to_int 0 = 0 := by decide
  have hsize : area_size (header_buf env) data_area = 0 := by
    rcases hempty with ⟨ha, hb⟩ | ⟨ha, hb⟩ | ⟨ha, hb⟩
    · subst ha; simp [area_size, hb]
    · subst ha; simp [area_size, hb, to_u64]
    · subst ha; simp [area_size, hb, to_u64]
  simp [get_telemetry_dump, get_telemetry_header, h0, hz, hi, hsize, Event.isOpen,
    Event.isChunkRead, fileAfter, fileStep]

/-- C6 witness: area 3 of the header with DataArea2LastBlock = DataArea3LastBlock = 5. -/
theorem telemetry_dump_empty_area_witness :
    DataArea3LastBlock (header_buf (headerEnv header_2_5_5))
      = DataArea2LastBlock (header_buf (headerEnv header_2_5_5)) ∧
    (get_telemetry_dump (headerEnv header_2_5_5) "" "SN" TELEMETRY_TYPE_CONTROLLER 3 true).1 = 0 ∧
    (get_telemetry_dump (headerEnv header_2_5_5) "" "SN" TELEMETRY_TYPE_CONTROLLER 3 true).2.countP
      Event.isChunkRead = 0 ∧
    (∀ ev ∈ (get_telemetry_dump (headerEnv header_2_5_5) "" "SN" TELEMETRY_TYPE_CONTROLLER 3
      true).2, ev.isOpen = false) ∧
    fileAfter "/Telemetry_Controller_Area_3_SN.bin" none
      (get_telemetry_dump (headerEnv header_2_5_5) "" "SN" TELEMETRY_TYPE_CONTROLLER 3 true).2
      = { content := none, fd := none } :=
  ⟨by decide,
    telemetry_dump_empty_area (headerEnv header_2_5_5) "" "SN" TELEMETRY_TYPE_CONTROLLER 3 true
      "/Telemetry_Controller_Area_3_SN.bin" none rfl (Or.inr (Or.inr ⟨rfl, by decide⟩))⟩

/-- C7: after a successful fetch, with the format normal or json,
`get_c0_log_page` returns 0 and calls the printer exactly when bytes 496..511
of the page equal `scao_guid`; otherwise it returns -1 and prints nothing.  No
other byte is consulted, and replacing any one tag byte of an accepted page by
a different byte gives -1 with no print call. -/
theorem c0_identity_gate (NORMAL JSON fmt : Int) (page : List Nat) (hpos : 0 ≤ fmt)
    (hfmt : fmt = NORMAL ∨ fmt = JSON) :
    (((get_c0_log_page NORMAL JSON fmt true (0, page)).1 = 0 ∧
        (get_c0_log_page NORMAL JSON fmt true (0, page)).2
          = [if fmt = NORMAL then PrintCall.C0_log_normal (fillBuf 512 page)
             else PrintCall.C0_log_json (fillBuf 512 page)])
      ↔ ∀ i, i < 16 → u8 (fillBuf 512 page) (496 + i) = scao_guid.getD i 0) ∧
    ((¬ ∀ i, i < 16 → u8 (fillBuf 512 page) (496 + i) = scao_guid.getD i 0) →
      get_c0_log_page NORMAL JSON fmt true (0, page) = (-1, [])) ∧
    ((∀ i, i < 16 → u8 (fillBuf 512 page) (496 + i) = scao_guid.getD i 0) →
      ∀ k b, k < 16 → b % 256 ≠ scao_guid.getD k 0 →
        get_c0_log_page NORMAL JSON fmt true (0, (fillBuf 512 page).set (496 + k) b)
          = (-1, [])) := by
  have hlt : ¬ fmt < 0 := not_lt.mpr hpos
  have hrej : ∀ pg : List Nat,
      (¬ ∀ i, i < 16 → u8 (fillBuf 512 pg) (496 + i) = scao_guid.getD i 0) →
      get_c0_log_page NORMAL JSON fmt true (0, pg) = (-1, []) := by
    intro pg hno
    have hd : guid_differs scao_guid (fillBuf 512 pg) 496 = true := by
      rw [← Bool.not_eq_false, guid_differs_eq_false]
      exact hno
    simp [get_c0_log_page, hlt, C0_SMART_CLOUD_ATTR_LEN, SCAO_LPG, hd]
  refine ⟨⟨?_, ?_⟩, hrej page, ?_⟩
  · rintro ⟨h0, _⟩
    by_contra hno
    rw [hrej page hno] at h0
    exact absurd h0 (by decide)
  · intro htag
    have hd : guid_differs scao_guid (fillBuf 512 page) 496 = false :=
      (guid_differs_eq_false _ _ _).mpr htag
    by_cases hN : fmt = NORMAL
    · subst hN
      simp [get_c0_log_page, hlt, C0_SMART_CLOUD_ATTR_LEN, SCAO_LPG, hd]
    · have hJ : fmt = JSON := hfmt.resolve_left hN
      subst hJ
      simp [get_c0_log_page, hlt, C0_SMART_CLOUD_ATTR_LEN, SCAO_LPG, hd, hN]
  · intro _ k b hk hb
    apply hrej
    intro hall
    have hlen : ((fillBuf 512 page).set (496 + k) b).length = 512 := by
      simp [fillBuf_length]
    have hk' : 496 + k < (fillBuf 512 page).length := by rw [fillBuf_length]; omega
    have := hall k hk
    rw [fillBuf_of_length 512 _ hlen, u8_set_same _ _ _ hk'] at this
    exact hb this

set_option maxRecDepth 20000 in
/-- C7 witness: a page carrying the GUID is accepted in normal format, and the
same page with tag byte 3 replaced by 0 is rejected. -/
theorem c0_identity_gate_witness :
    ((0 : Int) = 0 ∨ (0 : Int) = 2) ∧
    (get_c0_log_page 0 2 0 true (0, c0_page_v3)).1 = 0 ∧
    (get_c0_log_page 0 2 0 true (0, c0_page_v3)).2
      = [if (0 : Int) = 0 then PrintCall.C0_log_normal (fillBuf 512 c0_page_v3)
         else PrintCall.C0_log_json (fillBuf 512 c0_page_v3)] ∧
    get_c0_log_page 0 2 0 true (0, (fillBuf 512 c0_page_v3).set (496 + 3) 0) = (-1, []) :=
  have htag : ∀ i, i < 16 → u8 (fillBuf 512 c0_page_v3) (496 + i) = scao_guid.getD i 0 := by
    intro i hi
    interval_cases i <;> rfl
  ⟨Or.inl rfl,
    ((c0_identity_gate 0 2 0 c0_page_v3 (le_refl 0) (Or.inl rfl)).1.mpr htag).1,
    ((c0_identity_gate 0 2 0 c0_page_v3 (le_refl 0) (Or.inl rfl)).1.mpr htag).2,
    (c0_identity_gate 0 2 0 c0_page_v3 (le_refl 0) (Or.inl rfl)).2.2 htag 3 0 (by decide)
      (by decide)⟩

/-- C8: after a successful fetch, with the format normal or json,
`get_c3_log_page` returns 0 and calls the printer exactly when the 16-bit
version at offset 0x1EE equals 1 and bytes 0x1F0..0x1FF equal `lat_mon_guid`;
for every other version, for any format, it returns -1 and prints nothing. -/
theorem c3_version_and_identity_gate (NORMAL JSON fmt : Int) (page : List Nat) (hpos : 0 ≤ fmt)
    (hfmt : fmt = NORMAL ∨ fmt = JSON) :
    (((get_c3_log_page NORMAL JSON fmt true (0, page)).1 = 0 ∧
        (get_c3_log_page NORMAL JSON fmt true (0, page)).2
          = [if fmt = NORMAL then PrintCall.C3_log_normal (fillBuf 512 page)
             else PrintCall.C3_log_json (fillBuf 512 page)])
      ↔ (le16_to_cpu (fillBuf 512 page) 0x1EE = 1 ∧
          ∀ i, i < 16 → u8 (fillBuf 512 page) (0x1F0 + i) = lat_mon_guid.getD i 0)) ∧
    (le16_to_cpu (fillBuf 512 page) 0x1EE ≠ 1 →
      get_c3_log_page NORMAL JSON fmt true (0, page) = (-1, [])) ∧
    ((¬ ∀ i, i < 16 → u8 (fillBuf 512 page) (0x1F0 + i) = lat_mon_guid.getD i 0) →
      get_c3_log_page NORMAL JSON fmt true (0, page) = (-1, [])) := by
  have hlt : ¬ fmt < 0 := not_lt.mpr hpos
  have hver : le16_to_cpu (fillBuf 512 page) 0x1EE ≠ 1 →
      get_c3_log_page NORMAL JSON fmt true (0, page) = (-1, []) := by
    intro hv
    simp [get_c3_log_page, hlt, C3_LATENCY_MON_LOG_BUF_LEN, C3_log_page_version_offset,
      C3_LATENCY_MON_VERSION, hv]
  have hguid : (¬ ∀ i, i < 16 → u8 (fillBuf 512 page) (0x1F0 + i) = lat_mon_guid.getD i 0) →
      get_c3_log_page NORMAL JSON fmt true (0, page) = (-1, []) := by
    intro hno
    have hd : guid_differs lat_mon_guid (fillBuf 512 page) 0x1F0 = true := by
      rw [← Bool.not_eq_false, guid_differs_eq_false]
      exact hno
    by_cases hv : le16_to_cpu (fillBuf 512 page) 0x1EE = 1
    · simp [get_c3_log_page, hlt, C3_LATENCY_MON_LOG_BUF_LEN, C3_log_page_version_offset,
        C3_LATENCY_MON_VERSION, C3_log_page_guid_offset, hv, hd]
    · exact hver hv
  refine ⟨⟨?_, ?_⟩, hver, hguid⟩
  · rintro ⟨h0, _⟩
    constructor
    · by_contra hv
      rw [hver hv] at h0
      exact absurd h0 (by decide)
    · by_contra hno
      rw [hguid hno] at h0
      exact absurd h0 (by decide)
  · rintro ⟨hv, htag⟩
    have hd : guid_differs lat_mon_guid (fillBuf 512 page) 0x1F0 = false :=
      (guid_differs_eq_false _ _ _).mpr htag
    by_cases hN : fmt = NORMAL
    · subst hN
      simp [get_c3_log_page, hlt, C3_LATENCY_MON_LOG_BUF_LEN, C3_log_page_version_offset,
        C3_LATENCY_MON_VERSION, C3_log_page_guid_offset, hv, hd]
    · have hJ : fmt = JSON := hfmt.resolve_left hN
      subst hJ
      simp [get_c3_log_page, hlt, C3_LATENCY_MON_LOG_BUF_LEN, C3_log_page_version_offset,
        C3_LATENCY_MON_VERSION, C3_log_page_guid_offset, hv, hd, hN]

set_option maxRecDepth 20000 in
/-- C8 witness: the page with version 1 is accepted in json format; the pages
with version 0 and version 2 are rejected. -/
theorem c3_version_and_identity_gate_witness :
    ((2 : Int) = 0 ∨ (2 : Int) = 2) ∧
    (get_c3_log_page 0 2 2 true (0, c3_page 1 0)).1 = 0 ∧
    (get_c3_log_page 0 2 2 true (0, c3_page 1 0)).2
      = [if (2 : Int) = 0 then PrintCall.C3_log_normal (fillBuf 512 (c3_page 1 0))
         else PrintCall.C3_log_json (fillBuf 512 (c3_page 1 0))] ∧
    get_c3_log_page 0 2 2 true (0, c3_page 0 0) = (-1, []) ∧
    get_c3_log_page 0 2 2 true (0, c3_page 2 0) = (-1, []) :=
  have htag : ∀ i, i < 16 →
      u8 (fillBuf 512 (c3_page 1 0)) (0x1F0 + i) = lat_mon_guid.getD i 0 := by
    intro i hi
    interval_cases i <;> rfl
  have hv : le16_to_cpu (fillBuf 512 (c3_page 1 0)) 0x1EE = 1 := by rfl
  ⟨Or.inr rfl,
    ((c3_version_and_identity_gate 0 2 2 (c3_page 1 0) (by decide) (Or.inr rfl)).1.mpr
      ⟨hv, htag⟩).1,
    ((c3_version_and_identity_gate 0 2 2 (c3_page 1 0) (by decide) (Or.inr rfl)).1.mpr
      ⟨hv, htag⟩).2,
    (c3_version_and_identity_gate 0 2 2 (c3_page 0 0) (by decide) (Or.inr rfl)).2.1 (by decide),
    (c3_version_and_identity_gate 0 2 2 (c3_page 2 0) (by decide) (Or.inr rfl)).2.1 (by decide)⟩

/-- C9: in both renderings each of the six extended fields is an entry of the
capacity report exactly when the 16-bit little-endian version at offset 494 is
greater than 2 (for a version ≤ 2 there is no such entry at all), and two
pages that differ only in the version bytes 494 and 495 give the same base
fields; the report has 28 entries, or 34 with the extended fields. -/
theorem c0_extended_fields_version_gated (data : List Nat) :
    (∀ l, l ∈ c0_extended_labels →
      ((l ∈ (ocp_print_C0_log_normal data).map Prod.fst ↔ 2 < le16_to_cpu data 494) ∧
       (l ∈ (ocp_print_C0_log_json data).map Prod.fst ↔ 2 < le16_to_cpu data 494))) ∧
    (∀ data' : List Nat, (∀ i, i ≠ 494 → i ≠ 495 → u8 data i = u8 data' i) →
      ((ocp_print_C0_log_normal data).filter (fun e => is_base_entry e.1)
        = (ocp_print_C0_log_normal data').filter (fun e => is_base_entry e.1) ∧
       (ocp_print_C0_log_json data).filter (fun e => is_base_entry e.1)
        = (ocp_print_C0_log_json data').filter (fun e => is_base_entry e.1))) ∧
    ((ocp_print_C0_log_normal data).length = (if 2 < le16_to_cpu data 494 then 34 else 28) ∧
      (ocp_print_C0_log_json data).length = (if 2 < le16_to_cpu data 494 then 34 else 28) ∧
      ((ocp_print_C0_log_normal data).filter (fun e => is_base_entry e.1)).length = 27 ∧
      ((ocp_print_C0_log_json data).filter (fun e => is_base_entry e.1)).length = 27) := by
  refine ⟨?_, ?_, ?_⟩
  rotate_right
  · by_cases hv : 2 < le16_to_cpu data 494 <;>
      simp [ocp_print_C0_log_normal, ocp_print_C0_log_json, is_base_entry, c0_extended_labels,
        SCAO_LPV, hv, List.filter_cons]
  · intro l hl
    simp only [c0_extended_labels, List.mem_cons, List.mem_singleton, List.not_mem_nil,
      or_false] at hl
    by_cases hv : 2 < le16_to_cpu data 494
    · rcases hl with h | h | h | h | h | h <;> subst h <;>
        simp [ocp_print_C0_log_normal, ocp_print_C0_log_json, SCAO_LPV, hv]
    · rcases hl with h | h | h | h | h | h <;> subst h <;>
        simp [ocp_print_C0_log_normal, ocp_print_C0_log_json, SCAO_LPV, hv]
  · intro data' hag
    have h16 : ∀ off, (off + 2 ≤ 494 ∨ 496 ≤ off) →
        le16_to_cpu data off = le16_to_cpu data' off := fun off ho =>
      le_bytes_agree data data' 2 off (fun j hj => hag _ (by omega) (by omega))
    have h32 : ∀ off, (off + 4 ≤ 494 ∨ 496 ≤ off) →
        le32_to_cpu data off = le32_to_cpu data' off := fun off ho =>
      le_bytes_agree data data' 4 off (fun j hj => hag _ (by omega) (by omega))
    have h64 : ∀ off, (off + 8 ≤ 494 ∨ 496 ≤ off) →
        le64_to_cpu data off = le64_to_cpu data' off := fun off ho =>
      le_bytes_agree data data' 8 off (fun j hj => hag _ (by omega) (by omega))
    have h128 : ∀ off, (off + 16 ≤ 494 ∨ 496 ≤ off) →
        int128_to_double (data.drop off) = int128_to_double (data'.drop off) := fun off ho =>
      int128_to_double_agree data data' off (fun j hj => hag _ (by omega) (by omega))
    have h8 : ∀ off, (off + 1 ≤ 494 ∨ 496 ≤ off) → u8 data off = u8 data' off :=
      fun off ho => hag _ (by omega) (by omega)
    constructor
    · by_cases hv : 2 < le16_to_cpu data 494 <;> by_cases hv' : 2 < le16_to_cpu data' 494 <;>
        simp [ocp_print_C0_log_normal, is_base_entry, c0_extended_labels, hv, hv', h8, h16,
          h32, h64, h128, SCAO_PMUW, SCAO_PMUR, SCAO_BUNBR, SCAO_BUNBN, SCAO_BSNBR, SCAO_BSNBN,
          SCAO_XRC, SCAO_UREC, SCAO_SEEC, SCAO_EECE, SCAO_EEDC, SCAO_SDPU, SCAO_RFSC,
          SCAO_MXUDEC, SCAO_MNUDEC, SCAO_NTTE, SCAO_CTS, SCAO_EVF, SCAO_PVF, SCAO_MIVF,
          SCAO_MAVF, SCAO_PCEC, SCAO_ICS, SCAO_PFB, SCAO_CPH, SCAO_NEV, SCAO_UIO, SCAO_SVN,
          SCAO_NUSE, SCAO_PSC, SCAO_EEST, SCAO_PLRC, SCAO_LPV, SCAO_LPG, List.filter_cons]
    · by_cases hv : 2 < le16_to_cpu data 494 <;> by_cases hv' : 2 < le16_to_cpu data' 494 <;>
        simp [ocp_print_C0_log_json, is_base_entry, c0_extended_labels, hv, hv', h8, h16,
          h32, h64, h128, SCAO_PMUW, SCAO_PMUR, SCAO_BUNBR, SCAO_BUNBN, SCAO_BSNBR, SCAO_BSNBN,
          SCAO_XRC, SCAO_UREC, SCAO_SEEC, SCAO_EECE, SCAO_EEDC, SCAO_SDPU, SCAO_RFSC,
          SCAO_MXUDEC, SCAO_MNUDEC, SCAO_NTTE, SCAO_CTS, SCAO_EVF, SCAO_PVF, SCAO_MIVF,
          SCAO_MAVF, SCAO_PCEC, SCAO_ICS, SCAO_PFB, SCAO_CPH, SCAO_NEV, SCAO_UIO, SCAO_SVN,
          SCAO_NUSE, SCAO_PSC, SCAO_EEST, SCAO_PLRC, SCAO_LPV, SCAO_LPG, List.filter_cons]




/-! ## Latency report, telemetry options, firmware activation history -/

theorem j_loop_from_two (fuel : Nat) : j_loop fuel 2 = [] := by
  cases fuel <;> simp [j_loop]

theorem range_four : List.range 4 = [0, 1, 2, 3] := by decide

theorem to_u64_neg_one : to_u64 (-1) = 2 ^ 64 - 1 := by decide

theorem toString_zero : toString (0 : Nat) = "0" := by decide

theorem toString_one : toString (1 : Nat) = "1" := by decide

theorem toString_two : toString (2 : Nat) = "2" := by decide

theorem toString_three : toString (3 : Nat) = "3" := by decide

set_option maxRecDepth 20000 in
set_option maxHeartbeats 2000000 in
/-- C11 (evaluated): in the normal report every one of the four
"Active Latency Mode" lines shows `active_latency_config & 1` in its three
columns, whatever the bucket, because `pos` stays 0; in the JSON report the four
objects have no member.  So a page whose config is 2 (bit 1 only) shows 0 for
bucket 1, and a page whose config is 1 shows 1 for all four buckets. -/
theorem c3_active_latency_mode_uses_bit_zero (f : Int → String) (data : List Nat) :
    (List.range 4).map (fun i =>
        (ocp_print_C3_log_normal f data).lookup ("Active Latency Mode: Bucket " ++ toString i))
      = List.replicate 4 (some
          [Cell.num (Int.ofNat (ssd_latency_monitor_log.active_latency_config data &&& 1)),
           Cell.num (Int.ofNat (ssd_latency_monitor_log.active_latency_config data &&& 1)),
           Cell.num (Int.ofNat (ssd_latency_monitor_log.active_latency_config data &&& 1))]) ∧
    (List.range 4).map (fun i =>
        (ocp_print_C3_log_json f data).lookup ("Active Latency Mode: Bucket " ++ toString i))
      = List.replicate 4 (some (JsonNode.object [])) ∧
    ssd_latency_monitor_log.active_latency_config (c3_page_config 2) = 2 ∧
    (ocp_print_C3_log_normal f (c3_page_config 2)).lookup "Active Latency Mode: Bucket 1"
      = some [Cell.num 0, Cell.num 0, Cell.num 0] ∧
    ssd_latency_monitor_log.active_latency_config (c3_page_config 1) = 1 ∧
    (List.range 4).map (fun i =>
        (ocp_print_C3_log_normal f (c3_page_config 1)).lookup
          ("Active Latency Mode: Bucket " ++ toString i))
      = List.replicate 4 (some [Cell.num 1, Cell.num 1, Cell.num 1]) := by
  have h2 : ssd_latency_monitor_log.active_latency_config (c3_page_config 2) = 2 := by decide
  have h1 : ssd_latency_monitor_log.active_latency_config (c3_page_config 1) = 1 := by decide
  refine ⟨?_, ?_, h2, ?_, h1, ?_⟩
  · by_cases hs : ssd_latency_monitor_log.debug_log_latency_stamp data = to_u64 (-1)
    · simp only [if_pos hs, ocp_print_C3_log_normal, range_four, List.map, List.cons_append,
      List.nil_append, List.append_assoc, toString_zero, toString_one, toString_two,
      toString_three, String.reduceAppend, List.lookup_cons, String.reduceBEq,
      List.replicate, Nat.shiftLeft_zero, j_loop_from_two]
    · simp only [if_neg hs, ocp_print_C3_log_normal, range_four, List.map, List.cons_append,
      List.nil_append, List.append_assoc, toString_zero, toString_one, toString_two,
      toString_three, String.reduceAppend, List.lookup_cons, String.reduceBEq,
      List.replicate, Nat.shiftLeft_zero, j_loop_from_two]
  · simp only [ocp_print_C3_log_json, range_four, List.map, List.cons_append,
      List.nil_append, List.append_assoc, toString_zero, toString_one, toString_two,
      toString_three, String.reduceAppend, List.lookup_cons, String.reduceBEq,
      List.replicate, Nat.shiftLeft_zero, j_loop_from_two]
  · have hs : ¬ ssd_latency_monitor_log.debug_log_latency_stamp (c3_page_config 2)
        = to_u64 (-1) := by decide
    simp only [if_neg hs, h2, ocp_print_C3_log_normal, range_four, List.map, List.cons_append,
      List.nil_append, List.append_assoc, toString_zero, toString_one, toString_two,
      toString_three, String.reduceAppend, List.lookup_cons, String.reduceBEq,
      List.replicate, Nat.shiftLeft_zero, j_loop_from_two]
    rfl
  · have hs : ¬ ssd_latency_monitor_log.debug_log_latency_stamp (c3_page_config 1)
        = to_u64 (-1) := by decide
    simp only [if_neg hs, h1, ocp_print_C3_log_normal, range_four, List.map, List.cons_append,
      List.nil_append, List.append_assoc, toString_zero, toString_one, toString_two,
      toString_three, String.reduceAppend, List.lookup_cons, String.reduceBEq,
      List.replicate, Nat.shiftLeft_zero, j_loop_from_two]
    rfl

set_option maxHeartbeats 2000000 in
/-- C12 (evaluated): the inner loops `for (j = 2; j <= 0; j--)` never run, so in
the normal report the eight "Latency Time Stamp" lines have no column, and in
the JSON report every one of the 28 `bucket` objects is empty (no counter,
timestamp or measured latency is reported there). -/
theorem c3_bucket_loops_never_run (f : Int → String) (data : List Nat) :
    (List.range 4).map (fun i =>
        (ocp_print_C3_log_normal f data).lookup
          ("Active Latency Time Stamp: Bucket " ++ toString i))
      = List.replicate 4 (some []) ∧
    (List.range 4).map (fun i =>
        (ocp_print_C3_log_normal f data).lookup
          ("Static Latency Time Stamp: Bucket " ++ toString i))
      = List.replicate 4 (some []) ∧
    ((ocp_print_C3_log_json f data).filter (fun e => e.2.is_object)).length = 28 ∧
    ((ocp_print_C3_log_json f data).filter (fun e => e.2.is_object)).all
      (fun e => e.2.is_empty_object) = true ∧
    (ocp_print_C3_log_json f data).lookup "Active Bucket Counter: Bucket 0"
      = some (JsonNode.object []) := by
  by_cases hs : ssd_latency_monitor_log.debug_log_latency_stamp data = to_u64 (-1)
  · refine ⟨?_, ?_, ?_, ?_, ?_⟩
    · simp only [if_pos hs, ocp_print_C3_log_normal, range_four, List.map, List.cons_append,
      List.nil_append, List.append_assoc, toString_zero, toString_one, toString_two,
      toString_three, String.reduceAppend, List.lookup_cons, String.reduceBEq,
      List.replicate, Nat.shiftLeft_zero, j_loop_from_two]
    · simp only [if_pos hs, ocp_print_C3_log_normal, range_four, List.map, List.cons_append,
      List.nil_append, List.append_assoc, toString_zero, toString_one, toString_two,
      toString_three, String.reduceAppend, List.lookup_cons, String.reduceBEq,
      List.replicate, Nat.shiftLeft_zero, j_loop_from_two]
    · simp only [if_pos hs, ocp_print_C3_log_json, range_four, List.map, List.cons_append,
      List.nil_append, List.append_assoc, toString_zero, toString_one, toString_two,
      toString_three, String.reduceAppend, List.lookup_cons, String.reduceBEq,
      List.replicate, Nat.shiftLeft_zero, j_loop_from_two]
      simp only [List.filter, JsonNode.is_object, List.length]
    · simp only [if_pos hs, ocp_print_C3_log_json, range_four, List.map, List.cons_append,
      List.nil_append, List.append_assoc, toString_zero, toString_one, toString_two,
      toString_three, String.reduceAppend, List.lookup_cons, String.reduceBEq,
      List.replicate, Nat.shiftLeft_zero, j_loop_from_two]
      simp only [List.filter, JsonNode.is_object, List.all, JsonNode.is_empty_object,
        List.isEmpty, Bool.and_self]
    · simp only [ocp_print_C3_log_json, range_four, List.map, List.cons_append,
      List.nil_append, List.append_assoc, toString_zero, toString_one, toString_two,
      toString_three, String.reduceAppend, List.lookup_cons, String.reduceBEq,
      List.replicate, Nat.shiftLeft_zero, j_loop_from_two]
  · refine ⟨?_, ?_, ?_, ?_, ?_⟩
    · simp only [if_neg hs, ocp_print_C3_log_normal, range_four, List.map, List.cons_append,
      List.nil_append, List.append_assoc, toString_zero, toString_one, toString_two,
      toString_three, String.reduceAppend, List.lookup_cons, String.reduceBEq,
      List.replicate, Nat.shiftLeft_zero, j_loop_from_two]
    · simp only [if_neg hs, ocp_print_C3_log_normal, range_four, List.map, List.cons_append,
      List.nil_append, List.append_assoc, toString_zero, toString_one, toString_two,
      toString_three, String.reduceAppend, List.lookup_cons, String.reduceBEq,
      List.replicate, Nat.shiftLeft_zero, j_loop_from_two]
    · simp only [if_neg hs, ocp_print_C3_log_json, range_four, List.map, List.cons_append,
      List.nil_append, List.append_assoc, toString_zero, toString_one, toString_two,
      toString_three, String.reduceAppend, List.lookup_cons, String.reduceBEq,
      List.replicate, Nat.shiftLeft_zero, j_loop_from_two]
      simp only [List.filter, JsonNode.is_object, List.length]
    · simp only [if_neg hs, ocp_print_C3_log_json, range_four, List.map, List.cons_append,
      List.nil_append, List.append_assoc, toString_zero, toString_one, toString_two,
      toString_three, String.reduceAppend, List.lookup_cons, String.reduceBEq,
      List.replicate, Nat.shiftLeft_zero, j_loop_from_two]
      simp only [List.filter, JsonNode.is_object, List.all, JsonNode.is_empty_object,
        List.isEmpty, Bool.and_self]
    · simp only [ocp_print_C3_log_json, range_four, List.map, List.cons_append,
      List.nil_append, List.append_assoc, toString_zero, toString_one, toString_two,
      toString_three, String.reduceAppend, List.lookup_cons, String.reduceBEq,
      List.replicate, Nat.shiftLeft_zero, j_loop_from_two]

set_option maxHeartbeats 2000000 in
theorem c3_normal_debug_stamp_line (f : Int → String) (data : List Nat) :
    (ocp_print_C3_log_normal f data).lookup "Debug Log Latency Time Stamp"
      = some [if ssd_latency_monitor_log.debug_log_latency_stamp data = 2 ^ 64 - 1
          then Cell.text "N/A"
          else Cell.ts_buf (convert_ts f
            (to_time_t (ssd_latency_monitor_log.debug_log_latency_stamp data)))] := by
  rw [← to_u64_neg_one]
  by_cases hs : ssd_latency_monitor_log.debug_log_latency_stamp data = to_u64 (-1)
  · simp only [if_pos hs, ocp_print_C3_log_normal, range_four, List.map, List.cons_append,
      List.nil_append, List.append_assoc, toString_zero, toString_one, toString_two,
      toString_three, String.reduceAppend, List.lookup_cons, String.reduceBEq,
      List.replicate, Nat.shiftLeft_zero, j_loop_from_two]
  · simp only [if_neg hs, ocp_print_C3_log_normal, range_four, List.map, List.cons_append,
      List.nil_append, List.append_assoc, toString_zero, toString_one, toString_two,
      toString_three, String.reduceAppend, List.lookup_cons, String.reduceBEq,
      List.replicate, Nat.shiftLeft_zero, j_loop_from_two]

set_option maxHeartbeats 2000000 in
theorem c3_json_debug_stamp_entry (f : Int → String) (data : List Nat) :
    (ocp_print_C3_log_json f data).lookup "Debug Log Latency Time Stamp"
      = some (JsonNode.value
          (if ssd_latency_monitor_log.debug_log_latency_stamp data = 2 ^ 64 - 1
            then JsonScalar.str "NA"
            else JsonScalar.ts_buf (convert_ts f
              (to_time_t (ssd_latency_monitor_log.debug_log_latency_stamp data))))) := by
  rw [← to_u64_neg_one]
  by_cases hs : ssd_latency_monitor_log.debug_log_latency_stamp data = to_u64 (-1)
  · simp only [if_pos hs, ocp_print_C3_log_json, range_four, List.map, List.cons_append,
      List.nil_append, List.append_assoc, toString_zero, toString_one, toString_two,
      toString_three, String.reduceAppend, List.lookup_cons, String.reduceBEq,
      List.replicate, Nat.shiftLeft_zero, j_loop_from_two]
  · simp only [if_neg hs, ocp_print_C3_log_json, range_four, List.map, List.cons_append,
      List.nil_append, List.append_assoc, toString_zero, toString_one, toString_two,
      toString_three, String.reduceAppend, List.lookup_cons, String.reduceBEq,
      List.replicate, Nat.shiftLeft_zero, j_loop_from_two]

set_option maxHeartbeats 2000000 in
theorem c3_normal_ts_buf_use (f : Int → String) (data : List Nat) :
    (ocp_print_C3_log_normal f data).any (fun l => l.2.any Cell.is_ts_buf)
      = decide (ssd_latency_monitor_log.debug_log_latency_stamp data ≠ 2 ^ 64 - 1) := by
  rw [← to_u64_neg_one]
  by_cases hs : ssd_latency_monitor_log.debug_log_latency_stamp data = to_u64 (-1)
  · simp only [if_pos hs, ocp_print_C3_log_normal, range_four, List.map, List.cons_append,
      List.nil_append, List.append_assoc, toString_zero, toString_one, toString_two,
      toString_three, String.reduceAppend, List.lookup_cons, String.reduceBEq,
      List.replicate, Nat.shiftLeft_zero, j_loop_from_two]
    simp [List.any, Cell.is_ts_buf, hs]
  · simp only [if_neg hs, ocp_print_C3_log_normal, range_four, List.map, List.cons_append,
      List.nil_append, List.append_assoc, toString_zero, toString_one, toString_two,
      toString_three, String.reduceAppend, List.lookup_cons, String.reduceBEq,
      List.replicate, Nat.shiftLeft_zero, j_loop_from_two]
    simp [List.any, Cell.is_ts_buf, hs]

set_option maxHeartbeats 2000000 in
theorem c3_json_ts_buf_use (f : Int → String) (data : List Nat) :
    (ocp_print_C3_log_json f data).any (fun e => e.2.has_ts_buf)
      = decide (ssd_latency_monitor_log.debug_log_latency_stamp data ≠ 2 ^ 64 - 1) := by
  rw [← to_u64_neg_one]
  by_cases hs : ssd_latency_monitor_log.debug_log_latency_stamp data = to_u64 (-1)
  · simp only [if_pos hs, ocp_print_C3_log_json, range_four, List.map, List.cons_append,
      List.nil_append, List.append_assoc, toString_zero, toString_one, toString_two,
      toString_three, String.reduceAppend, List.lookup_cons, String.reduceBEq,
      List.replicate, Nat.shiftLeft_zero, j_loop_from_two]
    simp [List.any, JsonNode.has_ts_buf, hs]
  · simp only [if_neg hs, ocp_print_C3_log_json, range_four, List.map, List.cons_append,
      List.nil_append, List.append_assoc, toString_zero, toString_one, toString_two,
      toString_three, String.reduceAppend, List.lookup_cons, String.reduceBEq,
      List.replicate, Nat.shiftLeft_zero, j_loop_from_two]
    simp [List.any, JsonNode.has_ts_buf, hs]

set_option maxRecDepth 100000 in
theorem fmt_03ld_three_digits : ∀ m : Nat, m < 1000 →
    fmt_03ld (m : Int)
      = String.mk [Nat.digitChar (m / 100), Nat.digitChar (m / 10 % 10),
          Nat.digitChar (m % 10)] := by
  decide

theorem to_time_t_of_lt (t : Nat) (h : t < 2 ^ 63) : to_time_t t = (t : Int) := by
  unfold to_time_t
  split <;> omega

/-- C14 (counterexample): the raw value 0xFFFFFFFFFFFFFFFE is not the sentinel,
yet `convert_ts` reads it as the `time_t` value -2: whole seconds 0, remainder
-2, printed "-02"; the remainder is not in 0..999 and seconds * 1000 +
remainder is not the unsigned raw value. -/
theorem convert_ts_unsigned_counterexample :
    (0xFFFFFFFFFFFFFFFE : Nat) ≠ 0xFFFFFFFFFFFFFFFF ∧
    (0xFFFFFFFFFFFFFFFE : Nat) < 2 ^ 64 ∧
    convert_ts_time_Human (to_time_t 0xFFFFFFFFFFFFFFFE) = 0 ∧
    convert_ts_time_ms (to_time_t 0xFFFFFFFFFFFFFFFE) = -2 ∧
    ¬ (0 ≤ convert_ts_time_ms (to_time_t 0xFFFFFFFFFFFFFFFE)) ∧
    convert_ts_time_Human (to_time_t 0xFFFFFFFFFFFFFFFE) * 1000
        + convert_ts_time_ms (to_time_t 0xFFFFFFFFFFFFFFFE)
      ≠ ((0xFFFFFFFFFFFFFFFE : Nat) : Int) ∧
    fmt_03ld (convert_ts_time_ms (to_time_t 0xFFFFFFFFFFFFFFFE)) = "-02" := by
  decide

/-- C14 (amended): for every raw 64-bit timestamp `t` below `2 ^ 63`, that is
every raw value that is a non-negative `time_t`, `convert_ts` splits `t` into
whole seconds `t / 1000` and a remainder `t mod 1000` in 0..999 with
seconds * 1000 + remainder = t, and the millisecond suffix is the three
decimal digits of the remainder. -/
theorem convert_ts_split (t : Nat) (h : t < 2 ^ 63) :
    convert_ts_time_Human (to_time_t t) = ((t / 1000 : Nat) : Int) ∧
    convert_ts_time_ms (to_time_t t) = ((t % 1000 : Nat) : Int) ∧
    0 ≤ convert_ts_time_ms (to_time_t t) ∧ convert_ts_time_ms (to_time_t t) ≤ 999 ∧
    convert_ts_time_Human (to_time_t t) * 1000 + convert_ts_time_ms (to_time_t t) = (t : Int) ∧
    fmt_03ld (convert_ts_time_ms (to_time_t t))
      = String.mk [Nat.digitChar (t % 1000 / 100), Nat.digitChar (t % 1000 / 10 % 10),
          Nat.digitChar (t % 1000 % 10)] ∧
    (∀ f : Int → String, convert_ts f (to_time_t t)
      = f ((t / 1000 : Nat) : Int) ++ "."
        ++ String.mk [Nat.digitChar (t % 1000 / 100), Nat.digitChar (t % 1000 / 10 % 10),
          Nat.digitChar (t % 1000 % 10)] ++ " GMT") := by
  have ht : to_time_t t = (t : Int) := to_time_t_of_lt t h
  have hH : convert_ts_time_Human (to_time_t t) = ((t / 1000 : Nat) : Int) := by
    rw [ht, convert_ts_time_Human, Int.tdiv_eq_ediv (by omega) (by omega)]
    push_cast
    rfl
  have hm : convert_ts_time_ms (to_time_t t) = ((t % 1000 : Nat) : Int) := by
    rw [ht, convert_ts_time_ms, Int.tmod_eq_emod (by omega) (by omega)]
    push_cast
    rfl
  have hf := fmt_03ld_three_digits (t % 1000) (Nat.mod_lt t (by decide))
  refine ⟨hH, hm, ?_, ?_, ?_, ?_, ?_⟩
  · rw [hm]; omega
  · rw [hm]; omega
  · rw [hH, hm]; omega
  · rw [hm]; exact hf
  · intro f
    rw [convert_ts, hH, hm, hf]

/-- C14 witness: the raw value 1700000000123 splits into 1700000000 seconds
and 123 milliseconds. -/
theorem convert_ts_split_witness :
    (1700000000123 : Nat) < 2 ^ 63 ∧
    convert_ts_time_Human (to_time_t 1700000000123) = 1700000000 ∧
    convert_ts_time_ms (to_time_t 1700000000123) = 123 ∧
    fmt_03ld (convert_ts_time_ms (to_time_t 1700000000123)) = "123" :=
  ⟨by decide, (convert_ts_split 1700000000123 (by decide)).1,
    (convert_ts_split 1700000000123 (by decide)).2.1,
    (convert_ts_split 1700000000123 (by decide)).2.2.2.2.2.1⟩

theorem convert_ts_text (f : Int → String) (time : Int) :
    convert_ts f time
      = f (Int.tdiv time 1000) ++ "." ++ fmt_03ld (Int.tmod time 1000) ++ " GMT" := rfl

theorem convert_ts_text_of_lt (f : Int → String) (t : Nat) (h : t < 2 ^ 63) :
    convert_ts f (to_time_t t)
      = f ((t / 1000 : Nat) : Int) ++ "."
        ++ String.mk [Nat.digitChar (t % 1000 / 100), Nat.digitChar (t % 1000 / 10 % 10),
          Nat.digitChar (t % 1000 % 10)] ++ " GMT" := by
  have ht : to_time_t t = (t : Int) := to_time_t_of_lt t h
  have hH : Int.tdiv (t : Int) 1000 = ((t / 1000 : Nat) : Int) := by
    rw [Int.tdiv_eq_ediv (by omega) (by omega)]
    push_cast
    rfl
  have hm : Int.tmod (t : Int) 1000 = ((t % 1000 : Nat) : Int) := by
    rw [Int.tmod_eq_emod (by omega) (by omega)]
    push_cast
    rfl
  rw [convert_ts_text, ht, hH, hm, fmt_03ld_three_digits (t % 1000) (Nat.mod_lt t (by decide))]

set_option maxRecDepth 100000 in
/-- C13: in both renderings the debug-log latency timestamp is shown as not
available ("N/A" in the normal report, "NA" in the JSON report) exactly when
its raw 64-bit value is 0xFFFFFFFFFFFFFFFF.  For every other raw value the
entry is the text left by `convert_ts`: the `strftime` text of the whole
seconds, ".", the `%03ld` text of the milliseconds and " GMT", seconds and
milliseconds being quotient and remainder of the raw value read as `time_t`;
for a raw value below `2 ^ 63` these are `raw / 1000` and the three decimal
digits of `raw % 1000`.  The report holds a `convert_ts` result exactly when
the raw value is not the sentinel, so for the sentinel `convert_ts` is not
called.  The raw value 1700000000123 gives the text of second 1700000000
followed by ".123 GMT"; 0xFFFFFFFFFFFFFFFE, the `time_t` value -2, gives the
text of second 0 followed by ".-02 GMT". -/
theorem c3_debug_timestamp_sentinel (f : Int → String) (data : List Nat) :
    ((ocp_print_C3_log_normal f data).lookup "Debug Log Latency Time Stamp"
        = some [Cell.text "N/A"]
      ↔ ssd_latency_monitor_log.debug_log_latency_stamp data = 0xFFFFFFFFFFFFFFFF) ∧
    ((ocp_print_C3_log_json f data).lookup "Debug Log Latency Time Stamp"
        = some (JsonNode.value (JsonScalar.str "NA"))
      ↔ ssd_latency_monitor_log.debug_log_latency_stamp data = 0xFFFFFFFFFFFFFFFF) ∧
    (ssd_latency_monitor_log.debug_log_latency_stamp data ≠ 0xFFFFFFFFFFFFFFFF →
      ((ocp_print_C3_log_normal f data).lookup "Debug Log Latency Time Stamp"
          = some [Cell.ts_buf
              (f (Int.tdiv
                  (to_time_t (ssd_latency_monitor_log.debug_log_latency_stamp data)) 1000)
                ++ "."
                ++ fmt_03ld (Int.tmod
                    (to_time_t (ssd_latency_monitor_log.debug_log_latency_stamp data)) 1000)
                ++ " GMT")] ∧
        (ocp_print_C3_log_json f data).lookup "Debug Log Latency Time Stamp"
          = some (JsonNode.value (JsonScalar.ts_buf
              (f (Int.tdiv
                  (to_time_t (ssd_latency_monitor_log.debug_log_latency_stamp data)) 1000)
                ++ "."
                ++ fmt_03ld (Int.tmod
                    (to_time_t (ssd_latency_monitor_log.debug_log_latency_stamp data)) 1000)
                ++ " GMT"))))) ∧
    (ssd_latency_monitor_log.debug_log_latency_stamp data < 2 ^ 63 →
      ((ocp_print_C3_log_normal f data).lookup "Debug Log Latency Time Stamp"
          = some [Cell.ts_buf
              (f ((ssd_latency_monitor_log.debug_log_latency_stamp data / 1000 : Nat) : Int)
                ++ "."
                ++ String.mk
                    [Nat.digitChar
                      (ssd_latency_monitor_log.debug_log_latency_stamp data % 1000 / 100),
                     Nat.digitChar
                      (ssd_latency_monitor_log.debug_log_latency_stamp data % 1000 / 10 % 10),
                     Nat.digitChar
                      (ssd_latency_monitor_log.debug_log_latency_stamp data % 1000 % 10)]
                ++ " GMT")] ∧
        (ocp_print_C3_log_json f data).lookup "Debug Log Latency Time Stamp"
          = some (JsonNode.value (JsonScalar.ts_buf
              (f ((ssd_latency_monitor_log.debug_log_latency_stamp data / 1000 : Nat) : Int)
                ++ "."
                ++ String.mk
                    [Nat.digitChar
                      (ssd_latency_monitor_log.debug_log_latency_stamp data % 1000 / 100),
                     Nat.digitChar
                      (ssd_latency_monitor_log.debug_log_latency_stamp data % 1000 / 10 % 10),
                     Nat.digitChar
                      (ssd_latency_monitor_log.debug_log_latency_stamp data % 1000 % 10)]
                ++ " GMT"))))) ∧
    ((ocp_print_C3_log_normal f data).any (fun l => l.2.any Cell.is_ts_buf)
        = decide (ssd_latency_monitor_log.debug_log_latency_stamp data ≠ 0xFFFFFFFFFFFFFFFF) ∧
      (ocp_print_C3_log_json f data).any (fun e => e.2.has_ts_buf)
        = decide (ssd_latency_monitor_log.debug_log_latency_stamp data ≠ 0xFFFFFFFFFFFFFFFF)) ∧
    (ssd_latency_monitor_log.debug_log_latency_stamp (c3_page_stamp 1700000000123)
        = 1700000000123 ∧
      (ocp_print_C3_log_normal f (c3_page_stamp 1700000000123)).lookup
          "Debug Log Latency Time Stamp"
        = some [Cell.ts_buf (f 1700000000 ++ "." ++ "123" ++ " GMT")] ∧
      (ocp_print_C3_log_json f (c3_page_stamp 1700000000123)).lookup
          "Debug Log Latency Time Stamp"
        = some (JsonNode.value (JsonScalar.ts_buf (f 1700000000 ++ "." ++ "123" ++ " GMT")))) ∧
    (ssd_latency_monitor_log.debug_log_latency_stamp (c3_page_stamp 0xFFFFFFFFFFFFFFFE)
        = 0xFFFFFFFFFFFFFFFE ∧
      (ocp_print_C3_log_normal f (c3_page_stamp 0xFFFFFFFFFFFFFFFE)).lookup
          "Debug Log Latency Time Stamp"
        = some [Cell.ts_buf (f 0 ++ "." ++ "-02" ++ " GMT")]) ∧
    (ssd_latency_monitor_log.debug_log_latency_stamp (c3_page_stamp 0xFFFFFFFFFFFFFFFF)
        = 0xFFFFFFFFFFFFFFFF ∧
      (ocp_print_C3_log_normal f (c3_page_stamp 0xFFFFFFFFFFFFFFFF)).lookup
          "Debug Log Latency Time Stamp" = some [Cell.text "N/A"] ∧
      (ocp_print_C3_log_json f (c3_page_stamp 0xFFFFFFFFFFFFFFFF)).lookup
          "Debug Log Latency Time Stamp" = some (JsonNode.value (JsonScalar.str "NA"))) := by
  have hx : (0xFFFFFFFFFFFFFFFF : Nat) = 2 ^ 64 - 1 := by norm_num
  have hgen : ∀ d : List Nat,
      ((ocp_print_C3_log_normal f d).lookup "Debug Log Latency Time Stamp"
        = some [if ssd_latency_monitor_log.debug_log_latency_stamp d = 0xFFFFFFFFFFFFFFFF
            then Cell.text "N/A"
            else Cell.ts_buf (convert_ts f
              (to_time_t (ssd_latency_monitor_log.debug_log_latency_stamp d)))]) ∧
      ((ocp_print_C3_log_json f d).lookup "Debug Log Latency Time Stamp"
        = some (JsonNode.value
            (if ssd_latency_monitor_log.debug_log_latency_stamp d = 0xFFFFFFFFFFFFFFFF
              then JsonScalar.str "NA"
              else JsonScalar.ts_buf (convert_ts f
                (to_time_t (ssd_latency_monitor_log.debug_log_latency_stamp d)))))) :=
    fun d => by
      rw [hx]
      exact ⟨c3_normal_debug_stamp_line f d, c3_json_debug_stamp_entry f d⟩
  have r1 : ssd_latency_monitor_log.debug_log_latency_stamp (c3_page_stamp 1700000000123)
      = 1700000000123 := by decide
  have r2 : ssd_latency_monitor_log.debug_log_latency_stamp (c3_page_stamp 0xFFFFFFFFFFFFFFFE)
      = 0xFFFFFFFFFFFFFFFE := by decide
  have r3 : ssd_latency_monitor_log.debug_log_latency_stamp (c3_page_stamp 0xFFFFFFFFFFFFFFFF)
      = 0xFFFFFFFFFFFFFFFF := by decide
  have t1 : convert_ts f (to_time_t 1700000000123) = f 1700000000 ++ "." ++ "123" ++ " GMT" := by
    rw [convert_ts_text]
    have a : Int.tdiv (to_time_t 1700000000123) 1000 = 1700000000 := by decide
    have b : fmt_03ld (Int.tmod (to_time_t 1700000000123) 1000) = "123" := by decide
    rw [a, b]
  have t2 : convert_ts f (to_time_t 0xFFFFFFFFFFFFFFFE) = f 0 ++ "." ++ "-02" ++ " GMT" := by
    rw [convert_ts_text]
    have a : Int.tdiv (to_time_t 0xFFFFFFFFFFFFFFFE) 1000 = 0 := by decide
    have b : fmt_03ld (Int.tmod (to_time_t 0xFFFFFFFFFFFFFFFE) 1000) = "-02" := by decide
    rw [a, b]
  obtain ⟨hn, hj⟩ := hgen data
  refine ⟨?_, ?_, ?_, ?_,
    ⟨by rw [hx]; exact c3_normal_ts_buf_use f data, by rw [hx]; exact c3_json_ts_buf_use f data⟩,
    ⟨r1, ?_, ?_⟩, ⟨r2, ?_⟩, ⟨r3, ?_, ?_⟩⟩
  · rw [hn]
    by_cases hs : ssd_latency_monitor_log.debug_log_latency_stamp data = 0xFFFFFFFFFFFFFFFF <;>
      simp [hs]
  · rw [hj]
    by_cases hs : ssd_latency_monitor_log.debug_log_latency_stamp data = 0xFFFFFFFFFFFFFFFF <;>
      simp [hs]
  · intro hs
    rw [hn, hj, if_neg hs, if_neg hs, convert_ts_text]
    exact ⟨rfl, rfl⟩
  · intro hlt
    have hs : ¬ ssd_latency_monitor_log.debug_log_latency_stamp data = 0xFFFFFFFFFFFFFFFF := by
      omega
    rw [hn, hj, if_neg hs, if_neg hs, convert_ts_text_of_lt f _ hlt]
    exact ⟨rfl, rfl⟩
  · rw [(hgen _).1, r1, if_neg (by decide), t1]
  · rw [(hgen _).2, r1, if_neg (by decide), t1]
  · rw [(hgen _).1, r2, if_neg (by decide), t2]
  · rw [(hgen _).1, r3, if_pos (by decide)]
  · rw [(hgen _).2, r3, if_pos (by decide)]



set_option maxRecDepth 100000 in
theorem lpa_bit3 : ∀ x : Nat, x < 256 →
    decide (((x &&& 0x8) >>> 3) ≠ 0) = x.testBit 3 := by
  decide

theorem parse_tele_type_cases (t : String) :
    (parse_tele_type t = TELEMETRY_TYPE_HOST_0 ↔ t = "host0") ∧
    (parse_tele_type t = TELEMETRY_TYPE_HOST_1 ↔ t = "host1") ∧
    (parse_tele_type t = TELEMETRY_TYPE_CONTROLLER ↔ t = "controller") := by
  unfold parse_tele_type
  by_cases h0 : t = "host0"
  · subst h0; decide
  · by_cases h1 : t = "host1"
    · subst h1; decide
    · by_cases h2 : t = "controller"
      · subst h2; decide
      · simp [h0, h1, h2, TELEMETRY_TYPE_HOST_0, TELEMETRY_TYPE_HOST_1,
          TELEMETRY_TYPE_CONTROLLER]

theorem get_telemetry_dump_has_header (env : Env) (filename sn : String) (tele_type : Nat)
    (data_area : Int) (header_print : Bool) :
    (get_telemetry_dump env filename sn tele_type data_area header_print).2.any
      Event.isHeaderFetch = true := by
  unfold get_telemetry_dump
  simp only [get_telemetry_header]
  split
  · simp [Event.isHeaderFetch]
  · split <;> simp [Event.isHeaderFetch]

/-- `ocp_telemetry_log` when its preliminary calls succeed and both a type and
an area are given. -/
theorem ocp_telemetry_log_single (w : TelemetryWorld) (fd : Int) (cfg : TelemetryConfig)
    (t : String) (hfd : 0 ≤ fd) (hstat : 0 ≤ w.fstatRes)
    (hns : w.isBlk = true → 0 ≤ to_int (to_u32 w.nsidRes)) (hid : w.identifyRes = 0)
    (ht : cfg.type = some t) (ha : cfg.area ≠ 0) :
    ocp_telemetry_log w fd cfg =
      if ((parse_tele_type t = TELEMETRY_TYPE_HOST_0 ∨ parse_tele_type t = TELEMETRY_TYPE_HOST_1)
            ∧ (cfg.area = 1 ∨ cfg.area = 3))
          ∨ (parse_tele_type t = TELEMETRY_TYPE_CONTROLLER ∧ cfg.area = 3) then
        ((telemetry_extractions w cfg (telemetry_sn w)
            (decide ((((w.ctrl_lpa % 256) &&& 0x8) >>> 3) ≠ 0)) (parse_tele_type t) cfg.area 0).1,
          telemetry_prelude w ++ (telemetry_extractions w cfg (telemetry_sn w)
            (decide ((((w.ctrl_lpa % 256) &&& 0x8) >>> 3) ≠ 0)) (parse_tele_type t) cfg.area 0).2
            ++ [Event.close fd])
      else (0, telemetry_prelude w ++ [Event.close fd]) := by
  have h1 : ¬ fd < 0 := not_lt.mpr hfd
  have h2 : ¬ w.fstatRes < 0 := not_lt.mpr hstat
  have h3 : ¬ (w.isBlk = true ∧ to_int (to_u32 w.nsidRes) < 0) := by
    rintro ⟨hb, hlt⟩
    exact absurd (hns hb) (not_le.mpr hlt)
  by_cases hv : ((parse_tele_type t = TELEMETRY_TYPE_HOST_0
        ∨ parse_tele_type t = TELEMETRY_TYPE_HOST_1) ∧ (cfg.area = 1 ∨ cfg.area = 3))
      ∨ (parse_tele_type t = TELEMETRY_TYPE_CONTROLLER ∧ cfg.area = 3)
  · rw [if_pos hv]
    unfold ocp_telemetry_log
    simp only [h1, h2, h3, if_false, hid, ne_eq, not_true_eq_false, ht, ha, not_false_eq_true,
      if_true, false_and, telemetry_prelude, telemetry_sn, hv]
    simp
  · rw [if_neg hv]
    unfold ocp_telemetry_log
    simp only [h1, h2, h3, if_false, hid, ne_eq, not_true_eq_false, ht, ha, not_false_eq_true,
      if_true, false_and, telemetry_prelude, telemetry_sn, hv]
    simp

theorem telemetry_prelude_no_reads (w : TelemetryWorld) :
    (telemetry_prelude w).any Event.isHeaderFetch = false ∧
    (telemetry_prelude w).any Event.isChunkRead = false := by
  unfold telemetry_prelude
  cases w.isBlk <;> simp [Event.isHeaderFetch, Event.isChunkRead]

theorem telemetry_extractions_host (w : TelemetryWorld) (cfg : TelemetryConfig) (sn : String)
    (sup : Bool) (tele_type : Nat) (a err : Int)
    (h : tele_type = TELEMETRY_TYPE_HOST_0 ∨ tele_type = TELEMETRY_TYPE_HOST_1) :
    telemetry_extractions w cfg sn sup tele_type a err
      = telemetry_dump_call w cfg sn tele_type a true := by
  rcases h with h | h <;> subst h <;>
    simp [telemetry_extractions, TELEMETRY_TYPE_HOST_0, TELEMETRY_TYPE_HOST_1,
      TELEMETRY_TYPE_NONE, TELEMETRY_TYPE_CONTROLLER]

theorem telemetry_extractions_controller (w : TelemetryWorld) (cfg : TelemetryConfig)
    (sn : String) (sup : Bool) (a err : Int) :
    telemetry_extractions w cfg sn sup TELEMETRY_TYPE_CONTROLLER a err
      = if sup = true then telemetry_dump_call w cfg sn TELEMETRY_TYPE_CONTROLLER a true
        else (err, []) := by
  simp [telemetry_extractions, TELEMETRY_TYPE_NONE, TELEMETRY_TYPE_CONTROLLER]

theorem any_mid (p : Event → Bool) (a b : List Event) (e : Event) (ha : a.any p = false)
    (he : p e = false) : (a ++ b ++ [e]).any p = b.any p := by
  simp [List.any_append, ha, he]

/-- C15 (counterexample): with type "host0" and area 2, a pair outside the
list, `ocp_telemetry_log` returns 0; and with type "controller" and area 3, a
pair of the list, on a device whose capability bit is clear, no header fetch
is issued. -/
theorem telemetry_type_area_counterexample :
    (ocp_telemetry_log (telemetryWorld 0) 3
      { type := some "host0", area := 2, file := none }).1 = 0 ∧
    (ocp_telemetry_log (telemetryWorld 0) 3
      { type := some "controller", area := 3, file := none }).2.any Event.isHeaderFetch
      = false := by
  decide

/-- C15 (amended): when the preliminary calls succeed and both a type and an
area are given, a header fetch is issued exactly when the pair is one of
(host0, 1), (host0, 3), (host1, 1), (host1, 3), or is (controller, 3) on a
device whose capability bit (bit 3 of `lpa`) is set; for every pair outside
the list, an unknown type name included, the trace is the preliminary calls
followed by the `close` of the device and holds no header fetch and no chunk
read. -/
theorem telemetry_type_area_gate (w : TelemetryWorld) (fd : Int) (cfg : TelemetryConfig)
    (t : String) (hfd : 0 ≤ fd) (hstat : 0 ≤ w.fstatRes)
    (hns : w.isBlk = true → 0 ≤ to_int (to_u32 w.nsidRes)) (hid : w.identifyRes = 0)
    (ht : cfg.type = some t) (ha : cfg.area ≠ 0) :
    ((ocp_telemetry_log w fd cfg).2.any Event.isHeaderFetch = true ↔
      (((t = "host0" ∨ t = "host1") ∧ (cfg.area = 1 ∨ cfg.area = 3))
        ∨ (t = "controller" ∧ cfg.area = 3 ∧ (w.ctrl_lpa % 256).testBit 3 = true))) ∧
    (¬ (((t = "host0" ∨ t = "host1") ∧ (cfg.area = 1 ∨ cfg.area = 3))
        ∨ (t = "controller" ∧ cfg.area = 3)) →
      ((ocp_telemetry_log w fd cfg).2 = telemetry_prelude w ++ [Event.close fd] ∧
        (ocp_telemetry_log w fd cfg).2.any Event.isHeaderFetch = false ∧
        (ocp_telemetry_log w fd cfg).2.any Event.isChunkRead = false)) := by
  obtain ⟨p0, p1, pc⟩ := parse_tele_type_cases t
  obtain ⟨n1, n2⟩ := telemetry_prelude_no_reads w
  have hbit := lpa_bit3 (w.ctrl_lpa % 256) (Nat.mod_lt _ (by decide))
  have hsingle := ocp_telemetry_log_single w fd cfg t hfd hstat hns hid ht ha
  simp only [p0, p1, pc] at hsingle
  rw [hsingle]
  constructor
  · by_cases hh : (t = "host0" ∨ t = "host1") ∧ (cfg.area = 1 ∨ cfg.area = 3)
    · have hp : parse_tele_type t = TELEMETRY_TYPE_HOST_0
          ∨ parse_tele_type t = TELEMETRY_TYPE_HOST_1 := by
        rcases hh.1 with h | h
        · exact Or.inl (p0.mpr h)
        · exact Or.inr (p1.mpr h)
      rw [if_pos (Or.inl hh), telemetry_extractions_host _ _ _ _ _ _ _ hp]
      simp only [any_mid _ _ _ _ n1 (show Event.isHeaderFetch (Event.close fd) = false from rfl)]
      unfold telemetry_dump_call
      rw [get_telemetry_dump_has_header]
      simp [hh]
    · by_cases hc : t = "controller" ∧ cfg.area = 3
      · rw [if_pos (Or.inr hc), pc.mpr hc.1, telemetry_extractions_controller, hbit]
        simp only [any_mid _ _ _ _ n1
          (show Event.isHeaderFetch (Event.close fd) = false from rfl)]
        by_cases hb : (w.ctrl_lpa % 256).testBit 3 = true
        · rw [if_pos hb]
          unfold telemetry_dump_call
          rw [get_telemetry_dump_has_header]
          simp [hc, hb]
        · rw [if_neg hb]
          simp [hh, hb]
      · have hno : ¬ ((t = "host0" ∨ t = "host1") ∧ (cfg.area = 1 ∨ cfg.area = 3)
            ∨ t = "controller" ∧ cfg.area = 3) := by
          rintro (h | h)
          · exact hh h
          · exact hc h
        rw [if_neg hno]
        have : ¬ (t = "controller" ∧ cfg.area = 3 ∧ (w.ctrl_lpa % 256).testBit 3 = true) :=
          fun h => hc ⟨h.1, h.2.1⟩
        simp [List.any_append, n1, Event.isHeaderFetch, hh, this]
  · intro hno
    rw [if_neg hno]
    simp [List.any_append, n1, n2, Event.isHeaderFetch, Event.isChunkRead]

/-- C15 witness: type "host1" with area 3 issues a header fetch, type "host0"
with area 2 issues none. -/
theorem telemetry_type_area_gate_witness :
    (3 : Int) ≠ 0 ∧ (2 : Int) ≠ 0 ∧
    (ocp_telemetry_log (telemetryWorld 0) 3
      { type := some "host1", area := 3, file := none }).2.any Event.isHeaderFetch = true ∧
    (ocp_telemetry_log (telemetryWorld 0) 3
      { type := some "host0", area := 2, file := none }).2.any Event.isHeaderFetch = false :=
  ⟨by decide, by decide,
    (telemetry_type_area_gate (telemetryWorld 0) 3
      { type := some "host1", area := 3, file := none } "host1" (by decide) (by decide)
      (by decide) rfl rfl (by decide)).1.mpr (Or.inl ⟨Or.inr rfl, Or.inr rfl⟩),
    ((telemetry_type_area_gate (telemetryWorld 0) 3
      { type := some "host0", area := 2, file := none } "host0" (by decide) (by decide)
      (by decide) rfl rfl (by decide)).2 (by decide)).2.1⟩

/-- C17: when the preliminary calls succeed and the controller variant with
area 3 is requested, a clear capability bit (bit 3 of `lpa`) gives return value
0 with no header fetch and no chunk read in the trace; a set bit gives the
controller extraction: its trace between the preliminary calls and the final
`close`, its status as return value, a header fetch issued. -/
theorem telemetry_controller_capability (w : TelemetryWorld) (fd : Int)
    (cfg : TelemetryConfig) (hfd : 0 ≤ fd) (hstat : 0 ≤ w.fstatRes)
    (hns : w.isBlk = true → 0 ≤ to_int (to_u32 w.nsidRes)) (hid : w.identifyRes = 0)
    (ht : cfg.type = some "controller") (ha : cfg.area = 3) :
    ((w.ctrl_lpa % 256).testBit 3 = false →
      ((ocp_telemetry_log w fd cfg).1 = 0 ∧
        (ocp_telemetry_log w fd cfg).2.any Event.isHeaderFetch = false ∧
        (ocp_telemetry_log w fd cfg).2.any Event.isChunkRead = false)) ∧
    ((w.ctrl_lpa % 256).testBit 3 = true →
      (ocp_telemetry_log w fd cfg
        = ((get_telemetry_dump (w.dumpEnv TELEMETRY_TYPE_CONTROLLER 3) (cfg.file.getD "")
              (telemetry_sn w) TELEMETRY_TYPE_CONTROLLER 3 true).1,
            telemetry_prelude w
              ++ (get_telemetry_dump (w.dumpEnv TELEMETRY_TYPE_CONTROLLER 3) (cfg.file.getD "")
                (telemetry_sn w) TELEMETRY_TYPE_CONTROLLER 3 true).2
              ++ [Event.close fd]) ∧
        (ocp_telemetry_log w fd cfg).2.any Event.isHeaderFetch = true)) := by
  obtain ⟨n1, n2⟩ := telemetry_prelude_no_reads w
  have hbit := lpa_bit3 (w.ctrl_lpa % 256) (Nat.mod_lt _ (by decide))
  have hp : parse_tele_type "controller" = TELEMETRY_TYPE_CONTROLLER := by decide
  have hsingle := ocp_telemetry_log_single w fd cfg "controller" hfd hstat hns hid ht
    (by rw [ha]; decide)
  rw [hp, if_pos (Or.inr ⟨rfl, ha⟩), telemetry_extractions_controller, hbit, ha] at hsingle
  constructor
  · intro hb
    rw [hb] at hsingle
    rw [hsingle]
    simp [List.any_append, n1, n2, Event.isHeaderFetch, Event.isChunkRead]
  · intro hb
    rw [hb] at hsingle
    simp only [if_true, telemetry_dump_call] at hsingle
    refine ⟨hsingle, ?_⟩
    rw [hsingle]
    simp only [any_mid _ _ _ _ n1 (show Event.isHeaderFetch (Event.close fd) = false from rfl)]
    exact get_telemetry_dump_has_header _ _ _ _ _ _

/-- C17 witness: `lpa` 0 (bit clear) gives return value 0 and no header fetch;
`lpa` 8 (bit set) gives a header fetch. -/
theorem telemetry_controller_capability_witness :
    ((0 : Nat) % 256).testBit 3 = false ∧ ((8 : Nat) % 256).testBit 3 = true ∧
    (ocp_telemetry_log (telemetryWorld 0) 3
      { type := some "controller", area := 3, file := none }).1 = 0 ∧
    (ocp_telemetry_log (telemetryWorld 0) 3
      { type := some "controller", area := 3, file := none }).2.any Event.isHeaderFetch
      = false ∧
    (ocp_telemetry_log (telemetryWorld 8) 3
      { type := some "controller", area := 3, file := none }).2.any Event.isHeaderFetch
      = true :=
  ⟨by decide, by decide,
    ((telemetry_controller_capability (telemetryWorld 0) 3
      { type := some "controller", area := 3, file := none } (by decide) (by decide)
      (by decide) rfl rfl rfl).1 (by decide)).1,
    ((telemetry_controller_capability (telemetryWorld 0) 3
      { type := some "controller", area := 3, file := none } (by decide) (by decide)
      (by decide) rfl rfl rfl).1 (by decide)).2.1,
    ((telemetry_controller_capability (telemetryWorld 8) 3
      { type := some "controller", area := 3, file := none } (by decide) (by decide)
      (by decide) rfl rfl rfl).2 (by decide)).2⟩

/-- C18 (evaluated): for the serial number "AB CD" padded with spaces to 20
bytes, `get_serial_number` yields "AB": it stops at the first space, so the
inner space and "CD" are lost; a serial number without inner space, "SN123",
comes out with its trailing spaces removed. -/
theorem get_serial_number_stops_at_first_space :
    c_string (get_serial_number (sn_bytes "AB CD") (List.replicate 21 0)) = "AB" ∧
    c_string (sn_bytes "AB CD") = "AB CD               " ∧
    c_string (get_serial_number (sn_bytes "SN123") (List.replicate 21 0)) = "SN123" := by
  decide

/-- Every call of the loop is either not a log-page read, or a chunk read issued
with the `lsp` and `rae` the loop was given. -/
theorem dump_loop_read_parameters (env : Env) (fp : String) (S last cnt : Int)
    (nsid log_id lsp : Nat) (rae : Bool) (n : Nat) :
    ∀ (i off : Nat) (out : Int),
      (dump_loop env fp S last cnt nsid log_id lsp rae n i off out).2.all
        (fun ev => !ev.isHeaderFetch && (!ev.isChunkRead || ev.lsp_rae == some (lsp, rae)))
        = true := by
  induction n with
  | zero =>
    intro i off out
    simp [dump_loop, Event.isHeaderFetch, Event.isChunkRead]
  | succ n ih =>
    intro i off out
    rw [dump_loop]
    simp only []
    split
    · split <;> simp [Event.isHeaderFetch, Event.isChunkRead, Event.lsp_rae]
    · split
      · split
        · split
          · simp [Event.isHeaderFetch, Event.isChunkRead, Event.lsp_rae]
          · unfold dump_write
            split
            · simp [Event.isHeaderFetch, Event.isChunkRead, Event.lsp_rae]
            · have := ih (i + 1) (to_u64 ((off : Int) + S)) env.openRes
              simp only [List.all_append, this, Bool.and_true]
              simp [Event.isHeaderFetch, Event.isChunkRead, Event.lsp_rae]
        · unfold dump_write
          split
          · simp [Event.isHeaderFetch, Event.isChunkRead, Event.lsp_rae]
          · have := ih (i + 1) (to_u64 ((off : Int) + S)) out
            simp only [List.all_append, this, Bool.and_true]
            simp [Event.isHeaderFetch, Event.isChunkRead, Event.lsp_rae]
      · unfold dump_write
        split
        · simp [Event.isHeaderFetch, Event.isChunkRead, Event.lsp_rae]
        · have := ih (i + 1) (to_u64 ((off : Int) + S)) out
          simp only [List.all_append, this, Bool.and_true]
          simp [Event.isHeaderFetch, Event.isChunkRead, Event.lsp_rae]

theorem extract_dump_read_parameters (env : Env) (featurename filename sn : String)
    (T S : Int) (nsid log_id lsp offset : Nat) (rae : Bool) :
    (extract_dump_get_log env featurename filename sn T S nsid log_id lsp offset rae).2.filter
        Event.isHeaderFetch = [] ∧
    ((extract_dump_get_log env featurename filename sn T S nsid log_id lsp offset rae).2.filter
        Event.isChunkRead).all (fun ev => ev.lsp_rae == some (lsp, rae)) = true := by
  have h := dump_loop_read_parameters env ("/" ++ featurename ++ "_" ++ sn ++ ".bin") S
    (last_xfer_size T S) (total_loop_cnt T S) nsid log_id lsp rae (total_loop_cnt T S).toNat
    0 offset 0
  rw [List.all_eq_true] at h
  unfold extract_dump_get_log
  constructor
  · rw [List.filter_eq_nil_iff]
    intro ev hev
    have := h ev hev
    simp only [Bool.and_eq_true, Bool.not_eq_true'] at this
    simp [this.1]
  · rw [List.all_eq_true]
    intro ev hev
    rw [List.mem_filter] at hev
    have := h ev hev.1
    simp only [Bool.and_eq_true, Bool.or_eq_true, Bool.not_eq_true'] at this
    rcases this.2 with h' | h'
    · rw [hev.2] at h'; exact absurd h' (by decide)
    · exact h'

theorem header_fetch_parameters (env : Env) (t : Nat)
    (ht : t = TELEMETRY_TYPE_HOST_0 ∨ t = TELEMETRY_TYPE_HOST_1
      ∨ t = TELEMETRY_TYPE_CONTROLLER) :
    ((get_telemetry_header env 0 (variant_log_id t % 256) TELEMETRY_HEADER_SIZE
        (variant_lsp t) (variant_rae t)).2.filter Event.isHeaderFetch).map Event.lsp_rae
      = [some (variant_lsp t, decide (variant_rae t ≠ 0))] ∧
    (get_telemetry_header env 0 (variant_log_id t % 256) TELEMETRY_HEADER_SIZE
        (variant_lsp t) (variant_rae t)).2.filter Event.isChunkRead = [] := by
  rcases ht with h | h | h <;> subst h <;> exact ⟨rfl, rfl⟩

/-- C16 (counterexample): in the host sub-index 1 extraction of a 1024-byte
area the chunk read is issued with lsp = 0, not with the variant's lsp = 1. -/
theorem telemetry_chunk_lsp_counterexample :
    variant_lsp TELEMETRY_TYPE_HOST_1 = 1 ∧
    ((get_telemetry_dump (headerEnv header_2_5_5) "" "SN" TELEMETRY_TYPE_HOST_1 1 true).2.filter
      Event.isChunkRead).map Event.lsp_rae = [some (0, false)] := by
  decide

/-- C16 (amended): for each variant, the header fetch of an extraction is
issued with the variant's parameters (host sub-index 0: lsp = 0, retain =
false; host sub-index 1: lsp = 1, retain = false; controller: lsp = 0, retain
= true), and every chunk read is issued with lsp = 0 and the variant's retain
flag. -/
theorem telemetry_read_parameters (env : Env) (filename sn : String) (t : Nat)
    (data_area : Int) (header_print : Bool)
    (ht : t = TELEMETRY_TYPE_HOST_0 ∨ t = TELEMETRY_TYPE_HOST_1
      ∨ t = TELEMETRY_TYPE_CONTROLLER) :
    ((get_telemetry_dump env filename sn t data_area header_print).2.filter
        Event.isHeaderFetch).map Event.lsp_rae
      = [some (variant_lsp t, decide (variant_rae t ≠ 0))] ∧
    ((get_telemetry_dump env filename sn t data_area header_print).2.filter
        Event.isChunkRead).all
      (fun ev => ev.lsp_rae == some (0, decide (variant_rae t ≠ 0))) = true ∧
    (variant_lsp TELEMETRY_TYPE_HOST_0 = 0 ∧ variant_rae TELEMETRY_TYPE_HOST_0 = 0 ∧
      variant_lsp TELEMETRY_TYPE_HOST_1 = 1 ∧ variant_rae TELEMETRY_TYPE_HOST_1 = 0 ∧
      variant_lsp TELEMETRY_TYPE_CONTROLLER = 0 ∧ variant_rae TELEMETRY_TYPE_CONTROLLER = 1) := by
  obtain ⟨hh1, hh2⟩ := header_fetch_parameters env t ht
  refine ⟨?_, ?_, by decide⟩
  · unfold get_telemetry_dump
    simp only []
    split
    · exact hh1
    · split
      · exact hh1
      · rw [List.filter_append, List.map_append, hh1,
          (extract_dump_read_parameters _ _ _ _ _ _ _ _ _ _ _).1]
        rfl
  · unfold get_telemetry_dump
    simp only []
    split
    · rw [hh2]; rfl
    · split
      · rw [hh2]; rfl
      · rw [List.filter_append, hh2, List.nil_append]
        exact (extract_dump_read_parameters _ _ _ _ _ _ _ _ _ _ _).2

/-- C16 witness: the host sub-index 1 extraction of a 1024-byte area: header
fetch with lsp = 1 and retain = false, chunk read with lsp = 0. -/
theorem telemetry_read_parameters_witness :
    ((get_telemetry_dump (headerEnv header_2_5_5) "" "SN" TELEMETRY_TYPE_HOST_1 1 true).2.filter
        Event.isHeaderFetch).map Event.lsp_rae
      = [some (variant_lsp TELEMETRY_TYPE_HOST_1,
          decide (variant_rae TELEMETRY_TYPE_HOST_1 ≠ 0))] ∧
    ((get_telemetry_dump (headerEnv header_2_5_5) "" "SN" TELEMETRY_TYPE_HOST_1 1 true).2.filter
        Event.isChunkRead).all
      (fun ev => ev.lsp_rae == some (0, decide (variant_rae TELEMETRY_TYPE_HOST_1 ≠ 0)))
      = true :=
  ⟨(telemetry_read_parameters (headerEnv header_2_5_5) "" "SN" TELEMETRY_TYPE_HOST_1 1 true
      (Or.inr (Or.inl rfl))).1,
    (telemetry_read_parameters (headerEnv header_2_5_5) "" "SN" TELEMETRY_TYPE_HOST_1 1 true
      (Or.inr (Or.inl rfl))).2.1⟩


/-- C19 (evaluated): `get_fw_activation_history_data` always issues the Arm
send right after the Reset send, whatever the Reset returned.  With Reset
returning 5 and the two other exchanges succeeding, it issues all three
commands and returns 0.  (A failing Arm, status 7, does end the sequence
before the Receive.) -/
theorem fw_history_reset_status_unused (w : SecurityWorld) (Buf : List Nat) (BufSize : Nat) :
    (get_fw_activation_history_data w Buf BufSize).2.1.take 2
      = [Event.nvme_sec_send 0x1003 0xFC 4 [0, 0, 0, 0] w.resetRes,
         Event.nvme_sec_send 0x1012 0xFC 16
           [0, 0, 0, 0, 0xD, 0, 0, 0, 0, 0, 0, 0, 0, 0, 0, 0] w.armRes] ∧
    (SecurityCMDReset (securityWorld 5 0 0)).1 = 5 ∧
    (get_fw_activation_history_data (securityWorld 5 0 0) (List.replicate 8 0) 8).1 = 0 ∧
    (get_fw_activation_history_data (securityWorld 5 0 0) (List.replicate 8 0) 8).2.1
      = [Event.nvme_sec_send 0x1003 0xFC 4 [0, 0, 0, 0] 5,
         Event.nvme_sec_send 0x1012 0xFC 16
           [0, 0, 0, 0, 0xD, 0, 0, 0, 0, 0, 0, 0, 0, 0, 0, 0] 0,
         Event.nvme_sec_recv 0x1012 0xFC 8 0] ∧
    get_fw_activation_history_data (securityWorld 0 7 0) (List.replicate 8 0) 8
      = (7, [Event.nvme_sec_send 0x1003 0xFC 4 [0, 0, 0, 0] 0,
             Event.nvme_sec_send 0x1012 0xFC 16
               [0, 0, 0, 0, 0xD, 0, 0, 0, 0, 0, 0, 0, 0, 0, 0, 0] 7],
          List.replicate 8 0) := by
  refine ⟨?_, by decide, by decide, by decide, by decide⟩
  unfold get_fw_activation_history_data SecurityCMDReset
  simp only []
  split_ifs <;> rfl

/-- C21 (evaluated): with a caller-supplied name the path built by
`get_and_save_fw_activation_history_path` is that name followed by
"_s_FWActivationHistory.json", whatever the feature name.  For feature name
"fw" and name "out" it is "out_s_FWActivationHistory.json": it is not
"fw_out_FWActivationHistory.json" and does not start with "fw".  Without a
name, the path is the feature name, "_", the characters of the serial number
left by the stripping loop, and the suffix; for the serial number "SN123" it
is "fw_SN123_FWActivationHistory.json". -/
theorem fw_history_path_drops_feature_name (w : SecurityWorld) (featureName name : String) :
    get_and_save_fw_activation_history_path w featureName (some name)
      = (0, [], name ++ "_s_FWActivationHistory.json") ∧
    (get_and_save_fw_activation_history_path (securityWorld 0 0 0) "fw" (some "out")).2.2
      = "out_s_FWActivationHistory.json" ∧
    (get_and_save_fw_activation_history_path (securityWorld 0 0 0) "fw" (some "out")).2.2
      ≠ "fw" ++ "_" ++ "out" ++ "_FWActivationHistory.json" ∧
    (get_and_save_fw_activation_history_path (securityWorld 0 0 0) "fw"
        (some "out")).2.2.toList.take "fw".length ≠ "fw".toList ∧
    (w.identify.1 = 0 →
      (get_and_save_fw_activation_history_path w featureName none).2.2
        = featureName ++ "_"
          ++ c_string ((strip_sn_loop 20 19 (fillBuf 20 w.identify.2)).take 20)
          ++ "_FWActivationHistory.json") ∧
    (get_and_save_fw_activation_history_path (securityWorld 0 0 0) "fw" none).2.2
      = "fw_SN123_FWActivationHistory.json" := by
  refine ⟨rfl, by decide, by decide, by decide, ?_, by decide⟩
  intro h
  simp [get_and_save_fw_activation_history_path, h]

theorem le_bytes_lt (d : List Nat) (n : Nat) : ∀ off, le_bytes d off n < 256 ^ n := by
  induction n with
  | zero => intro off; simp [le_bytes]
  | succ n ih =>
    intro off
    have h1 := ih (off + 1)
    have h2 : u8 d off < 256 := Nat.mod_lt _ (by decide)
    simp only [le_bytes, pow_succ]
    nlinarith

theorem le_bytes_mod (d : List Nat) (n m : Nat) : ∀ off,
    le_bytes d off (n + m) % 256 ^ n = le_bytes d off n := by
  induction n with
  | zero => intro off; simp [le_bytes, Nat.mod_one]
  | succ n ih =>
    intro off
    have h2 : u8 d off < 256 := Nat.mod_lt _ (by decide)
    rw [show n + 1 + m = (n + m) + 1 by omega]
    simp only [le_bytes, pow_succ]
    rw [← ih (off + 1), show 256 ^ n * 256 = 256 * 256 ^ n by ring, Nat.mod_mul,
      Nat.add_mul_mod_self_left, Nat.mod_eq_of_lt h2, Nat.add_mul_div_left _ _ (by decide),
      Nat.div_eq_of_lt h2, Nat.zero_add]

theorem le_bytes_byte (d : List Nat) (k : Nat) : ∀ off w, k < w →
    le_bytes d off w / 256 ^ k % 256 = u8 d (off + k) := by
  induction k with
  | zero =>
    intro off w hw
    obtain ⟨w, rfl⟩ := Nat.exists_eq_succ_of_ne_zero (by omega : w ≠ 0)
    have h2 : u8 d off < 256 := Nat.mod_lt _ (by decide)
    simp only [le_bytes, pow_zero, Nat.div_one, Nat.add_zero, Nat.add_mul_mod_self_left,
      Nat.mod_eq_of_lt h2]
  | succ k ih =>
    intro off w hw
    obtain ⟨w, rfl⟩ := Nat.exists_eq_succ_of_ne_zero (by omega : w ≠ 0)
    have h2 : u8 d off < 256 := Nat.mod_lt _ (by decide)
    simp only [le_bytes]
    rw [pow_succ, show 256 ^ k * 256 = 256 * 256 ^ k by ring, ← Nat.div_div_eq_div_mul,
      Nat.add_mul_div_left _ _ (by decide), Nat.div_eq_of_lt h2, Nat.zero_add,
      ih (off + 1) w (by omega)]
    congr 1
    omega

theorem le_bytes_byte_at (d : List Nat) (off w i : Nat) (h1 : off ≤ i) (h2 : i < off + w) :
    le_bytes d off w / 256 ^ (i - off) % 256 = u8 d i := by
  rw [le_bytes_byte d (i - off) off w (by omega)]
  congr 1
  omega

theorem le_bytes_eq_sum (d : List Nat) (n : Nat) : ∀ off,
    le_bytes d off n = ∑ k in Finset.range n, u8 d (off + k) * 256 ^ k := by
  induction n with
  | zero => intro off; simp [le_bytes]
  | succ n ih =>
    intro off
    rw [Finset.sum_range_succ', le_bytes, ih (off + 1), Finset.mul_sum]
    simp only [pow_zero, mul_one, Nat.add_zero]
    rw [Nat.add_comm]
    congr 1
    apply Finset.sum_congr rfl
    intro k _
    rw [show off + 1 + k = off + (k + 1) by omega, pow_succ]
    ring

theorem le_bytes_mask64 (d : List Nat) (off : Nat) :
    le_bytes d off 8 &&& 0xFFFFFFFFFFFFFFFF = le_bytes d off 8 := by
  have h := le_bytes_lt d 8 off
  rw [show (0xFFFFFFFFFFFFFFFF : Nat) = 2 ^ 64 - 1 by norm_num, Nat.and_pow_two_sub_one_eq_mod]
  exact Nat.mod_eq_of_lt (by simpa using h)

theorem le_bytes_mask48 (d : List Nat) (off : Nat) :
    le_bytes d off 8 &&& 0x0000FFFFFFFFFFFF = le_bytes d off 6 := by
  rw [show (0x0000FFFFFFFFFFFF : Nat) = 2 ^ 48 - 1 by norm_num, Nat.and_pow_two_sub_one_eq_mod,
    show (2 : Nat) ^ 48 = 256 ^ 6 by norm_num]
  exact le_bytes_mod d 6 2 off

theorem le_bytes_mask56 (d : List Nat) (off : Nat) :
    le_bytes d off 8 &&& 0x00FFFFFFFFFFFFFF = le_bytes d off 7 := by
  rw [show (0x00FFFFFFFFFFFFFF : Nat) = 2 ^ 56 - 1 by norm_num, Nat.and_pow_two_sub_one_eq_mod,
    show (2 : Nat) ^ 56 = 256 ^ 7 by norm_num]
  exact le_bytes_mod d 7 1 off

theorem excess_bits_of_lt (fuel x : Nat) (h : x < 2 ^ 64) : excess_bits fuel x = 0 := by
  cases fuel with
  | zero => rfl
  | succ n => rw [excess_bits, if_pos h]

theorem round_long_double_of_lt (x : Nat) (h : x < 2 ^ 64) : round_long_double x = x := by
  unfold round_long_double
  simp only [excess_bits_of_lt 128 x h, pow_zero, Nat.mod_one, Nat.div_one, mul_zero, mul_one]
  simp

/-- The excess of `x`, when the bound is large enough: the quotient fits 64
bits and, when `x` does not, has its top bit set. -/
theorem excess_bits_spec (fuel : Nat) : ∀ x, x < 2 ^ (64 + fuel) →
    x / 2 ^ excess_bits fuel x < 2 ^ 64 ∧
    (2 ^ 64 ≤ x → 1 ≤ excess_bits fuel x ∧ 2 ^ 63 ≤ x / 2 ^ excess_bits fuel x) := by
  induction fuel with
  | zero =>
    intro x hx
    simp only [excess_bits, pow_zero, Nat.div_one, Nat.add_zero] at hx ⊢
    exact ⟨hx, fun h => absurd hx (not_lt.mpr h)⟩
  | succ n ih =>
    intro x hx
    by_cases h : x < 2 ^ 64
    · rw [excess_bits, if_pos h]
      simp only [pow_zero, Nat.div_one]
      exact ⟨h, fun h2 => absurd h (not_lt.mpr h2)⟩
    · rw [excess_bits, if_neg h]
      have hx2 : x / 2 < 2 ^ (64 + n) := by
        rw [Nat.div_lt_iff_lt_mul (by decide)]
        calc x < 2 ^ (64 + (n + 1)) := hx
          _ = 2 ^ (64 + n) * 2 := by rw [← Nat.add_assoc, pow_succ]
      obtain ⟨a, b⟩ := ih (x / 2) hx2
      have hdiv : x / 2 ^ (1 + excess_bits n (x / 2)) = x / 2 / 2 ^ excess_bits n (x / 2) := by
        rw [pow_add, pow_one, Nat.div_div_eq_div_mul]
      rw [hdiv]
      refine ⟨a, fun _ => ⟨by omega, ?_⟩⟩
      by_cases h2 : 2 ^ 64 ≤ x / 2
      · exact (b h2).2
      · have h3 : x / 2 < 2 ^ 64 := not_le.mp h2
        rw [excess_bits_of_lt n _ h3]
        simp only [pow_zero, Nat.div_one]
        have : (2 : Nat) ^ 64 = 2 * 2 ^ 63 := by norm_num
        omega

theorem round_long_double_spec (x : Nat) (h1 : 2 ^ 64 ≤ x) (h2 : x < 2 ^ 192) :
    Rounded (round_long_double x) x := by
  obtain ⟨a, b⟩ := excess_bits_spec 128 x (by simpa using h2)
  obtain ⟨hs, hq⟩ := b h1
  have hP : 2 ≤ 2 ^ excess_bits 128 x := by
    calc 2 = 2 ^ 1 := by norm_num
      _ ≤ 2 ^ excess_bits 128 x := Nat.pow_le_pow_right (by decide) hs
  have hx := Nat.div_add_mod x (2 ^ excess_bits 128 x)
  have hr : x % 2 ^ excess_bits 128 x < 2 ^ excess_bits 128 x := Nat.mod_lt _ (by omega)
  have hlow : 2 ^ 63 * 2 ^ excess_bits 128 x
      ≤ x / 2 ^ excess_bits 128 x * 2 ^ excess_bits 128 x := Nat.mul_le_mul_right _ hq
  have hsucc : (x / 2 ^ excess_bits 128 x + 1) * 2 ^ excess_bits 128 x
      = x / 2 ^ excess_bits 128 x * 2 ^ excess_bits 128 x + 2 ^ excess_bits 128 x := by ring
  have hcomm : 2 ^ excess_bits 128 x * (x / 2 ^ excess_bits 128 x)
      = x / 2 ^ excess_bits 128 x * 2 ^ excess_bits 128 x := Nat.mul_comm _ _
  unfold round_long_double
  simp only []
  generalize excess_bits 128 x = s at *
  generalize hP' : 2 ^ s = P at *
  generalize x / P = q at *
  generalize x % P = r at *
  generalize hT : q * P = T at *
  split_ifs with c1 c2
  · exact ⟨q, s, hs, hq, by omega, by rw [hP', hT], by rw [hP']; omega, by rw [hP']; omega,
      by rw [hP']; omega⟩
  · exact ⟨q, s, hs, hq, by omega, by rw [hP', hT], by rw [hP']; omega, by rw [hP']; omega,
      by rw [hP']; omega⟩
  · exact ⟨q + 1, s, hs, by omega, by omega, by rw [hP', hsucc], by rw [hP']; omega,
      by rw [hP']; omega, by rw [hP']; omega⟩

theorem bits_unique (x a b : Nat) (ha1 : 2 ^ 63 * 2 ^ a ≤ x) (ha2 : x < 2 ^ 64 * 2 ^ a)
    (hb1 : 2 ^ 63 * 2 ^ b ≤ x) (hb2 : x < 2 ^ 64 * 2 ^ b) : a = b := by
  have h64 : (2 : Nat) ^ 64 = 2 ^ 63 * 2 := by norm_num
  rcases lt_trichotomy a b with h | h | h
  · exfalso
    have : 2 ^ (a + 1) ≤ 2 ^ b := Nat.pow_le_pow_right (by decide) h
    rw [pow_succ] at this
    have h3 : 2 ^ 63 * (2 ^ a * 2) ≤ 2 ^ 63 * 2 ^ b := Nat.mul_le_mul_left _ this
    have h4 : 2 ^ 64 * 2 ^ a = 2 ^ 63 * (2 ^ a * 2) := by rw [h64]; ring
    omega
  · exact h
  · exfalso
    have : 2 ^ (b + 1) ≤ 2 ^ a := Nat.pow_le_pow_right (by decide) h
    rw [pow_succ] at this
    have h3 : 2 ^ 63 * (2 ^ b * 2) ≤ 2 ^ 63 * 2 ^ a := Nat.mul_le_mul_left _ this
    have h4 : 2 ^ 64 * 2 ^ b = 2 ^ 63 * (2 ^ b * 2) := by rw [h64]; ring
    omega

/-- A byte added to a value whose 64 significant bits end at bit 9 or above is
rounded away. -/
theorem round_long_double_absorb (k e b : Nat) (he : 9 ≤ e) (hk1 : 2 ^ 63 ≤ k)
    (hk2 : k < 2 ^ 64) (hb : b < 256) (hx : k * 2 ^ e + b < 2 ^ 192) :
    round_long_double (k * 2 ^ e + b) = k * 2 ^ e := by
  have hE : 512 ≤ 2 ^ e := by
    calc 512 = 2 ^ 9 := by norm_num
      _ ≤ 2 ^ e := Nat.pow_le_pow_right (by decide) he
  have hbig : 2 ^ 64 ≤ k * 2 ^ e + b := by
    have : 2 ^ 63 * 512 ≤ k * 2 ^ e := Nat.mul_le_mul hk1 hE
    have h64 : (2 : Nat) ^ 64 ≤ 2 ^ 63 * 512 := by norm_num
    omega
  obtain ⟨a, c⟩ := excess_bits_spec 128 (k * 2 ^ e + b) (by simpa using hx)
  obtain ⟨hs, hq⟩ := c hbig
  have hposs : 0 < 2 ^ excess_bits 128 (k * 2 ^ e + b) := by positivity
  have hs_eq : excess_bits 128 (k * 2 ^ e + b) = e := by
    apply bits_unique (k * 2 ^ e + b)
    · calc 2 ^ 63 * 2 ^ excess_bits 128 (k * 2 ^ e + b)
          ≤ (k * 2 ^ e + b) / 2 ^ excess_bits 128 (k * 2 ^ e + b)
              * 2 ^ excess_bits 128 (k * 2 ^ e + b) := Nat.mul_le_mul_right _ hq
        _ ≤ k * 2 ^ e + b := Nat.div_mul_le_self _ _
    · exact (Nat.div_lt_iff_lt_mul hposs).mp a
    · have : 2 ^ 63 * 2 ^ e ≤ k * 2 ^ e := Nat.mul_le_mul_right _ hk1
      omega
    · have : (k + 1) * 2 ^ e ≤ 2 ^ 64 * 2 ^ e := Nat.mul_le_mul_right _ hk2
      have h2 : (k + 1) * 2 ^ e = k * 2 ^ e + 2 ^ e := by ring
      omega
  have hdiv : (k * 2 ^ e + b) / 2 ^ e = k := by
    rw [Nat.add_comm, Nat.add_mul_div_right _ _ (by positivity), Nat.div_eq_of_lt (by omega),
      Nat.zero_add]
  have hmod : (k * 2 ^ e + b) % 2 ^ e = b := by
    rw [Nat.add_comm, Nat.add_mul_mod_self_right, Nat.mod_eq_of_lt (by omega)]
  unfold round_long_double
  simp only [hs_eq, hdiv, hmod]
  rw [if_pos (by omega)]

theorem rounded_absorb (R V b : Nat) (h : Rounded R V) (hb : b < 256) (hV : V < 2 ^ 120) :
    Rounded (round_long_double (R * 256 + b)) (V * 256 + b) := by
  obtain ⟨k, s, hs, hk1, hk2, hR, hlow, hup, hdn⟩ := h
  have hP : 2 ≤ 2 ^ s := by
    calc 2 = 2 ^ 1 := by norm_num
      _ ≤ 2 ^ s := Nat.pow_le_pow_right (by decide) hs
  have hRV : R ≤ 2 * V := by
    have : 2 ^ s ≤ 2 ^ 63 * 2 ^ s := Nat.le_mul_of_pos_left _ (by positivity)
    omega
  have hx : R * 256 + b < 2 ^ 192 := by
    have : (2 : Nat) ^ 120 * 512 + 256 ≤ 2 ^ 192 := by norm_num
    omega
  have hs8 : 2 ^ (s + 8) = 2 ^ s * 256 := by rw [pow_add]; norm_num
  have hs9 : 2 ^ (s + 9) = 2 ^ s * 512 := by rw [pow_add]; norm_num
  have hround : round_long_double (R * 256 + b) = R * 256 := by
    rcases Nat.lt_or_ge k (2 ^ 64) with hk | hk
    · have e1 : R * 256 = k * 2 ^ (s + 8) := by rw [hR, hs8]; ring
      rw [e1] at hx ⊢
      exact round_long_double_absorb k (s + 8) b (by omega) hk1 hk hb hx
    · have hk64 : k = 2 ^ 64 := le_antisymm hk2 hk
      have e1 : R * 256 = 2 ^ 63 * 2 ^ (s + 9) := by rw [hR, hs9, hk64]; ring
      rw [e1] at hx ⊢
      exact round_long_double_absorb (2 ^ 63) (s + 9) b (by omega) (le_refl _) (by norm_num) hb hx
  rw [hround]
  refine ⟨k, s + 8, by omega, hk1, hk2, by rw [hR, hs8]; ring, ?_, ?_, ?_⟩
  · rw [hs8]
    have : 2 ^ 63 * (2 ^ s * 256) = 2 ^ 63 * 2 ^ s * 256 := by ring
    omega
  · rw [hs8]; omega
  · rw [hs8]; omega

/-- The accumulator and the exact value after one more byte. -/
theorem long_double_step (j R V b : Nat) (hj : j ≤ 15) (hV : V < 2 ^ (8 * j)) (hb : b < 256)
    (h : (V < 2 ^ 64 ∧ R = V) ∨ Rounded R V) :
    V * 256 + b < 2 ^ (8 * (j + 1)) ∧
    ((V * 256 + b < 2 ^ 64 ∧ round_long_double (R * 256 + b) = V * 256 + b)
      ∨ Rounded (round_long_double (R * 256 + b)) (V * 256 + b)) := by
  have hpow : 2 ^ (8 * (j + 1)) = 2 ^ (8 * j) * 256 := by
    rw [Nat.mul_add, pow_add]; norm_num
  have h120 : 2 ^ (8 * j) ≤ 2 ^ 120 := Nat.pow_le_pow_right (by decide) (by omega)
  refine ⟨by rw [hpow]; omega, ?_⟩
  rcases h with ⟨hlt, rfl⟩ | h
  · by_cases hx : R * 256 + b < 2 ^ 64
    · exact Or.inl ⟨hx, round_long_double_of_lt _ hx⟩
    · refine Or.inr (round_long_double_spec _ (not_lt.mp hx) ?_)
      have : (2 : Nat) ^ 64 * 256 + 256 ≤ 2 ^ 192 := by norm_num
      omega
  · exact Or.inr (rounded_absorb R V b h hb (by omega))

theorem long_double_fold (bs : List Nat) : ∀ (j R V : Nat), (∀ b ∈ bs, b < 256) →
    j + bs.length ≤ 16 → V < 2 ^ (8 * j) → ((V < 2 ^ 64 ∧ R = V) ∨ Rounded R V) →
    ((bs.foldl (fun v b => v * 256 + b) V < 2 ^ 64 ∧
        bs.foldl (fun r b => round_long_double (r * 256 + b)) R
          = bs.foldl (fun v b => v * 256 + b) V)
      ∨ Rounded (bs.foldl (fun r b => round_long_double (r * 256 + b)) R)
          (bs.foldl (fun v b => v * 256 + b) V)) := by
  induction bs with
  | nil => intro j R V _ _ _ h; exact h
  | cons b bs ih =>
    intro j R V hb hj hV h
    simp only [List.length_cons] at hj
    obtain ⟨h1, h2⟩ := long_double_step j R V b (by omega) hV
      (hb b (List.mem_cons_self _ _)) h
    exact ih (j + 1) _ _ (fun c hc => hb c (List.mem_cons_of_mem _ hc)) (by omega) h1 h2

/-- `int128_to_double` against the exact little-endian value: equal when the
value fits 64 bits, and never further from it than the value over `2 ^ 63`. -/
theorem int128_to_double_precision (d : List Nat) :
    (le_bytes d 0 16 < 2 ^ 64 → int128_to_double d = le_bytes d 0 16) ∧
    2 ^ 63 * (int128_to_double d - le_bytes d 0 16) ≤ le_bytes d 0 16 ∧
    2 ^ 63 * (le_bytes d 0 16 - int128_to_double d) ≤ le_bytes d 0 16 := by
  have hr : List.range 16 = [0, 1, 2, 3, 4, 5, 6, 7, 8, 9, 10, 11, 12, 13, 14, 15] := by decide
  have hacc : int128_to_double d
      = ((List.range 16).map (fun i => u8 d (15 - i))).foldl
          (fun r b => round_long_double (r * 256 + b)) 0 := by
    unfold int128_to_double
    rw [List.foldl_map]
  have hval : le_bytes d 0 16
      = ((List.range 16).map (fun i => u8 d (15 - i))).foldl (fun v b => v * 256 + b) 0 := by
    simp only [hr, List.map, List.foldl, le_bytes]
    norm_num
    ring
  have h := long_double_fold ((List.range 16).map (fun i => u8 d (15 - i))) 0 0 0
    (fun b hb => by
      obtain ⟨i, _, rfl⟩ := List.mem_map.1 hb
      exact Nat.mod_lt _ (by decide))
    (by simp) (by norm_num) (Or.inl ⟨by norm_num, rfl⟩)
  rw [← hacc, ← hval] at h
  rcases h with ⟨_, he⟩ | ⟨k, s, hs, _, _, _, hlow, hup, hdn⟩
  · rw [he]
    simp
  · have hP : 1 ≤ 2 ^ s := Nat.one_le_two_pow
    have hge : 2 ^ 64 ≤ le_bytes d 0 16 := by
      have : 2 ^ 63 * 2 ≤ 2 ^ 63 * 2 ^ s := Nat.mul_le_mul_left _ (by
        calc 2 = 2 ^ 1 := by norm_num
          _ ≤ 2 ^ s := Nat.pow_le_pow_right (by decide) hs)
      have h64 : (2 : Nat) ^ 64 = 2 ^ 63 * 2 := by norm_num
      omega
    refine ⟨fun hlt => absurd hlt (not_lt.mpr hge), ?_, ?_⟩
    · calc 2 ^ 63 * (int128_to_double d - le_bytes d 0 16)
          ≤ 2 ^ 63 * 2 ^ s := Nat.mul_le_mul_left _ (by omega)
        _ ≤ le_bytes d 0 16 := hlow
    · calc 2 ^ 63 * (le_bytes d 0 16 - int128_to_double d)
          ≤ 2 ^ 63 * 2 ^ s := Nat.mul_le_mul_left _ (by omega)
        _ ≤ le_bytes d 0 16 := hlow

theorem le_bytes_drop (d : List Nat) (off n : Nat) : ∀ k,
    le_bytes (d.drop off) k n = le_bytes d (off + k) n := by
  induction n with
  | zero => intro k; rfl
  | succ n ih =>
    intro k
    simp only [le_bytes]
    rw [u8_drop, ih (k + 1), Nat.add_assoc]

/-- A 128-bit counter whose value fits 64 bits is decoded exactly. -/
theorem int128_to_double_exact (d : List Nat) (off : Nat) (h : le_bytes d off 16 < 2 ^ 64) :
    int128_to_double (d.drop off) = le_bytes d off 16 := by
  have hd := le_bytes_drop d off 16 0
  rw [Nat.add_zero] at hd
  rw [← hd] at h ⊢
  exact (int128_to_double_precision (d.drop off)).1 h

theorem le_bytes_zero_eq_sum (d : List Nat) :
    le_bytes d 0 16 = ∑ i in Finset.range 16, u8 d i * 256 ^ i := by
  simpa using le_bytes_eq_sum d 16 0

set_option maxRecDepth 100000 in
/-- C10 (counterexample): sixteen bytes 0xFF, whose little-endian value is
`2 ^ 128 - 1`, decode to `2 ^ 128`; and the sixteen bytes of `2 ^ 64 + 1`
(byte 0 = 1, byte 8 = 1) decode to `2 ^ 64`. -/
theorem int128_to_double_rounds_counterexample :
    (∑ i in Finset.range 16, u8 (List.replicate 16 0xFF) i * 256 ^ i) = 2 ^ 128 - 1 ∧
    int128_to_double (List.replicate 16 0xFF) = 2 ^ 128 ∧
    (∑ i in Finset.range 16,
      u8 [1, 0, 0, 0, 0, 0, 0, 0, 1, 0, 0, 0, 0, 0, 0, 0] i * 256 ^ i) = 2 ^ 64 + 1 ∧
    int128_to_double [1, 0, 0, 0, 0, 0, 0, 0, 1, 0, 0, 0, 0, 0, 0, 0] = 2 ^ 64 := by
  refine ⟨?_, by decide, ?_, by decide⟩
  · rw [← le_bytes_zero_eq_sum]; decide
  · rw [← le_bytes_zero_eq_sum]; decide

set_option maxRecDepth 100000 in
/-- C10 (amended): with `v` the little-endian unsigned value of the sixteen
bytes, the sum of `d[i] * 256 ^ i` for `i` in 0..15, `int128_to_double` returns
exactly `v` whenever `v` is below `2 ^ 64`, and for every input a value that
differs from `v` by at most `v / 2 ^ 63`; the bytes `[1, 0, ..., 0]` give 1,
sixteen bytes 0xFF give `2 ^ 128`, and the bytes of `2 ^ 100` give `2 ^ 100`. -/
theorem int128_to_double_little_endian (d : List Nat) :
    ((∑ i in Finset.range 16, u8 d i * 256 ^ i) < 2 ^ 64 →
      int128_to_double d = ∑ i in Finset.range 16, u8 d i * 256 ^ i) ∧
    2 ^ 63 * (int128_to_double d - ∑ i in Finset.range 16, u8 d i * 256 ^ i)
      ≤ ∑ i in Finset.range 16, u8 d i * 256 ^ i ∧
    2 ^ 63 * ((∑ i in Finset.range 16, u8 d i * 256 ^ i) - int128_to_double d)
      ≤ ∑ i in Finset.range 16, u8 d i * 256 ^ i ∧
    int128_to_double (1 :: List.replicate 15 0) = 1 ∧
    int128_to_double (List.replicate 16 0xFF) = 2 ^ 128 ∧
    int128_to_double [0, 0, 0, 0, 0, 0, 0, 0, 0, 0, 0, 0, 16, 0, 0, 0] = 2 ^ 100 := by
  rw [← le_bytes_zero_eq_sum]
  obtain ⟨h1, h2, h3⟩ := int128_to_double_precision d
  exact ⟨h1, h2, h3, by decide, by decide, by decide⟩

theorem u8_eq_le_bytes (d : List Nat) (off : Nat) : u8 d off = le_bytes d off 1 := by
  simp [le_bytes]

theorem put_le_length (w : Nat) : ∀ (buf : List Nat) (off v : Nat),
    (put_le buf off w v).length = buf.length := by
  induction w with
  | zero => intro buf off v; rfl
  | succ w ih => intro buf off v; simp [put_le, ih]

theorem u8_set (buf : List Nat) (off x i : Nat) (h : off < buf.length) :
    u8 (buf.set off x) i = if i = off then x % 256 else u8 buf i := by
  unfold u8
  by_cases hi : i = off
  · subst hi
    simp [List.getD_eq_getElem?_getD, h]
  · simp [List.getD_eq_getElem?_getD, hi, List.getElem?_set_ne (Ne.symm hi)]

theorem u8_put_le (w : Nat) : ∀ (buf : List Nat) (off v i : Nat), off + w ≤ buf.length →
    u8 (put_le buf off w v) i
      = if off ≤ i ∧ i < off + w then v / 256 ^ (i - off) % 256 else u8 buf i := by
  induction w with
  | zero =>
    intro buf off v i _
    rw [if_neg (by omega)]
    rfl
  | succ w ih =>
    intro buf off v i h
    simp only [put_le]
    rw [ih _ _ _ _ (by simp; omega), u8_set _ _ _ _ (by omega)]
    by_cases h1 : off + 1 ≤ i ∧ i < off + 1 + w
    · rw [if_pos h1, if_pos (by omega)]
      obtain ⟨k, rfl⟩ : ∃ k, i = off + 1 + k := ⟨i - (off + 1), by omega⟩
      rw [show off + 1 + k - (off + 1) = k by omega, show off + 1 + k - off = k + 1 by omega,
        pow_succ, show 256 ^ k * 256 = 256 * 256 ^ k by ring, Nat.div_div_eq_div_mul]
    · rw [if_neg h1]
      by_cases h0 : i = off
      · subst h0
        simp
      · rw [if_neg h0, if_neg (by omega)]

theorem reencode_untouched (fields : List (Nat × Nat)) : ∀ (values buf : List Nat) (i : Nat),
    (∀ f ∈ fields, f.1 + f.2 ≤ buf.length) →
    (∀ f ∈ fields, ¬ (f.1 ≤ i ∧ i < f.1 + f.2)) →
    u8 (reencode fields values buf) i = u8 buf i := by
  induction fields with
  | nil => intro values buf i _ _; simp [reencode]
  | cons f fs ih =>
    intro values buf i hb hn
    cases values with
    | nil => simp [reencode]
    | cons v vs =>
      have := ih vs (put_le buf f.1 f.2 v) i
        (fun g hg => by rw [put_le_length]; exact hb g (List.mem_cons_of_mem _ hg))
        (fun g hg => hn g (List.mem_cons_of_mem _ hg))
      simp only [reencode, List.zip_cons_cons, List.foldl_cons] at this ⊢
      rw [this, u8_put_le _ _ _ _ _ (hb f (List.mem_cons_self _ _)),
        if_neg (hn f (List.mem_cons_self _ _))]

/-- Writing values back at pairwise disjoint fields: every byte of a field
holds the corresponding byte of the value written there. -/
theorem reencode_field (fields : List (Nat × Nat)) : ∀ (values buf : List Nat),
    (∀ f ∈ fields, f.1 + f.2 ≤ buf.length) →
    fields.Pairwise (fun f g => f.1 + f.2 ≤ g.1 ∨ g.1 + g.2 ≤ f.1) →
    ∀ p ∈ fields.zip values, ∀ i, p.1.1 ≤ i → i < p.1.1 + p.1.2 →
      u8 (reencode fields values buf) i = p.2 / 256 ^ (i - p.1.1) % 256 := by
  induction fields with
  | nil => intro values buf _ _ p hp; simp at hp
  | cons f fs ih =>
    intro values buf hb hd p hp i h1 h2
    cases values with
    | nil => simp at hp
    | cons v vs =>
      rw [List.pairwise_cons] at hd
      simp only [List.zip_cons_cons, List.mem_cons] at hp
      have hstep : reencode (f :: fs) (v :: vs) buf = reencode fs vs (put_le buf f.1 f.2 v) := by
        simp [reencode]
      rw [hstep]
      rcases hp with rfl | hp
      · rw [reencode_untouched fs vs _ i
          (fun g hg => by rw [put_le_length]; exact hb g (List.mem_cons_of_mem _ hg))
          (fun g hg => by have := hd.1 g hg; simp only at h1 h2; omega),
          u8_put_le _ _ _ _ _ (hb _ (List.mem_cons_self _ _)), if_pos ⟨h1, h2⟩]
      · exact ih vs _ (fun g hg => by rw [put_le_length]; exact hb g (List.mem_cons_of_mem _ hg))
          hd.2 p hp i h1 h2

/-- Every printed value of the capacity page, cut into bytes, gives back the
bytes of its field, the second byte of the Point and of the Minor Version
Field apart, and a 128-bit counter provided its value fits 64 bits. -/
theorem c0_decoded_bytes (data : List Nat) :
    ∀ p ∈ (c0_fields data).zip (c0_decoded data), ∀ i, p.1.1 ≤ i → i < p.1.1 + p.1.2 →
      i ≠ 100 → i ≠ 102 →
      (160 ≤ i → i < 176 → le_bytes data 160 16 < 2 ^ 64) →
      (176 ≤ i → i < 192 → le_bytes data 176 16 < 2 ^ 64) →
      p.2 / 256 ^ (i - p.1.1) % 256 = u8 data i := by
  intro p hp i h1 h2 n100 n102 hpsc heest
  by_cases hv : le16_to_cpu data SCAO_LPV > 2
  · simp only [c0_fields, c0_decoded, ocp_print_C0_log_normal, hv, if_true, c0_fields_base,
      c0_fields_extended, List.cons_append, List.nil_append, List.flatMap_cons,
      List.flatMap_nil, List.zip_cons_cons, List.zip_nil_right, List.mem_cons,
      List.mem_singleton, List.not_mem_nil, or_false] at hp
    simp only [le_bytes_mask64, le_bytes_mask48, le_bytes_mask56,
      Nat.reduceAdd, le16_to_cpu, le32_to_cpu, le64_to_cpu, u8_eq_le_bytes,
      SCAO_PMUW, SCAO_PMUR, SCAO_BUNBR, SCAO_BUNBN,
      SCAO_BSNBR, SCAO_BSNBN, SCAO_XRC, SCAO_UREC, SCAO_SEEC, SCAO_EECE, SCAO_EEDC, SCAO_SDPU,
      SCAO_RFSC, SCAO_MXUDEC, SCAO_MNUDEC, SCAO_NTTE, SCAO_CTS, SCAO_EVF, SCAO_PVF, SCAO_MIVF,
      SCAO_MAVF, SCAO_PCEC, SCAO_ICS, SCAO_PFB, SCAO_CPH, SCAO_NEV, SCAO_UIO, SCAO_SVN,
      SCAO_NUSE, SCAO_PSC, SCAO_EEST, SCAO_PLRC, SCAO_LPV, SCAO_LPG] at hp
    rcases hp with
      rfl | rfl | rfl | rfl | rfl | rfl | rfl | rfl | rfl | rfl | rfl | rfl | rfl |
      rfl | rfl | rfl | rfl | rfl | rfl | rfl | rfl | rfl | rfl | rfl | rfl | rfl |
      rfl | rfl | rfl | rfl | rfl | rfl | rfl | rfl | rfl | rfl | rfl
    all_goals dsimp only at h1 h2 ⊢
    all_goals first
      | (rw [int128_to_double_exact data 160 (hpsc h1 (by omega))]
         exact le_bytes_byte_at _ _ _ _ h1 h2)
      | (rw [int128_to_double_exact data 176 (heest h1 (by omega))]
         exact le_bytes_byte_at _ _ _ _ h1 h2)
      | exact le_bytes_byte_at _ _ _ _ h1 h2
      | exact le_bytes_byte_at _ _ _ _ h1 (by omega)
  · simp only [c0_fields, c0_decoded, ocp_print_C0_log_normal, hv, if_false, c0_fields_base,
      c0_fields_extended, List.cons_append, List.nil_append, List.append_nil, List.flatMap_cons,
      List.flatMap_nil, List.zip_cons_cons, List.zip_nil_right, List.mem_cons,
      List.mem_singleton, List.not_mem_nil, or_false] at hp
    simp only [le_bytes_mask64, le_bytes_mask48, le_bytes_mask56,
      Nat.reduceAdd, le16_to_cpu, le32_to_cpu, le64_to_cpu, u8_eq_le_bytes,
      SCAO_PMUW, SCAO_PMUR, SCAO_BUNBR, SCAO_BUNBN,
      SCAO_BSNBR, SCAO_BSNBN, SCAO_XRC, SCAO_UREC, SCAO_SEEC, SCAO_EECE, SCAO_EEDC, SCAO_SDPU,
      SCAO_RFSC, SCAO_MXUDEC, SCAO_MNUDEC, SCAO_NTTE, SCAO_CTS, SCAO_EVF, SCAO_PVF, SCAO_MIVF,
      SCAO_MAVF, SCAO_PCEC, SCAO_ICS, SCAO_PFB, SCAO_CPH, SCAO_NEV, SCAO_UIO, SCAO_SVN,
      SCAO_NUSE, SCAO_PSC, SCAO_EEST, SCAO_PLRC, SCAO_LPV, SCAO_LPG] at hp
    rcases hp with
      rfl | rfl | rfl | rfl | rfl | rfl | rfl | rfl | rfl | rfl | rfl | rfl | rfl |
      rfl | rfl | rfl | rfl | rfl | rfl | rfl | rfl | rfl | rfl | rfl | rfl | rfl |
      rfl | rfl | rfl | rfl | rfl
    all_goals dsimp only at h1 h2 ⊢
    all_goals first
      | (rw [int128_to_double_exact data 160 (hpsc h1 (by omega))]
         exact le_bytes_byte_at _ _ _ _ h1 h2)
      | (rw [int128_to_double_exact data 176 (heest h1 (by omega))]
         exact le_bytes_byte_at _ _ _ _ h1 h2)
      | exact le_bytes_byte_at _ _ _ _ h1 h2

theorem c0_fields_cases (data : List Nat) :
    c0_fields data = c0_fields_base ∨ c0_fields data = c0_fields_base ++ c0_fields_extended := by
  unfold c0_fields
  split
  · exact Or.inr rfl
  · exact Or.inl (List.append_nil _)

theorem c0_fields_in_bounds (data : List Nat) :
    ∀ f ∈ c0_fields data, f.1 + f.2 ≤ 512 := by
  rcases c0_fields_cases data with h | h <;> rw [h] <;> decide

theorem c0_fields_disjoint (data : List Nat) :
    (c0_fields data).Pairwise (fun f g => f.1 + f.2 ≤ g.1 ∨ g.1 + g.2 ≤ f.1) := by
  rcases c0_fields_cases data with h | h <;> rw [h] <;> decide

theorem c0_decoded_length (data : List Nat) :
    (c0_decoded data).length = (c0_fields data).length := by
  unfold c0_decoded c0_fields ocp_print_C0_log_normal
  by_cases hv : le16_to_cpu data SCAO_LPV > 2 <;>
    simp [hv, c0_fields_base, c0_fields_extended]

theorem c0_roundtrip (data : List Nat) (i : Nat) (hc : c0_covered data i = true)
    (n100 : i ≠ 100) (n102 : i ≠ 102)
    (hpsc : 160 ≤ i → i < 176 → le_bytes data 160 16 < 2 ^ 64)
    (heest : 176 ≤ i → i < 192 → le_bytes data 176 16 < 2 ^ 64) :
    u8 (c0_reencode data) i = u8 data i := by
  unfold c0_covered at hc
  rw [List.any_eq_true] at hc
  obtain ⟨f, hf, hcov⟩ := hc
  rw [← List.map_fst_zip (c0_fields data) (c0_decoded data)
    (le_of_eq (c0_decoded_length data).symm)] at hf
  obtain ⟨p, hp, rfl⟩ := List.mem_map.1 hf
  have hcov2 : p.1.1 ≤ i ∧ i < p.1.1 + p.1.2 := by simpa using hcov
  unfold c0_reencode
  rw [reencode_field (c0_fields data) (c0_decoded data) _
    (fun g hg => by rw [List.length_replicate]; exact c0_fields_in_bounds data g hg)
    (c0_fields_disjoint data) p hp i hcov2.1 hcov2.2]
  exact c0_decoded_bytes data p hp i hcov2.1 hcov2.2 n100 n102 hpsc heest

set_option maxRecDepth 100000 in
/-- C22 (evaluated): the values printed by `ocp_print_C0_log_normal`, written
back little-endian at the offset and width of their fields into a zeroed
512-byte buffer, reproduce the byte of the page at every position covered by a
printed field except 100 and 102, the second bytes of the Point and Minor
Version Fields (at a position of a 128-bit counter, 160..175 or 176..191, when
the value of that counter is below `2 ^ 64`: a larger one has been rounded);
for a version of at most 2 the positions 100 and 102 belong to no printed
field.  On the 512-byte page `c0_page_pvf` (correct GUID, version 3, byte 100 =
1, byte 102 = 2, both 128-bit counters zero) both positions are covered by a
field and the bytes written back there are 0. -/
theorem c0_reencode_misses_version_high_bytes (data : List Nat) :
    (c0_decoded data).length = (c0_fields data).length ∧
    (∀ i, c0_covered data i = true → i ≠ 100 → i ≠ 102 →
      (160 ≤ i → i < 176 → le_bytes data SCAO_PSC 16 < 2 ^ 64) →
      (176 ≤ i → i < 192 → le_bytes data SCAO_EEST 16 < 2 ^ 64) →
      u8 (c0_reencode data) i = u8 data i) ∧
    (le16_to_cpu data SCAO_LPV ≤ 2 →
      (c0_covered data 100 = false ∧ c0_covered data 102 = false)) ∧
    (c0_page_pvf.length = 512 ∧ guid_differs scao_guid c0_page_pvf SCAO_LPG = false ∧
      le16_to_cpu c0_page_pvf SCAO_LPV = 3 ∧
      le_bytes c0_page_pvf SCAO_PSC 16 = 0 ∧ le_bytes c0_page_pvf SCAO_EEST 16 = 0) ∧
    (c0_covered c0_page_pvf 100 = true ∧ u8 c0_page_pvf 100 = 1 ∧
      u8 (c0_reencode c0_page_pvf) 100 = 0) ∧
    (c0_covered c0_page_pvf 102 = true ∧ u8 c0_page_pvf 102 = 2 ∧
      u8 (c0_reencode c0_page_pvf) 102 = 0) := by
  refine ⟨c0_decoded_length data,
    fun i hc n100 n102 hpsc heest => c0_roundtrip data i hc n100 n102 hpsc heest, ?_,
    by decide, by decide, by decide⟩
  intro hv
  have hf : c0_fields data = c0_fields_base := by
    unfold c0_fields
    rw [if_neg (by omega)]
    exact List.append_nil _
  unfold c0_covered
  rw [hf]
  decide

theorem c0_version_fields (data : List Nat) (hv : 2 < le16_to_cpu data SCAO_LPV) :
    (ocp_print_C0_log_normal data).lookup "Point Version Field" = some [u8 data 99] ∧
    (ocp_print_C0_log_normal data).lookup "Minor Version Field" = some [u8 data 101] ∧
    (ocp_print_C0_log_json data).lookup "Point Version Field"
      = some (JsonValue.uint (u8 data 99)) ∧
    (ocp_print_C0_log_json data).lookup "Minor Version Field"
      = some (JsonValue.uint (u8 data 101)) := by
  simp only [ocp_print_C0_log_normal, ocp_print_C0_log_json, List.cons_append, List.nil_append,
    List.lookup_cons, String.reduceBEq, gt_iff_lt, hv, if_true, SCAO_PVF, SCAO_MIVF, and_self]

set_option maxRecDepth 100000 in
/-- C23 (evaluated): for a version above 2, both renderings report as Point
Version Field the single byte at offset 99 and as Minor Version Field the
single byte at offset 101; the bytes at 100 and 102 are not read.  On the page
`c0_page_pvf` (correct GUID, version 3) the two-byte little-endian values at
99..100 and 101..102 are 256 and 517, and the values reported are 0 and 5. -/
theorem c0_point_minor_version_one_byte (data : List Nat) :
    (2 < le16_to_cpu data SCAO_LPV →
      ((ocp_print_C0_log_normal data).lookup "Point Version Field" = some [u8 data 99] ∧
       (ocp_print_C0_log_normal data).lookup "Minor Version Field" = some [u8 data 101] ∧
       (ocp_print_C0_log_json data).lookup "Point Version Field"
         = some (JsonValue.uint (u8 data 99)) ∧
       (ocp_print_C0_log_json data).lookup "Minor Version Field"
         = some (JsonValue.uint (u8 data 101)))) ∧
    (guid_differs scao_guid c0_page_pvf SCAO_LPG = false ∧
      le16_to_cpu c0_page_pvf SCAO_LPV = 3) ∧
    (le16_to_cpu c0_page_pvf SCAO_PVF = 256 ∧
      (ocp_print_C0_log_normal c0_page_pvf).lookup "Point Version Field" = some [0] ∧
      (ocp_print_C0_log_json c0_page_pvf).lookup "Point Version Field"
        = some (JsonValue.uint 0)) ∧
    (le16_to_cpu c0_page_pvf SCAO_MIVF = 517 ∧
      (ocp_print_C0_log_normal c0_page_pvf).lookup "Minor Version Field" = some [5] ∧
      (ocp_print_C0_log_json c0_page_pvf).lookup "Minor Version Field"
        = some (JsonValue.uint 5)) :=
  ⟨fun hv => c0_version_fields data hv, by decide, by decide, by decide⟩

theorem c0_normal_lookup_raw (data : List Nat) :
    (ocp_print_C0_log_normal data).lookup "Bad user nand blocks - Raw"
      = some [le_bytes data 32 6] ∧
    (ocp_print_C0_log_normal data).lookup "Bad system nand blocks - Raw"
      = some [le_bytes data 40 6] ∧
    (ocp_print_C0_log_normal data).lookup "Bad user nand blocks - Normalized"
      = some [le_bytes data 38 2] ∧
    (ocp_print_C0_log_normal data).lookup "Bad system nand blocks - Normalized"
      = some [le_bytes data 46 2] := by
  simp only [ocp_print_C0_log_normal, List.cons_append, List.lookup_cons, String.reduceBEq,
    le64_to_cpu, le_bytes_mask48, SCAO_BUNBR, SCAO_BSNBR, SCAO_BUNBN, SCAO_BSNBN, le16_to_cpu,
    and_self]

theorem c0_json_lookup_raw (data : List Nat) :
    (ocp_print_C0_log_json data).lookup "Bad user nand blocks - Raw"
      = some (JsonValue.uint (le_bytes data 32 6)) ∧
    (ocp_print_C0_log_json data).lookup "Bad system nand blocks - Raw"
      = some (JsonValue.uint (le_bytes data 40 6)) ∧
    (ocp_print_C0_log_json data).lookup "Bad user nand blocks - Normalized"
      = some (JsonValue.uint (le_bytes data 38 2)) ∧
    (ocp_print_C0_log_json data).lookup "Bad system nand blocks - Normalized"
      = some (JsonValue.uint (le_bytes data 46 2)) := by
  simp only [ocp_print_C0_log_json, List.cons_append, List.lookup_cons, String.reduceBEq,
    le64_to_cpu, le_bytes_mask48, SCAO_BUNBR, SCAO_BSNBR, SCAO_BUNBN, SCAO_BSNBN, le16_to_cpu,
    and_self]

set_option maxRecDepth 100000 in
/-- C24: in both renderings the raw bad-block count reported for user NAND is
the little-endian value of the six bytes 32..37 and the one for system NAND
that of the six bytes 40..45; both are below `2 ^ 48`; the normalized counts
are reported as the little-endian values of the bytes 38..39 and 46..47; and a
page that differs only in bytes 38, 39, 46, 47 reports the same raw counts.
On the page whose bytes 32..37 are 0xFF the raw count is `2 ^ 48 - 1` whether
the normalized bytes are 0x34, 0x12 (reported as 0x1234) or 0, 0. -/
theorem c0_bad_block_counts (data : List Nat) :
    ((ocp_print_C0_log_normal data).lookup "Bad user nand blocks - Raw"
        = some [∑ k in Finset.range 6, u8 data (32 + k) * 256 ^ k] ∧
      (ocp_print_C0_log_json data).lookup "Bad user nand blocks - Raw"
        = some (JsonValue.uint (∑ k in Finset.range 6, u8 data (32 + k) * 256 ^ k)) ∧
      (ocp_print_C0_log_normal data).lookup "Bad system nand blocks - Raw"
        = some [∑ k in Finset.range 6, u8 data (40 + k) * 256 ^ k] ∧
      (ocp_print_C0_log_json data).lookup "Bad system nand blocks - Raw"
        = some (JsonValue.uint (∑ k in Finset.range 6, u8 data (40 + k) * 256 ^ k))) ∧
    ((∑ k in Finset.range 6, u8 data (32 + k) * 256 ^ k) < 2 ^ 48 ∧
      (∑ k in Finset.range 6, u8 data (40 + k) * 256 ^ k) < 2 ^ 48) ∧
    ((ocp_print_C0_log_normal data).lookup "Bad user nand blocks - Normalized"
        = some [∑ k in Finset.range 2, u8 data (38 + k) * 256 ^ k] ∧
      (ocp_print_C0_log_json data).lookup "Bad user nand blocks - Normalized"
        = some (JsonValue.uint (∑ k in Finset.range 2, u8 data (38 + k) * 256 ^ k)) ∧
      (ocp_print_C0_log_normal data).lookup "Bad system nand blocks - Normalized"
        = some [∑ k in Finset.range 2, u8 data (46 + k) * 256 ^ k] ∧
      (ocp_print_C0_log_json data).lookup "Bad system nand blocks - Normalized"
        = some (JsonValue.uint (∑ k in Finset.range 2, u8 data (46 + k) * 256 ^ k))) ∧
    (∀ data2 : List Nat,
      (∀ i, i ≠ 38 → i ≠ 39 → i ≠ 46 → i ≠ 47 → u8 data2 i = u8 data i) →
      ((ocp_print_C0_log_normal data2).lookup "Bad user nand blocks - Raw"
          = (ocp_print_C0_log_normal data).lookup "Bad user nand blocks - Raw" ∧
        (ocp_print_C0_log_json data2).lookup "Bad user nand blocks - Raw"
          = (ocp_print_C0_log_json data).lookup "Bad user nand blocks - Raw" ∧
        (ocp_print_C0_log_normal data2).lookup "Bad system nand blocks - Raw"
          = (ocp_print_C0_log_normal data).lookup "Bad system nand blocks - Raw" ∧
        (ocp_print_C0_log_json data2).lookup "Bad system nand blocks - Raw"
          = (ocp_print_C0_log_json data).lookup "Bad system nand blocks - Raw")) ∧
    ((c0_page_bad_blocks 0x34 0x12).length = 512 ∧
      (ocp_print_C0_log_normal (c0_page_bad_blocks 0x34 0x12)).lookup
          "Bad user nand blocks - Raw" = some [2 ^ 48 - 1] ∧
      (ocp_print_C0_log_normal (c0_page_bad_blocks 0x34 0x12)).lookup
          "Bad user nand blocks - Normalized" = some [0x1234] ∧
      (ocp_print_C0_log_normal (c0_page_bad_blocks 0 0)).lookup
          "Bad user nand blocks - Raw" = some [2 ^ 48 - 1] ∧
      (ocp_print_C0_log_normal (c0_page_bad_blocks 0 0)).lookup
          "Bad user nand blocks - Normalized" = some [0]) := by
  obtain ⟨n1, n2, n3, n4⟩ := c0_normal_lookup_raw data
  obtain ⟨j1, j2, j3, j4⟩ := c0_json_lookup_raw data
  have s6 := fun off => le_bytes_eq_sum data 6 off
  have s2 := fun off => le_bytes_eq_sum data 2 off
  have b1 := le_bytes_lt data 6 32
  have b2 := le_bytes_lt data 6 40
  rw [show (256 : Nat) ^ 6 = 2 ^ 48 by norm_num] at b1 b2
  refine ⟨⟨?_, ?_, ?_, ?_⟩, ⟨?_, ?_⟩, ⟨?_, ?_, ?_, ?_⟩, ?_, by decide⟩
  · rw [n1, s6]
  · rw [j1, s6]
  · rw [n2, s6]
  · rw [j2, s6]
  · rw [← s6]; exact b1
  · rw [← s6]; exact b2
  · rw [n3, s2]
  · rw [j3, s2]
  · rw [n4, s2]
  · rw [j4, s2]
  · intro data2 hag
    obtain ⟨m1, m2, _, _⟩ := c0_normal_lookup_raw data2
    obtain ⟨k1, k2, _, _⟩ := c0_json_lookup_raw data2
    have e1 : le_bytes data2 32 6 = le_bytes data 32 6 :=
      le_bytes_agree data2 data 6 32 (fun j hj => hag _ (by omega) (by omega) (by omega)
        (by omega))
    have e2 : le_bytes data2 40 6 = le_bytes data 40 6 :=
      le_bytes_agree data2 data 6 40 (fun j hj => hag _ (by omega) (by omega) (by omega)
        (by omega))
    rw [m1, m2, k1, k2, n1, n2, j1, j2, e1, e2]
    exact ⟨rfl, rfl, rfl, rfl⟩

set_option maxHeartbeats 2000000 in
theorem c3_normal_units (f : Int → String) (data : List Nat) :
    (ocp_print_C3_log_normal f data).lookup "Active Bucket Timer"
      = some [Cell.num (5 * (le16_to_cpu data 2 : Int))] ∧
    (ocp_print_C3_log_normal f data).lookup "Active Bucket Timer Threshold"
      = some [Cell.num (5 * (le16_to_cpu data 4 : Int))] ∧
    (ocp_print_C3_log_normal f data).lookup "Active Threshold A"
      = some [Cell.num (5 * ((u8 data 6 : Int) + 1))] ∧
    (ocp_print_C3_log_normal f data).lookup "Active Threshold B"
      = some [Cell.num (5 * ((u8 data 7 : Int) + 1))] ∧
    (ocp_print_C3_log_normal f data).lookup "Active Threshold C"
      = some [Cell.num (5 * ((u8 data 8 : Int) + 1))] ∧
    (ocp_print_C3_log_normal f data).lookup "Active Threshold D"
      = some [Cell.num (5 * ((u8 data 9 : Int) + 1))] ∧
    (ocp_print_C3_log_normal f data).lookup "Active Latency Minimum Window"
      = some [Cell.num (100 * (u8 data 12 : Int))] := by
  have hb : ∀ off, (u8 data off + 1) % 2 ^ 16 = u8 data off + 1 := fun off =>
    Nat.mod_eq_of_lt (by have : u8 data off < 256 := Nat.mod_lt _ (by decide); omega)
  simp only [ocp_print_C3_log_normal, List.cons_append, List.lookup_cons, String.reduceBEq,
    ssd_latency_monitor_log.active_bucket_timer,
    ssd_latency_monitor_log.active_bucket_timer_threshold,
    ssd_latency_monitor_log.active_threshold_a, ssd_latency_monitor_log.active_threshold_b,
    ssd_latency_monitor_log.active_threshold_c, ssd_latency_monitor_log.active_threshold_d,
    ssd_latency_monitor_log.active_latency_min_window, hb,
    C0_ACTIVE_BUCKET_TIMER_INCREMENT, C0_ACTIVE_THRESHOLD_INCREMENT, C0_MINIMUM_WINDOW_INCREMENT]
  simp

set_option maxHeartbeats 2000000 in
theorem c3_json_units (f : Int → String) (data : List Nat) :
    (ocp_print_C3_log_json f data).lookup "Active Bucket Timer"
      = some (JsonNode.value (JsonScalar.uint (5 * le16_to_cpu data 2))) ∧
    (ocp_print_C3_log_json f data).lookup "Active Bucket Timer Threshold"
      = some (JsonNode.value (JsonScalar.uint (5 * le16_to_cpu data 4))) ∧
    (ocp_print_C3_log_json f data).lookup "Active Threshold A"
      = some (JsonNode.value (JsonScalar.uint (5 * (u8 data 6 + 1)))) ∧
    (ocp_print_C3_log_json f data).lookup "Active Threshold B"
      = some (JsonNode.value (JsonScalar.uint (5 * (u8 data 7 + 1)))) ∧
    (ocp_print_C3_log_json f data).lookup "Active Threshold C"
      = some (JsonNode.value (JsonScalar.uint (5 * (u8 data 8 + 1)))) ∧
    (ocp_print_C3_log_json f data).lookup "Active Threshold D"
      = some (JsonNode.value (JsonScalar.uint (5 * (u8 data 9 + 1)))) ∧
    (ocp_print_C3_log_json f data).lookup "Active Latency Minimum Window"
      = some (JsonNode.value (JsonScalar.uint (100 * u8 data 12))) := by
  have hb : ∀ off, (u8 data off + 1) % 2 ^ 16 = u8 data off + 1 := fun off =>
    Nat.mod_eq_of_lt (by have : u8 data off < 256 := Nat.mod_lt _ (by decide); omega)
  simp only [ocp_print_C3_log_json, range_four, List.map, List.cons_append,
    List.nil_append, List.append_assoc, toString_zero, toString_one, toString_two,
    toString_three, String.reduceAppend, List.lookup_cons, String.reduceBEq, j_loop_from_two,
    ssd_latency_monitor_log.active_bucket_timer,
    ssd_latency_monitor_log.active_bucket_timer_threshold,
    ssd_latency_monitor_log.active_threshold_a, ssd_latency_monitor_log.active_threshold_b,
    ssd_latency_monitor_log.active_threshold_c, ssd_latency_monitor_log.active_threshold_d,
    ssd_latency_monitor_log.active_latency_min_window, hb,
    C0_ACTIVE_BUCKET_TIMER_INCREMENT, C0_ACTIVE_THRESHOLD_INCREMENT, C0_MINIMUM_WINDOW_INCREMENT,
    and_self]

set_option maxRecDepth 100000 in
/-- C25: in both renderings of the latency report the two timer fields show
`5 * raw` for the raw 16-bit little-endian values at offsets 2 and 4, the
thresholds A..D show `5 * (raw + 1)` for the raw bytes at offsets 6..9, and the
minimum window shows `100 * raw` for the raw byte at offset 12.  No value
wraps: a timer shows at most 327675, a threshold at most 1280, the window at
most 25500.  On the page `c3_page_units` (raw timer 0xFFFF, raw threshold A
255, raw window 255) the values shown are 327675, 1280 and 25500. -/
theorem c3_display_units (f : Int → String) (data : List Nat) :
    ((ocp_print_C3_log_normal f data).lookup "Active Bucket Timer"
        = some [Cell.num (5 * (le16_to_cpu data 2 : Int))] ∧
      (ocp_print_C3_log_normal f data).lookup "Active Bucket Timer Threshold"
        = some [Cell.num (5 * (le16_to_cpu data 4 : Int))] ∧
      (ocp_print_C3_log_normal f data).lookup "Active Threshold A"
        = some [Cell.num (5 * ((u8 data 6 : Int) + 1))] ∧
      (ocp_print_C3_log_normal f data).lookup "Active Threshold B"
        = some [Cell.num (5 * ((u8 data 7 : Int) + 1))] ∧
      (ocp_print_C3_log_normal f data).lookup "Active Threshold C"
        = some [Cell.num (5 * ((u8 data 8 : Int) + 1))] ∧
      (ocp_print_C3_log_normal f data).lookup "Active Threshold D"
        = some [Cell.num (5 * ((u8 data 9 : Int) + 1))] ∧
      (ocp_print_C3_log_normal f data).lookup "Active Latency Minimum Window"
        = some [Cell.num (100 * (u8 data 12 : Int))]) ∧
    ((ocp_print_C3_log_json f data).lookup "Active Bucket Timer"
        = some (JsonNode.value (JsonScalar.uint (5 * le16_to_cpu data 2))) ∧
      (ocp_print_C3_log_json f data).lookup "Active Bucket Timer Threshold"
        = some (JsonNode.value (JsonScalar.uint (5 * le16_to_cpu data 4))) ∧
      (ocp_print_C3_log_json f data).lookup "Active Threshold A"
        = some (JsonNode.value (JsonScalar.uint (5 * (u8 data 6 + 1)))) ∧
      (ocp_print_C3_log_json f data).lookup "Active Threshold B"
        = some (JsonNode.value (JsonScalar.uint (5 * (u8 data 7 + 1)))) ∧
      (ocp_print_C3_log_json f data).lookup "Active Threshold C"
        = some (JsonNode.value (JsonScalar.uint (5 * (u8 data 8 + 1)))) ∧
      (ocp_print_C3_log_json f data).lookup "Active Threshold D"
        = some (JsonNode.value (JsonScalar.uint (5 * (u8 data 9 + 1)))) ∧
      (ocp_print_C3_log_json f data).lookup "Active Latency Minimum Window"
        = some (JsonNode.value (JsonScalar.uint (100 * u8 data 12)))) ∧
    (∀ off, 5 * le16_to_cpu data off ≤ 327675 ∧ 5 * (u8 data off + 1) ≤ 1280 ∧
      100 * u8 data off ≤ 25500) ∧
    (le16_to_cpu c3_page_units 2 = 0xFFFF ∧ u8 c3_page_units 6 = 255 ∧
      u8 c3_page_units 12 = 255) ∧
    ((ocp_print_C3_log_normal f c3_page_units).lookup "Active Bucket Timer"
        = some [Cell.num 327675] ∧
      (ocp_print_C3_log_normal f c3_page_units).lookup "Active Threshold A"
        = some [Cell.num 1280] ∧
      (ocp_print_C3_log_normal f c3_page_units).lookup "Active Latency Minimum Window"
        = some [Cell.num 25500] ∧
      (ocp_print_C3_log_json f c3_page_units).lookup "Active Threshold A"
        = some (JsonNode.value (JsonScalar.uint 1280))) := by
  have hn := c3_normal_units f c3_page_units
  have hj := c3_json_units f c3_page_units
  have v1 : le16_to_cpu c3_page_units 2 = 0xFFFF := by decide
  have v2 : u8 c3_page_units 6 = 255 := by decide
  have v3 : u8 c3_page_units 12 = 255 := by decide
  refine ⟨c3_normal_units f data, c3_json_units f data, ?_, ⟨v1, v2, v3⟩, ?_, ?_, ?_, ?_⟩
  · intro off
    have h16 := le16_to_cpu_lt data off
    have h8 : u8 data off < 256 := Nat.mod_lt _ (by decide)
    omega
  · rw [hn.1, v1]; rfl
  · rw [hn.2.2.1, v2]; rfl
  · rw [hn.2.2.2.2.2.2, v3]; rfl
  · rw [hj.2.2.1, v2]

theorem get_telemetry_dump_header_fetches (env : Env) (filename sn : String) (t : Nat)
    (data_area : Int) (header_print : Bool)
    (ht : t = TELEMETRY_TYPE_HOST_0 ∨ t = TELEMETRY_TYPE_HOST_1
      ∨ t = TELEMETRY_TYPE_CONTROLLER) :
    ((get_telemetry_dump env filename sn t data_area header_print).2.filter
        Event.isHeaderFetch).map Event.lsp_rae
      = [some (variant_lsp t, decide (variant_rae t ≠ 0))] := by
  obtain ⟨hh1, _⟩ := header_fetch_parameters env t ht
  unfold get_telemetry_dump
  simp only []
  split
  · exact hh1
  · split
    · exact hh1
    · rw [List.filter_append, List.map_append, hh1,
        (extract_dump_read_parameters _ _ _ _ _ _ _ _ _ _ _).1]
      rfl

/-- `ocp_telemetry_log` when its preliminary calls succeed and neither a type
nor an area is given. -/
theorem ocp_telemetry_log_all (w : TelemetryWorld) (fd : Int) (cfg : TelemetryConfig)
    (hfd : 0 ≤ fd) (hstat : 0 ≤ w.fstatRes)
    (hns : w.isBlk = true → 0 ≤ to_int (to_u32 w.nsidRes)) (hid : w.identifyRes = 0)
    (ht : cfg.type = none) (ha : cfg.area = 0) :
    ocp_telemetry_log w fd cfg =
      ((if (w.ctrl_lpa % 256).testBit 3 = true then
          (telemetry_dump_call w cfg (telemetry_sn w) TELEMETRY_TYPE_CONTROLLER 3 true).1
        else (telemetry_dump_call w cfg (telemetry_sn w) TELEMETRY_TYPE_HOST_1 3 false).1),
       telemetry_prelude w
        ++ (telemetry_dump_call w cfg (telemetry_sn w) TELEMETRY_TYPE_HOST_0 1 true).2
        ++ (telemetry_dump_call w cfg (telemetry_sn w) TELEMETRY_TYPE_HOST_0 3 false).2
        ++ (telemetry_dump_call w cfg (telemetry_sn w) TELEMETRY_TYPE_HOST_1 1 true).2
        ++ (telemetry_dump_call w cfg (telemetry_sn w) TELEMETRY_TYPE_HOST_1 3 false).2
        ++ (if (w.ctrl_lpa % 256).testBit 3 = true then
              (telemetry_dump_call w cfg (telemetry_sn w) TELEMETRY_TYPE_CONTROLLER 3 true).2
            else [])
        ++ [Event.close fd]) := by
  have h1 : ¬ fd < 0 := not_lt.mpr hfd
  have h2 : ¬ w.fstatRes < 0 := not_lt.mpr hstat
  have h3 : ¬ (w.isBlk = true ∧ to_int (to_u32 w.nsidRes) < 0) := by
    rintro ⟨hb, hlt⟩
    exact absurd (hns hb) (not_le.mpr hlt)
  have hbit := lpa_bit3 (w.ctrl_lpa % 256) (Nat.mod_lt _ (by decide))
  unfold ocp_telemetry_log
  simp only [h1, h2, h3, if_false, hid, ne_eq, not_true_eq_false, ht, ha, and_self, if_true,
    telemetry_extractions, hbit]
  by_cases hb : (w.ctrl_lpa % 256).testBit 3 = true
  · simp [hb, telemetry_prelude, telemetry_sn, hid]
  · simp [hb, telemetry_prelude, telemetry_sn, hid]

/-- C26: when the preliminary calls succeed and neither a type nor an area is
given, `ocp_telemetry_log` returns the status of the controller extraction of
area 3 when bit 3 of `lpa` is set and the status of the host 1 extraction of
area 3 otherwise.  Its trace is the preliminary calls, then the four host
extractions in the order (host 0, 1), (host 0, 3), (host 1, 1), (host 1, 3),
each complete whatever the earlier ones returned, then the controller
extraction when the bit is set, then the `close` of the device; it holds the
header fetches of all of them.  The return value does not change when the
outside world of the earlier extractions is replaced by any other. -/
theorem telemetry_all_returns_last_status (w : TelemetryWorld) (fd : Int)
    (cfg : TelemetryConfig) (hfd : 0 ≤ fd) (hstat : 0 ≤ w.fstatRes)
    (hns : w.isBlk = true → 0 ≤ to_int (to_u32 w.nsidRes)) (hid : w.identifyRes = 0)
    (ht : cfg.type = none) (ha : cfg.area = 0) :
    (ocp_telemetry_log w fd cfg).1
      = (if (w.ctrl_lpa % 256).testBit 3 = true then
          (get_telemetry_dump (w.dumpEnv TELEMETRY_TYPE_CONTROLLER 3) (cfg.file.getD "")
            (telemetry_sn w) TELEMETRY_TYPE_CONTROLLER 3 true).1
        else
          (get_telemetry_dump (w.dumpEnv TELEMETRY_TYPE_HOST_1 3) (cfg.file.getD "")
            (telemetry_sn w) TELEMETRY_TYPE_HOST_1 3 false).1) ∧
    (ocp_telemetry_log w fd cfg).2
      = telemetry_prelude w
        ++ (get_telemetry_dump (w.dumpEnv TELEMETRY_TYPE_HOST_0 1) (cfg.file.getD "")
              (telemetry_sn w) TELEMETRY_TYPE_HOST_0 1 true).2
        ++ (get_telemetry_dump (w.dumpEnv TELEMETRY_TYPE_HOST_0 3) (cfg.file.getD "")
              (telemetry_sn w) TELEMETRY_TYPE_HOST_0 3 false).2
        ++ (get_telemetry_dump (w.dumpEnv TELEMETRY_TYPE_HOST_1 1) (cfg.file.getD "")
              (telemetry_sn w) TELEMETRY_TYPE_HOST_1 1 true).2
        ++ (get_telemetry_dump (w.dumpEnv TELEMETRY_TYPE_HOST_1 3) (cfg.file.getD "")
              (telemetry_sn w) TELEMETRY_TYPE_HOST_1 3 false).2
        ++ (if (w.ctrl_lpa % 256).testBit 3 = true then
              (get_telemetry_dump (w.dumpEnv TELEMETRY_TYPE_CONTROLLER 3) (cfg.file.getD "")
                (telemetry_sn w) TELEMETRY_TYPE_CONTROLLER 3 true).2
            else [])
        ++ [Event.close fd] ∧
    ((ocp_telemetry_log w fd cfg).2.filter Event.isHeaderFetch).map Event.lsp_rae
      = [some (0, false), some (0, false), some (1, false), some (1, false)]
        ++ (if (w.ctrl_lpa % 256).testBit 3 = true then [some (0, true)] else []) ∧
    (∀ e : Nat → Int → Env,
      (if (w.ctrl_lpa % 256).testBit 3 = true then
          e TELEMETRY_TYPE_CONTROLLER 3 = w.dumpEnv TELEMETRY_TYPE_CONTROLLER 3
        else e TELEMETRY_TYPE_HOST_1 3 = w.dumpEnv TELEMETRY_TYPE_HOST_1 3) →
      (ocp_telemetry_log (w.withDumpEnv e) fd cfg).1 = (ocp_telemetry_log w fd cfg).1) := by
  have hall := ocp_telemetry_log_all w fd cfg hfd hstat hns hid ht ha
  obtain ⟨n1, _⟩ := telemetry_prelude_no_reads w
  have hpre : (telemetry_prelude w).filter Event.isHeaderFetch = [] := by
    rw [List.filter_eq_nil_iff]
    intro ev hev hh
    have := List.any_eq_true.mpr ⟨ev, hev, hh⟩
    rw [n1] at this
    exact absurd this (by decide)
  refine ⟨?_, ?_, ?_, ?_⟩
  · rw [hall]; rfl
  · rw [hall]; rfl
  · rw [hall]
    simp only [telemetry_dump_call, List.filter_append, List.map_append, hpre, List.map_nil,
      List.nil_append,
      get_telemetry_dump_header_fetches _ _ _ TELEMETRY_TYPE_HOST_0 _ _ (Or.inl rfl),
      get_telemetry_dump_header_fetches _ _ _ TELEMETRY_TYPE_HOST_1 _ _ (Or.inr (Or.inl rfl))]
    by_cases hb : (w.ctrl_lpa % 256).testBit 3 = true
    · simp only [hb, if_true,
        get_telemetry_dump_header_fetches _ _ _ TELEMETRY_TYPE_CONTROLLER _ _
          (Or.inr (Or.inr rfl))]
      rfl
    · simp only [hb, Bool.false_eq_true, if_false, List.filter_nil, List.map_nil]
      rfl
  · intro e he
    have hall2 := ocp_telemetry_log_all (w.withDumpEnv e) fd cfg hfd hstat hns hid ht ha
    rw [hall, hall2]
    by_cases hb : (w.ctrl_lpa % 256).testBit 3 = true
    · have hb2 : ((w.withDumpEnv e).ctrl_lpa % 256).testBit 3 = true := hb
      rw [if_pos hb] at he
      simp only [hb, hb2, if_true, telemetry_dump_call]
      show (get_telemetry_dump (e TELEMETRY_TYPE_CONTROLLER 3) _ _ _ _ _).1 = _
      rw [he]
      rfl
    · have hb2 : ¬ ((w.withDumpEnv e).ctrl_lpa % 256).testBit 3 = true := hb
      rw [if_neg hb] at he
      simp only [hb, hb2, if_false, telemetry_dump_call]
      show (get_telemetry_dump (e TELEMETRY_TYPE_HOST_1 3) _ _ _ _ _).1 = _
      rw [he]
      rfl

set_option maxRecDepth 100000 in
/-- C26 witness: on a device without the capability bit, when the header
fetch of the first extraction (host 0, area 1) fails with status 5 the command
returns 0, the status of the last extraction, and still issues the four header
fetches; when the header fetch of the last extraction (host 1, area 3) fails
with status 7 the command returns 7. -/
theorem telemetry_all_returns_last_status_witness :
    (get_telemetry_dump
        ((telemetryWorldFailing 0 TELEMETRY_TYPE_HOST_0 1 5).dumpEnv TELEMETRY_TYPE_HOST_0 1) ""
        "SN123" TELEMETRY_TYPE_HOST_0 1 true).1 = 5 ∧
    (ocp_telemetry_log (telemetryWorldFailing 0 TELEMETRY_TYPE_HOST_0 1 5) 3
      { type := none, area := 0, file := none }).1 = 0 ∧
    ((ocp_telemetry_log (telemetryWorldFailing 0 TELEMETRY_TYPE_HOST_0 1 5) 3
      { type := none, area := 0, file := none }).2.filter Event.isHeaderFetch).map Event.lsp_rae
      = [some (0, false), some (0, false), some (1, false), some (1, false)] ∧
    (ocp_telemetry_log (telemetryWorldFailing 0 TELEMETRY_TYPE_HOST_1 3 7) 3
      { type := none, area := 0, file := none }).1 = 7 :=
  ⟨by decide,
    (telemetry_all_returns_last_status (telemetryWorldFailing 0 TELEMETRY_TYPE_HOST_0 1 5) 3
      { type := none, area := 0, file := none } (by decide) (by decide) (by decide) rfl rfl
      rfl).1,
    (telemetry_all_returns_last_status (telemetryWorldFailing 0 TELEMETRY_TYPE_HOST_0 1 5) 3
      { type := none, area := 0, file := none } (by decide) (by decide) (by decide) rfl rfl
      rfl).2.2.1,
    (telemetry_all_returns_last_status (telemetryWorldFailing 0 TELEMETRY_TYPE_HOST_1 3 7) 3
      { type := none, area := 0, file := none } (by decide) (by decide) (by decide) rfl rfl
      rfl).1⟩

theorem fw_history_path_trace (w : SecurityWorld) (featureName : String)
    (fileName : Option String) :
    (get_and_save_fw_activation_history_path w featureName fileName).2.1.all
        (fun e => !e.isSecurity && !e.isOpen) = true ∧
    ∀ (s : FileState) (q : String),
      List.foldl (fileStep q) s
        (get_and_save_fw_activation_history_path w featureName fileName).2.1 = s := by
  unfold get_and_save_fw_activation_history_path
  cases fileName with
  | none =>
    simp only []
    split_ifs
    · exact ⟨rfl, fun _ _ => rfl⟩
    · exact ⟨rfl, fun _ _ => rfl⟩
  | some name => exact ⟨rfl, fun _ _ => rfl⟩

theorem takeWhile_append_stop (p : Event → Bool) (a b : List Event) (e : Event)
    (ha : a.all p = true) (he : p e = false) :
    (a ++ e :: b).takeWhile p = a := by
  induction a with
  | nil => simp [List.takeWhile_cons, he]
  | cons x xs ih =>
    simp only [List.all_cons, Bool.and_eq_true] at ha
    simp [List.takeWhile_cons, ha.1, ih ha.2]

/-- The status and the commands of `get_fw_activation_history_data`: the Reset
send, the Arm send and, when the Arm send returned 0, the Receive. -/
theorem fw_history_data_shape (w : SecurityWorld) (Buf : List Nat) (BufSize : Nat) :
    (get_fw_activation_history_data w Buf BufSize).1
      = (if w.armRes ≠ 0 then w.armRes else w.recv.1) ∧
    (get_fw_activation_history_data w Buf BufSize).2.1
      = Event.nvme_sec_send 0x1003 0xFC 4 [0, 0, 0, 0] w.resetRes
        :: Event.nvme_sec_send 0x1012 0xFC 16
             [0, 0, 0, 0, 0xD, 0, 0, 0, 0, 0, 0, 0, 0, 0, 0, 0] w.armRes
        :: (if w.armRes ≠ 0 then [] else [Event.nvme_sec_recv 0x1012 0xFC BufSize w.recv.1]) := by
  have hr : (SecurityCMDReset w).2
      = [Event.nvme_sec_send 0x1003 0xFC 4 [0, 0, 0, 0] w.resetRes] := by
    unfold SecurityCMDReset
    simp only []
    split_ifs <;> rfl
  unfold get_fw_activation_history_data
  simp only [hr]
  split_ifs <;> first | exact ⟨rfl, rfl⟩ | (exfalso; omega)

/-- C27: when the path is built and the file opens, every call
`get_and_save_fw_activation_history` makes before its first security command
is a call of the path construction, none of them an `open`, followed by the
truncating `open` of the output path, and a security command does follow.  If
then the Arm send or the Receive returns a non-zero status, the function
returns that status, and the file at the output path exists and is empty
whatever it held before; its descriptor is still open. -/
theorem fw_history_open_precedes_exchange (w : SecurityWorld) (featureName : String)
    (fileName : Option String) (prior : Option (List Nat))
    (hpath : (get_and_save_fw_activation_history_path w featureName fileName).1 = 0)
    (hopen : 0 ≤ w.openRes) :
    (get_and_save_fw_activation_history w featureName fileName).2.takeWhile
        (fun e => !e.isSecurity)
      = (get_and_save_fw_activation_history_path w featureName fileName).2.1
        ++ [Event.open_trunc
             (get_and_save_fw_activation_history_path w featureName fileName).2.2 w.openRes] ∧
    (get_and_save_fw_activation_history_path w featureName fileName).2.1.any Event.isOpen
      = false ∧
    (get_and_save_fw_activation_history w featureName fileName).2.any Event.isSecurity = true ∧
    (w.armRes ≠ 0 ∨ w.recv.1 ≠ 0 →
      ((get_and_save_fw_activation_history w featureName fileName).1
          = (if w.armRes ≠ 0 then w.armRes else w.recv.1) ∧
        (get_and_save_fw_activation_history w featureName fileName).1 ≠ 0 ∧
        fileAfter (get_and_save_fw_activation_history_path w featureName fileName).2.2 prior
            (get_and_save_fw_activation_history w featureName fileName).2
          = { content := some [], fd := some w.openRes })) := by
  obtain ⟨hp1, hp2⟩ := fw_history_path_trace w featureName fileName
  have ho : ¬ w.openRes < 0 := not_lt.mpr hopen
  obtain ⟨hd1, hd2⟩ := fw_history_data_shape w (List.replicate UNIT_DATA_SIZE_5KB 0)
    UNIT_DATA_SIZE_5KB
  have hpa : (get_and_save_fw_activation_history_path w featureName fileName).2.1.all
      (fun e => !e.isSecurity) = true := by
    rw [List.all_eq_true] at hp1 ⊢
    intro e he
    have := hp1 e he
    simp only [Bool.and_eq_true] at this
    exact this.1
  have hpo : (get_and_save_fw_activation_history_path w featureName fileName).2.1.any
      Event.isOpen = false := by
    rw [Bool.eq_false_iff]
    intro h
    rw [List.any_eq_true] at h
    obtain ⟨e, he, ho2⟩ := h
    rw [List.all_eq_true] at hp1
    have := hp1 e he
    simp [ho2] at this
  have htr : ∃ rest, (get_and_save_fw_activation_history w featureName fileName).2
      = ((get_and_save_fw_activation_history_path w featureName fileName).2.1
          ++ [Event.open_trunc
               (get_and_save_fw_activation_history_path w featureName fileName).2.2 w.openRes])
        ++ Event.nvme_sec_send 0x1003 0xFC 4 [0, 0, 0, 0] w.resetRes :: rest := by
    unfold get_and_save_fw_activation_history
    simp only [hpath, ne_eq, not_true_eq_false, if_false, ho, hd2]
    split_ifs <;> exact ⟨_, by simp only [List.append_assoc, List.cons_append]; rfl⟩
  obtain ⟨rest, hrest⟩ := htr
  refine ⟨?_, hpo, ?_, ?_⟩
  · rw [hrest]
    apply takeWhile_append_stop
    · rw [List.all_append, hpa]; rfl
    · rfl
  · rw [hrest]
    simp [List.any_append, Event.isSecurity]
  · intro hfail
    have hne : (get_fw_activation_history_data w (List.replicate UNIT_DATA_SIZE_5KB 0)
        UNIT_DATA_SIZE_5KB).1 ≠ 0 := by
      rw [hd1]
      by_cases ha : w.armRes = 0
      · rcases hfail with h | h
        · exact absurd ha h
        · simpa [ha] using h
      · simp [ha]
    have hres : get_and_save_fw_activation_history w featureName fileName
        = ((if w.armRes ≠ 0 then w.armRes else w.recv.1),
            ((get_and_save_fw_activation_history_path w featureName fileName).2.1
              ++ [Event.open_trunc
                (get_and_save_fw_activation_history_path w featureName fileName).2.2
                w.openRes])
            ++ (get_fw_activation_history_data w (List.replicate UNIT_DATA_SIZE_5KB 0)
                UNIT_DATA_SIZE_5KB).2.1) := by
      unfold get_and_save_fw_activation_history
      simp only [hpath, ne_eq, not_true_eq_false, if_false, ho]
      rw [if_pos hne, hd1]
    refine ⟨by rw [hres], ?_, ?_⟩
    · rw [hres, ← hd1]; exact hne
    · rw [hres]
      unfold fileAfter
      simp only [List.foldl_append, hp2, hd2]
      by_cases ha : w.armRes = 0 <;>
        simp [ha, List.foldl, fileStep, hopen]

set_option maxRecDepth 100000 in
/-- C27 witness: the Arm send fails with status 7; the function returns 7 and
the file "fw_SN123_FWActivationHistory.json", which held one byte before, is
left empty; with the Arm send succeeding and the Receive failing with status 9
it returns 9. -/
theorem fw_history_open_precedes_exchange_witness :
    (get_and_save_fw_activation_history_path (securityWorld 0 7 0) "fw" none).1 = 0 ∧
    0 ≤ (securityWorld 0 7 0).openRes ∧
    (get_and_save_fw_activation_history (securityWorld 0 7 0) "fw" none).1 = 7 ∧
    fileAfter "fw_SN123_FWActivationHistory.json" (some [1])
        (get_and_save_fw_activation_history (securityWorld 0 7 0) "fw" none).2
      = { content := some [], fd := some 3 } ∧
    (get_and_save_fw_activation_history (securityWorld 0 0 9) "fw" none).1 = 9 :=
  ⟨rfl, by decide,
    ((fw_history_open_precedes_exchange (securityWorld 0 7 0) "fw" none (some [1]) rfl
      (by decide)).2.2.2 (Or.inl (by decide))).1,
    ((fw_history_open_precedes_exchange (securityWorld 0 7 0) "fw" none (some [1]) rfl
      (by decide)).2.2.2 (Or.inl (by decide))).2.2,
    ((fw_history_open_precedes_exchange (securityWorld 0 0 9) "fw" none none rfl
      (by decide)).2.2.2 (Or.inr (by decide))).1⟩

/-- C28: for a header with DataArea1LastBlock ≤ DataArea2LastBlock ≤
DataArea3LastBlock and any area, the block count is DA1, DA2 - DA1 or DA3 - DA2
for areas 1, 2, 3 and 0 otherwise, at most 65535; the `int` handed to
`extract_dump_get_log` is exactly the block count times 512, between 0 and
33553920; for a non-empty area the chunk count is between 1 and 32768; and for
every loop counter `i` below the chunk count the product `(i + 1) * 100` is
positive and at most 3276800, below `2 ^ 31`, so its `int` value is the exact
product and the percentage printed is its quotient by the chunk count. -/
theorem telemetry_sizes_fit_int (data : List Nat) (data_area : Int)
    (h12 : DataArea1LastBlock data ≤ DataArea2LastBlock data)
    (h23 : DataArea2LastBlock data ≤ DataArea3LastBlock data) :
    area_size data data_area
      = (if data_area = 1 then DataArea1LastBlock data
         else if data_area = 2 then DataArea2LastBlock data - DataArea1LastBlock data
         else if data_area = 3 then DataArea3LastBlock data - DataArea2LastBlock data
         else 0) ∧
    area_size data data_area ≤ 65535 ∧
    dump_size data data_area = (area_size data data_area : Int) * 512 ∧
    0 ≤ dump_size data data_area ∧ dump_size data data_area ≤ 33553920 ∧
    (area_size data data_area ≠ 0 →
      (1 ≤ total_loop_cnt (dump_size data data_area) TELEMETRY_TRANSFER_SIZE ∧
        total_loop_cnt (dump_size data data_area) TELEMETRY_TRANSFER_SIZE ≤ 32768)) ∧
    (∀ i : Int, 0 ≤ i →
      i < total_loop_cnt (dump_size data data_area) TELEMETRY_TRANSFER_SIZE →
      (0 < progress_product i ∧ progress_product i ≤ 3276800 ∧
        progress_product i < 2 ^ 31 ∧
        to_int (to_u32 (progress_product i)) = progress_product i ∧
        progress_percent i (total_loop_cnt (dump_size data data_area) TELEMETRY_TRANSFER_SIZE)
          = (i + 1) * 100
            / total_loop_cnt (dump_size data data_area) TELEMETRY_TRANSFER_SIZE)) := by
  have b1 : DataArea1LastBlock data < 65536 := le16_to_cpu_lt data 8
  have b2 : DataArea2LastBlock data < 65536 := le16_to_cpu_lt data 10
  have b3 : DataArea3LastBlock data < 65536 := le16_to_cpu_lt data 12
  have hsz : area_size data data_area
      = (if data_area = 1 then DataArea1LastBlock data
         else if data_area = 2 then DataArea2LastBlock data - DataArea1LastBlock data
         else if data_area = 3 then DataArea3LastBlock data - DataArea2LastBlock data
         else 0) := by
    unfold area_size to_u64
    split_ifs <;> first | rfl | omega
  have hle : area_size data data_area ≤ 65535 := by
    rw [hsz]; split_ifs <;> omega
  have hds : dump_size data data_area = (area_size data data_area : Int) * 512 := by
    unfold dump_size to_int TELEMETRY_BYTE_PER_BLOCK
    generalize area_size data data_area = s at hle
    split <;> omega
  have hcnt : total_loop_cnt (dump_size data data_area) TELEMETRY_TRANSFER_SIZE
      = ((area_size data data_area : Int) + 1) / 2 := by
    rw [hds]
    unfold total_loop_cnt TELEMETRY_TRANSFER_SIZE
    generalize area_size data data_area = s at hle
    have hd : Int.tdiv ((s : Int) * 512) ((1024 : Nat) : Int) = (s : Int) * 512 / 1024 :=
      Int.tdiv_eq_ediv (by omega) (by norm_num)
    have hm : Int.tmod ((s : Int) * 512) ((1024 : Nat) : Int) = (s : Int) * 512 % 1024 :=
      Int.tmod_eq_emod (by omega) (by norm_num)
    rw [hd, hm]
    split <;> omega
  have hnn : 0 ≤ dump_size data data_area := by rw [hds]; omega
  have hub : dump_size data data_area ≤ 33553920 := by rw [hds]; omega
  refine ⟨hsz, hle, hds, hnn, hub, ?_, ?_⟩
  · intro hne
    rw [hcnt]
    omega
  · intro i hi0 hi
    rw [hcnt] at hi ⊢
    have hp : progress_product i = (i + 1) * 100 := rfl
    have hb : progress_product i ≤ 3276800 := by rw [hp]; omega
    have hpos : 0 < progress_product i := by rw [hp]; omega
    have hconv : to_int (to_u32 (progress_product i)) = progress_product i :=
      to_int_to_u32 _ (by omega) (by omega)
    refine ⟨hpos, hb, by omega, hconv, ?_⟩
    unfold progress_percent
    rw [hconv, hp]
    exact Int.tdiv_eq_ediv (by omega) (by omega)

set_option maxRecDepth 100000 in
/-- C28 witness: the header with DA1 = DA2 = 0 and DA3 = 65535: area 3 has
65535 blocks, the size handed over is 33553920, the chunk count is 32768, and
for the last loop counter 32767 the product is 3276800 and the percentage 100. -/
theorem telemetry_sizes_fit_int_witness :
    DataArea1LastBlock header_max ≤ DataArea2LastBlock header_max ∧
    DataArea2LastBlock header_max ≤ DataArea3LastBlock header_max ∧
    area_size header_max 3 = 65535 ∧
    dump_size header_max 3 = 33553920 ∧
    total_loop_cnt (dump_size header_max 3) TELEMETRY_TRANSFER_SIZE = 32768 ∧
    progress_product 32767 = 3276800 ∧
    to_int (to_u32 (progress_product 32767)) = progress_product 32767 ∧
    progress_percent 32767 (total_loop_cnt (dump_size header_max 3) TELEMETRY_TRANSFER_SIZE)
      = 100 :=
  ⟨by decide, by decide,
    (telemetry_sizes_fit_int header_max 3 (by decide) (by decide)).1,
    (telemetry_sizes_fit_int header_max 3 (by decide) (by decide)).2.2.1,
    by decide, by decide,
    ((telemetry_sizes_fit_int header_max 3 (by decide) (by decide)).2.2.2.2.2.2 32767
      (by decide) (by decide)).2.2.2.1,
    ((telemetry_sizes_fit_int header_max 3 (by decide) (by decide)).2.2.2.2.2.2 32767
      (by decide) (by decide)).2.2.2.2⟩

end OcpNvme
